import Mathlib

/-!
Light preparation pass (PrepareLightsPass.cpp): shallow embedding.

The embedding follows `src/src/PrepareLightsPass.cpp`, and
`src/src/RtxdiResources.cpp` for the size of the visibility buffer.

* Unsigned 32-bit values are natural numbers reduced with `toU32` at every
  place where the C++ code stores into a `uint32_t`; the signed 32-bit field
  `previousLightBufferOffset` is an `Int` obtained with `toInt32`.
* Floating point is kept abstract: the type `F` of floats and the primitive
  operations on it are the fields of `FloatOps`, so nothing proved here
  depends on a particular rounding behaviour. What the colour packing
  computes is stated for every implementation that has the laws `PackingLaws`
  and `DecodeLaws`, which hold under rounding; the statement on the octahedral
  mapping is over exact arithmetic and is made for `exactOps`, the operations
  computed without rounding in an ordered field.
* What lives outside the two source files (the hash combiner, `std::sort`,
  constants of the shader headers) is the structure `Platform`; `std::sort`
  is used through what the C++ standard promises of it, `StdSortContract`.
* The two `unordered_map` members of the pass are functions `Nat → Option Nat`.
-/

namespace RTXDI

/-! Machine integers -/

/-- Value stored by an assignment to a `uint32_t`. -/
def toU32 (n : Nat) : Nat := n % 4294967296

/-- Value of a `uint32_t` converted to `int` (two's complement). -/
def toInt32 (n : Nat) : Int :=
  if toU32 n < 2147483648 then (toU32 n : Int) else (toU32 n : Int) - 4294967296

/-! Floating point, kept abstract -/

/-- A `float3`. -/
structure Float3 (F : Type) where
  x : F
  y : F
  z : F

/-- Primitive floating point operations used by the pass, one field for each
constant, operator or library function that the source applies to a `float`. -/
structure FloatOps (F : Type) where
  -- the literals 0.f, .5f, 1.f, 2.f, -1.f and the constant dm::PI_f
  zero : F
  half : F
  one : F
  two : F
  negOne : F
  PI_f : F
  -- conversions between float and uint: float(n), (uint)x, and the bit
  -- pattern of a float read or written through the union of fp32ToFp16
  ofUInt : Nat → F
  toUInt : F → Nat
  ofBits : Nat → F
  bits : F → Nat
  -- arithmetic and comparisons
  add : F → F → F
  sub : F → F → F
  mul : F → F → F
  div : F → F → F
  neg : F → F
  lt : F → F → Bool
  le : F → F → Bool
  ge : F → F → Bool
  eq : F → F → Bool
  ne : F → F → Bool
  -- library functions: abs, floor, ceilf, log2f, exp2f, cosf, dm::radians,
  -- saturate, square
  abs : F → F
  floor : F → F
  ceilf : F → F
  log2f : F → F
  exp2f : F → F
  cosf : F → F
  radians : F → F
  saturate : F → F
  square : F → F
  -- the expression float(2 * dm::PI_d * (1.0 - cos(h))) of the directional
  -- light, which the source evaluates in double precision
  diskSolidAngle : F → F
  -- normalize on float3
  normalize : Float3 F → Float3 F

variable {F : Type}

/-- Product `float3 * float`. -/
def Float3.scale (fo : FloatOps F) (v : Float3 F) (s : F) : Float3 F :=
  ⟨fo.mul v.x s, fo.mul v.y s, fo.mul v.z s⟩

/-- Quotient `float3 / float`. -/
def Float3.divide (fo : FloatOps F) (v : Float3 F) (s : F) : Float3 F :=
  ⟨fo.div v.x s, fo.div v.y s, fo.div v.z s⟩

/-- The call `std::max(a, b)` on floats. -/
def fmax (fo : FloatOps F) (a b : F) : F := if fo.lt a b then b else a

/-! Data model -/

/-- The record `PolymorphicLightInfo`, with the fields the pass writes. -/
structure PolymorphicLightInfo (F : Type) where
  center : Float3 F
  colorTypeAndFlags : Nat
  direction1 : Nat
  direction2 : Nat
  scalars : Nat
  logRadiance : Nat
  iesProfileIndex : Nat
  primaryAxis : Nat
  cosConeAngleAndSoftness : Nat

/-- The value-initialised record `PolymorphicLightInfo polymorphicLight = {}`. -/
def PolymorphicLightInfo.init (fo : FloatOps F) : PolymorphicLightInfo F :=
  { center := ⟨fo.zero, fo.zero, fo.zero⟩, colorTypeAndFlags := 0, direction1 := 0,
    direction2 := 0, scalars := 0, logRadiance := 0, iesProfileIndex := 0,
    primaryAxis := 0, cosConeAngleAndSoftness := 0 }

/-- The record `PrepareLightsTask`. -/
structure PrepareLightsTask where
  instanceAndGeometryIndex : Nat
  triangleCount : Nat
  lightBufferOffset : Nat
  previousLightBufferOffset : Int
deriving DecidableEq, Repr

/-- Kind-specific parameters of a scene light; `Other` is any light type
that `ConvertLight` has no case for. -/
inductive LightData (F : Type) where
  | Directional (angularSize irradiance : F) (color direction : Float3 F)
  | Spot (radius intensity innerAngle outerAngle : F) (color position direction : Float3 F)
      (profileTextureIndex : Int)
  | Point (radius intensity : F) (color position : Float3 F)
  | Environment (textureIndex : Int) (radianceScale : Float3 F) (rotation : F)
  | Cylinder (radius length flux : F) (color position direction : Float3 F)
  | Disk (radius flux : F) (color position direction : Float3 F)
  | Rect (width height flux : F) (color position : Float3 F)
      (node : Option (Float3 F × Float3 F × Float3 F))
  | Other

/-- A scene light: the address of the object (`pLight.get()`) and its data. -/
structure Light (F : Type) where
  ptr : Nat
  data : LightData F

/-- The values of `GetLightType()`. -/
inductive LightType where
  | LightType_Directional
  | LightType_Spot
  | LightType_Point
  | LightType_Environment
  | LightType_Cylinder
  | LightType_Disk
  | LightType_Rect
  | LightType_Other
deriving DecidableEq, Repr

/-- The method `Light::GetLightType`. -/
def Light.GetLightType (l : Light F) : LightType :=
  match l.data with
  | .Directional .. => .LightType_Directional
  | .Spot .. => .LightType_Spot
  | .Point .. => .LightType_Point
  | .Environment .. => .LightType_Environment
  | .Cylinder .. => .LightType_Cylinder
  | .Disk .. => .LightType_Disk
  | .Rect .. => .LightType_Rect
  | .Other => .LightType_Other

/-- Material fields read by the pass. -/
structure Material (F : Type) where
  emissiveColor : Float3 F
  emissiveIntensity : F

/-- Mesh geometry fields read by the pass. -/
structure MeshGeometry (F : Type) where
  material : Material F
  numIndices : Nat

/-- A mesh instance: its address (`instance.get()`), its two indices and the
geometries of its mesh. -/
structure MeshInstance (F : Type) where
  ptr : Nat
  instanceIndex : Nat
  geometryInstanceIndex : Nat
  geometries : List (MeshGeometry F)

/-- The part of the scene graph the pass reads. -/
structure Scene (F : Type) where
  meshInstances : List (MeshInstance F)
  geometryInstancesCount : Nat

/-- What the pass uses from outside its source file: the two instances of
`nvrhi::hash_combine` (on an instance address and on a geometry index),
`std::sort` on the light list, `dm::div_ceil`, and the constants and enum
values of the headers. -/
structure Platform (F : Type) where
  hash_combine_ptr : Nat → Nat → Nat
  hash_combine_size : Nat → Nat → Nat
  std_sort : (Light F → Light F → Bool) → List (Light F) → List (Light F)
  div_ceil : Nat → Nat → Nat
  RTXDI_INVALID_LIGHT_INDEX : Nat
  TASK_PRIMITIVE_LIGHT_BIT : Nat
  kPolymorphicLightTypeShift : Nat
  kPolymorphicLightShapingEnableBit : Nat
  kPolymorphicLightIesProfileEnableBit : Nat
  kPolymorphicLightMinLog2Radiance : F
  kPolymorphicLightMaxLog2Radiance : F
  kSphere : Nat
  kCylinder : Nat
  kDisk : Nat
  kRect : Nat
  kDirectional : Nat
  kEnvironment : Nat
  kPoint : Nat

/-- Members of `PrepareLightsPass` that `Process` reads and writes. -/
structure PassState where
  m_InstanceLightBufferOffsets : Nat → Option Nat
  m_PrimitiveLightBufferOffsets : Nat → Option Nat
  m_OddFrame : Bool
  m_MaxLightsInBuffer : Nat

/-- The fields of `rtxdi::FrameParameters` assigned by `Process`. -/
structure FrameParameters where
  firstLocalLight : Nat
  numLocalLights : Nat
  firstInfiniteLight : Nat
  numInfiniteLights : Nat
  environmentLightIndex : Nat
  environmentLightPresent : Nat
  numEmissionThing : Nat
  currentFrameLightOffset : Nat
deriving DecidableEq, Repr

/-- The push constants `PrepareLightsConstants`. -/
structure PrepareLightsConstants where
  numTasks : Nat
  currentFrameLightOffset : Nat
  previousFrameLightOffset : Nat
deriving DecidableEq, Repr

/-! Numeric packing utilities -/

/-- The function `floatToUInt`. -/
def floatToUInt (fo : FloatOps F) (v scale : F) : Nat :=
  toU32 (fo.toUInt (fo.floor (fo.add (fo.mul v scale) fo.half)))

/-- The function `FLOAT3_to_R8G8B8_UNORM`. -/
def FLOAT3_to_R8G8B8_UNORM (fo : FloatOps F) (x y z : F) : Nat :=
  toU32 ((floatToUInt fo (fo.saturate x) (fo.ofUInt 255) &&& 255) |||
    ((floatToUInt fo (fo.saturate y) (fo.ofUInt 255) &&& 255) <<< 8) |||
    ((floatToUInt fo (fo.saturate z) (fo.ofUInt 255) &&& 255) <<< 16))

/-- The function `packLightColor`. -/
def packLightColor (fo : FloatOps F) (P : Platform F) (color : Float3 F)
    (lightInfo : PolymorphicLightInfo F) : PolymorphicLightInfo F :=
  let maxRadiance := fmax fo color.x (fmax fo color.y color.z)
  if fo.le maxRadiance fo.zero then lightInfo
  else
    let range := fo.sub P.kPolymorphicLightMaxLog2Radiance P.kPolymorphicLightMinLog2Radiance
    let logRadiance := fo.div (fo.sub (fo.log2f maxRadiance) P.kPolymorphicLightMinLog2Radiance) range
    let logRadiance := fo.saturate logRadiance
    let packedRadiance :=
      min (toU32 (toU32 (fo.toUInt (fo.ceilf (fo.mul logRadiance (fo.ofUInt 65534)))) + 1)) 65535
    let unpackedRadiance :=
      fo.exp2f (fo.add
        (fo.mul (fo.div (fo.ofUInt (toU32 (packedRadiance + 4294967295))) (fo.ofUInt 65534)) range)
        P.kPolymorphicLightMinLog2Radiance)
    { lightInfo with
      colorTypeAndFlags := lightInfo.colorTypeAndFlags |||
        FLOAT3_to_R8G8B8_UNORM fo (fo.div color.x unpackedRadiance)
          (fo.div color.y unpackedRadiance) (fo.div color.z unpackedRadiance)
      logRadiance := lightInfo.logRadiance ||| packedRadiance }

/-- The function `unitVectorToOctahedron`. -/
def unitVectorToOctahedron (fo : FloatOps F) (N : Float3 F) : F × F :=
  let m := fo.add (fo.add (fo.abs N.x) (fo.abs N.y)) (fo.abs N.z)
  let X := fo.div N.x m
  let Y := fo.div N.y m
  if fo.le N.z fo.zero then
    let signsX := if fo.ge X fo.zero then fo.one else fo.negOne
    let signsY := if fo.ge Y fo.zero then fo.one else fo.negOne
    let x := fo.mul (fo.sub fo.one (fo.abs Y)) signsX
    let y := fo.mul (fo.sub fo.one (fo.abs X)) signsY
    (x, y)
  else (X, Y)

/-- The function `packNormalizedVector`. -/
def packNormalizedVector (fo : FloatOps F) (v : Float3 F) : Nat :=
  let XY := unitVectorToOctahedron fo v
  let px := fo.add (fo.mul XY.1 fo.half) fo.half
  let py := fo.add (fo.mul XY.2 fo.half) fo.half
  let X := floatToUInt fo (fo.saturate px) (fo.ofUInt 65535)
  let Y := floatToUInt fo (fo.saturate py) (fo.ofUInt 65535)
  toU32 (X ||| toU32 (Y <<< 16))

/-- The function `fp32ToFp16`. -/
def fp32ToFp16 (fo : FloatOps F) (v : F) : Nat :=
  let u := toU32 (fo.bits (fo.mul v (fo.ofBits 125829120)))
  let sign := u &&& 2147483648
  let body := u &&& 268435455
  (((sign >>> 16) ||| (body >>> 13)) % 65536) &&& 65535

/-! Light encoder -/

/-- The function `ConvertLight`: the success flag and the record after the call. -/
def ConvertLight (fo : FloatOps F) (P : Platform F) (light : Light F)
    (polymorphic : PolymorphicLightInfo F) (enableImportanceSampledEnvironmentLight : Bool) :
    Bool × PolymorphicLightInfo F :=
  match light.data with
  | .Directional angularSize irradiance color direction =>
    let halfAngularSizeRad := fo.mul fo.half (fo.radians angularSize)
    let solidAngle := fo.diskSolidAngle halfAngularSizeRad
    let radiance := Float3.divide fo (Float3.scale fo color irradiance) solidAngle
    let p := { polymorphic with colorTypeAndFlags := toU32 (P.kDirectional <<< P.kPolymorphicLightTypeShift) }
    let p := packLightColor fo P radiance p
    let p := { p with direction1 := packNormalizedVector fo (fo.normalize direction) }
    let sc := toU32 (fp32ToFp16 fo halfAngularSizeRad ||| (fp32ToFp16 fo solidAngle <<< 16))
    let p := { p with scalars := sc }
    (true, p)
  | .Spot radius intensity innerAngle outerAngle color position direction profileTextureIndex =>
    let projectedArea := fo.mul fo.PI_f (fo.square radius)
    let radiance := Float3.divide fo (Float3.scale fo color intensity) projectedArea
    let softness := fo.saturate (fo.sub fo.one (fo.div innerAngle outerAngle))
    let p := { polymorphic with colorTypeAndFlags := toU32 (P.kSphere <<< P.kPolymorphicLightTypeShift) }
    let p := { p with colorTypeAndFlags := p.colorTypeAndFlags ||| P.kPolymorphicLightShapingEnableBit }
    let p := packLightColor fo P radiance p
    let p := { p with center := position }
    let p := { p with scalars := fp32ToFp16 fo radius }
    let p := { p with primaryAxis := packNormalizedVector fo (fo.normalize direction) }
    let p := { p with cosConeAngleAndSoftness := fp32ToFp16 fo (fo.cosf (fo.radians outerAngle)) }
    let cs := toU32 (p.cosConeAngleAndSoftness ||| (fp32ToFp16 fo softness <<< 16))
    let p := { p with cosConeAngleAndSoftness := cs }
    let p :=
      if 0 ≤ profileTextureIndex then
        { p with
          iesProfileIndex := toU32 (Int.toNat profileTextureIndex),
          colorTypeAndFlags := p.colorTypeAndFlags ||| P.kPolymorphicLightIesProfileEnableBit }
      else p
    (true, p)
  | .Point radius intensity color position =>
    if fo.eq radius fo.zero then
      let flux := Float3.scale fo color intensity
      let p := { polymorphic with colorTypeAndFlags := toU32 (P.kPoint <<< P.kPolymorphicLightTypeShift) }
      let p := packLightColor fo P flux p
      let p := { p with center := position }
      (true, p)
    else
      let projectedArea := fo.mul fo.PI_f (fo.square radius)
      let radiance := Float3.divide fo (Float3.scale fo color intensity) projectedArea
      let p := { polymorphic with colorTypeAndFlags := toU32 (P.kSphere <<< P.kPolymorphicLightTypeShift) }
      let p := packLightColor fo P radiance p
      let p := { p with center := position }
      let p := { p with scalars := fp32ToFp16 fo radius }
      (true, p)
  | .Environment textureIndex radianceScale rotation =>
    if textureIndex < 0 then (false, polymorphic)
    else
      let p := { polymorphic with colorTypeAndFlags := toU32 (P.kEnvironment <<< P.kPolymorphicLightTypeShift) }
      let p := packLightColor fo P radianceScale p
      let p := { p with direction1 := toU32 (Int.toNat textureIndex) }
      let p := { p with scalars := fp32ToFp16 fo rotation }
      let p := if enableImportanceSampledEnvironmentLight then
        { p with scalars := p.scalars ||| (1 <<< 16) } else p
      (true, p)
  | .Cylinder radius length flux color position direction =>
    let surfaceArea := fo.mul (fo.mul (fo.mul fo.two fo.PI_f) radius) length
    let radiance := Float3.divide fo (Float3.scale fo color flux) surfaceArea
    let p := { polymorphic with colorTypeAndFlags := toU32 (P.kCylinder <<< P.kPolymorphicLightTypeShift) }
    let p := packLightColor fo P radiance p
    let p := { p with center := position }
    let p := { p with scalars := toU32 (fp32ToFp16 fo radius ||| (fp32ToFp16 fo length <<< 16)) }
    let p := { p with direction1 := packNormalizedVector fo (fo.normalize direction) }
    (true, p)
  | .Disk radius flux color position direction =>
    let surfaceArea := fo.mul (fo.mul fo.two fo.PI_f) (fo.square radius)
    let radiance := Float3.divide fo (Float3.scale fo color flux) surfaceArea
    let p := { polymorphic with colorTypeAndFlags := toU32 (P.kDisk <<< P.kPolymorphicLightTypeShift) }
    let p := packLightColor fo P radiance p
    let p := { p with center := position }
    let p := { p with scalars := fp32ToFp16 fo radius }
    let p := { p with direction1 := packNormalizedVector fo (fo.normalize direction) }
    (true, p)
  | .Rect width height flux color position node =>
    let surfaceArea := fo.mul width height
    let radiance := Float3.divide fo (Float3.scale fo color flux) surfaceArea
    let localToWorld : Float3 F × Float3 F × Float3 F :=
      match node with
      | some m => m
      | none => (⟨fo.one, fo.zero, fo.zero⟩, ⟨fo.zero, fo.one, fo.zero⟩, ⟨fo.zero, fo.zero, fo.one⟩)
    let right := fo.normalize localToWorld.1
    let up := fo.normalize localToWorld.2.1
    let p := { polymorphic with colorTypeAndFlags := toU32 (P.kRect <<< P.kPolymorphicLightTypeShift) }
    let p := packLightColor fo P radiance p
    let p := { p with center := position }
    let p := { p with scalars := toU32 (fp32ToFp16 fo width ||| (fp32ToFp16 fo height <<< 16)) }
    let p := { p with direction1 := packNormalizedVector fo (fo.normalize right) }
    let p := { p with direction2 := packNormalizedVector fo (fo.normalize up) }
    (true, p)
  | .Other => (false, polymorphic)

/-- The function `isInfiniteLight`. -/
def isInfiniteLight (light : Light F) : Int :=
  match light.GetLightType with
  | .LightType_Directional => 1
  | .LightType_Environment => 2
  | _ => 0

/-! The frame light-layout builder -/

/-- Local variables and the two tracker maps while `Process` runs. -/
structure Locals (F : Type) where
  tasks : List PrepareLightsTask
  primitiveLightInfos : List (PolymorphicLightInfo F)
  lightBufferOffset : Nat
  numEmissionInstance : Nat
  geometryInstanceToLight : List Nat
  visibleLightIndex : List Nat
  numFinitePrimLights : Nat
  numInfinitePrimLights : Nat
  numImportanceSampledEnvironmentLights : Nat
  m_InstanceLightBufferOffsets : Nat → Option Nat
  m_PrimitiveLightBufferOffsets : Nat → Option Nat

/-- The key `instanceHash` built by the two `hash_combine` calls. -/
def instanceHash (P : Platform F) (inst : MeshInstance F) (geometryIndex : Nat) : Nat :=
  P.hash_combine_size (P.hash_combine_ptr 0 inst.ptr) geometryIndex

/-- The test that makes the geometry loop skip a geometry:
`!any(emissiveColor != 0.f) || emissiveIntensity <= 0.f`. -/
def notEmissive (fo : FloatOps F) (m : Material F) : Bool :=
  !(fo.ne m.emissiveColor.x fo.zero || fo.ne m.emissiveColor.y fo.zero
      || fo.ne m.emissiveColor.z fo.zero)
    || fo.le m.emissiveIntensity fo.zero

/-- Method `erase` of an `unordered_map`. -/
def mapErase (m : Nat → Option Nat) (k : Nat) : Nat → Option Nat :=
  fun q => if q = k then none else m q

/-- Assignment `m[k] = v` on an `unordered_map`. -/
def mapSet (m : Nat → Option Nat) (k v : Nat) : Nat → Option Nat :=
  fun q => if q = k then some v else m q

/-- Body of the inner geometry loop of `Process`, for one geometry. -/
def geometryStep (fo : FloatOps F) (P : Platform F) (inst : MeshInstance F)
    (geometryIndex : Nat) (geometry : MeshGeometry F) (s : Locals F) : Locals F :=
  let firstGeometryInstanceIndex := toU32 inst.geometryInstanceIndex
  let h := instanceHash P inst geometryIndex
  if notEmissive fo geometry.material then
    { s with m_InstanceLightBufferOffsets := mapErase s.m_InstanceLightBufferOffsets h }
  else
    let pOffset := s.m_InstanceLightBufferOffsets h
    let task : PrepareLightsTask :=
      { instanceAndGeometryIndex := toU32 ((inst.instanceIndex <<< 12) ||| (geometryIndex &&& 4095))
        lightBufferOffset := s.lightBufferOffset
        triangleCount := toU32 (geometry.numIndices / 3)
        previousLightBufferOffset :=
          match pOffset with
          | some v => toInt32 v
          | none => -1 }
    { s with
      geometryInstanceToLight :=
        s.geometryInstanceToLight.set (firstGeometryInstanceIndex + geometryIndex) s.lightBufferOffset
      visibleLightIndex := s.visibleLightIndex ++ [s.lightBufferOffset]
      m_InstanceLightBufferOffsets := mapSet s.m_InstanceLightBufferOffsets h s.lightBufferOffset
      lightBufferOffset := toU32 (s.lightBufferOffset + task.triangleCount)
      tasks := s.tasks ++ [task]
      numEmissionInstance := toU32 (s.numEmissionInstance + 1) }

/-- The inner loop over `mesh->geometries`, from index `geometryIndex` on. -/
def geometryLoop (fo : FloatOps F) (P : Platform F) (inst : MeshInstance F) :
    Nat → List (MeshGeometry F) → Locals F → Locals F
  | _, [], s => s
  | geometryIndex, g :: gs, s =>
    geometryLoop fo P inst (geometryIndex + 1) gs (geometryStep fo P inst geometryIndex g s)

/-- The outer loop over the mesh instances. -/
def instanceLoop (fo : FloatOps F) (P : Platform F) :
    List (MeshInstance F) → Locals F → Locals F
  | [], s => s
  | inst :: rest, s => instanceLoop fo P rest (geometryLoop fo P inst 0 inst.geometries s)

/-- The comparison passed to `std::sort`. -/
def lightOrder (a b : Light F) : Bool := decide (isInfiniteLight a < isInfiniteLight b)

/-- Body of the loop over the sorted lights, for one light. -/
def lightStep (fo : FloatOps F) (P : Platform F) (enableImportanceSampledEnvironmentLight : Bool)
    (pLight : Light F) (s : Locals F) : Locals F :=
  let r := ConvertLight fo P pLight (PolymorphicLightInfo.init fo) enableImportanceSampledEnvironmentLight
  if !r.1 then s
  else
    let pOffset := s.m_PrimitiveLightBufferOffsets pLight.ptr
    let task : PrepareLightsTask :=
      { instanceAndGeometryIndex := toU32 (P.TASK_PRIMITIVE_LIGHT_BIT ||| toU32 s.primitiveLightInfos.length)
        lightBufferOffset := s.lightBufferOffset
        triangleCount := 1
        previousLightBufferOffset :=
          match pOffset with
          | some v => toInt32 v
          | none => -1 }
    let s1 : Locals F :=
      { s with
        m_PrimitiveLightBufferOffsets := mapSet s.m_PrimitiveLightBufferOffsets pLight.ptr s.lightBufferOffset
        visibleLightIndex := s.visibleLightIndex ++ [s.lightBufferOffset]
        lightBufferOffset := toU32 (s.lightBufferOffset + task.triangleCount)
        tasks := s.tasks ++ [task]
        primitiveLightInfos := s.primitiveLightInfos ++ [r.2] }
    if pLight.GetLightType = .LightType_Environment && enableImportanceSampledEnvironmentLight then
      { s1 with numImportanceSampledEnvironmentLights := toU32 (s1.numImportanceSampledEnvironmentLights + 1) }
    else if isInfiniteLight pLight ≠ 0 then
      { s1 with numInfinitePrimLights := toU32 (s1.numInfinitePrimLights + 1) }
    else
      { s1 with numFinitePrimLights := toU32 (s1.numFinitePrimLights + 1) }

/-- The loop over `sortedLights`. -/
def lightLoop (fo : FloatOps F) (P : Platform F) (enableImportanceSampledEnvironmentLight : Bool) :
    List (Light F) → Locals F → Locals F
  | [], s => s
  | l :: ls, s =>
    lightLoop fo P enableImportanceSampledEnvironmentLight ls
      (lightStep fo P enableImportanceSampledEnvironmentLight l s)

/-- Everything `Process` hands over: buffer contents, frame parameters, push
constants, the dispatch size, the final cursor and the members after the call. -/
structure ProcessResult (F : Type) where
  tasks : List PrepareLightsTask
  primitiveLightInfos : List (PolymorphicLightInfo F)
  geometryInstanceToLight : List Nat
  visibleLightIndex : List Nat
  outFrameParameters : FrameParameters
  constants : PrepareLightsConstants
  dispatchGroups : Nat
  lightBufferOffset : Nat
  numImportanceSampledEnvironmentLights : Nat
  state : PassState

/-- Locals at the start of `Process`. -/
def initLocals (scene : Scene F) (st : PassState) (P : Platform F) : Locals F :=
  { tasks := []
    primitiveLightInfos := []
    lightBufferOffset := 0
    numEmissionInstance := 0
    geometryInstanceToLight := List.replicate scene.geometryInstancesCount P.RTXDI_INVALID_LIGHT_INDEX
    visibleLightIndex := []
    numFinitePrimLights := 0
    numInfinitePrimLights := 0
    numImportanceSampledEnvironmentLights := 0
    m_InstanceLightBufferOffsets := st.m_InstanceLightBufferOffsets
    m_PrimitiveLightBufferOffsets := st.m_PrimitiveLightBufferOffsets }

/-- The value of a `bool` used as an integer. -/
def boolToNat (b : Bool) : Nat := if b then 1 else 0

/-- The method `PrepareLightsPass::Process`. -/
def Process (fo : FloatOps F) (P : Platform F) (st : PassState) (scene : Scene F)
    (sceneLights : List (Light F)) (enableImportanceSampledEnvironmentLight : Bool) :
    ProcessResult F :=
  let g := instanceLoop fo P scene.meshInstances (initLocals scene st P)
  let firstLocalLight0 := 0
  let numLocalLights0 := g.lightBufferOffset
  let sortedLights := P.std_sort lightOrder sceneLights
  let s := lightLoop fo P enableImportanceSampledEnvironmentLight sortedLights g
  let numLocalLights := toU32 (numLocalLights0 + s.numFinitePrimLights)
  let firstInfiniteLight0 := numLocalLights
  let numInfiniteLights := s.numInfinitePrimLights
  let environmentLightIndex0 := toU32 (firstInfiniteLight0 + numInfiniteLights)
  let currentFrameLightOffset := toU32 (st.m_MaxLightsInBuffer * boolToNat st.m_OddFrame)
  let previousFrameLightOffset := toU32 (st.m_MaxLightsInBuffer * boolToNat (!st.m_OddFrame))
  { tasks := s.tasks
    primitiveLightInfos := s.primitiveLightInfos
    geometryInstanceToLight := g.geometryInstanceToLight
    visibleLightIndex := s.visibleLightIndex
    outFrameParameters :=
      { firstLocalLight := toU32 (firstLocalLight0 + currentFrameLightOffset)
        numLocalLights := numLocalLights
        firstInfiniteLight := toU32 (firstInfiniteLight0 + currentFrameLightOffset)
        numInfiniteLights := numInfiniteLights
        environmentLightIndex := toU32 (environmentLightIndex0 + currentFrameLightOffset)
        environmentLightPresent := s.numImportanceSampledEnvironmentLights
        numEmissionThing := toU32 s.visibleLightIndex.length
        currentFrameLightOffset := currentFrameLightOffset }
    constants :=
      { numTasks := toU32 s.tasks.length
        currentFrameLightOffset := currentFrameLightOffset
        previousFrameLightOffset := previousFrameLightOffset }
    dispatchGroups := P.div_ceil s.lightBufferOffset 256
    lightBufferOffset := s.lightBufferOffset
    numImportanceSampledEnvironmentLights := s.numImportanceSampledEnvironmentLights
    state :=
      { m_InstanceLightBufferOffsets := s.m_InstanceLightBufferOffsets
        m_PrimitiveLightBufferOffsets := s.m_PrimitiveLightBufferOffsets
        m_OddFrame := !st.m_OddFrame
        m_MaxLightsInBuffer := st.m_MaxLightsInBuffer } }

/-! Vocabulary for the statements -/

/-- One iteration of the inner geometry loop: the instance, the index of the
geometry in its mesh, and the geometry. -/
structure GeomEntry (F : Type) where
  inst : MeshInstance F
  geometryIndex : Nat
  geometry : MeshGeometry F

/-- Iterations of the inner loop for one instance, from index `i` on. -/
def geometryEntriesFrom (inst : MeshInstance F) : Nat → List (MeshGeometry F) → List (GeomEntry F)
  | _, [] => []
  | i, g :: gs => ⟨inst, i, g⟩ :: geometryEntriesFrom inst (i + 1) gs

/-- All iterations of the geometry loops of `Process`, in scan order. -/
def sceneEntries : List (MeshInstance F) → List (GeomEntry F)
  | [] => []
  | inst :: rest => geometryEntriesFrom inst 0 inst.geometries ++ sceneEntries rest

/-- The geometry loops of `Process` as one loop over the iterations. -/
def entriesLoop (fo : FloatOps F) (P : Platform F) : List (GeomEntry F) → Locals F → Locals F
  | [], s => s
  | e :: es, s => entriesLoop fo P es (geometryStep fo P e.inst e.geometryIndex e.geometry s)

/-- Tracker key of an iteration of the geometry loop. -/
def GeomEntry.key (P : Platform F) (e : GeomEntry F) : Nat := instanceHash P e.inst e.geometryIndex

/-- An iteration whose geometry passes the emissive test, so that it gets a task. -/
def GeomEntry.emissive (fo : FloatOps F) (e : GeomEntry F) : Bool := !notEmissive fo e.geometry.material

/-- The expansion count of the task of a geometry. -/
def GeomEntry.triangleCount (e : GeomEntry F) : Nat := toU32 (e.geometry.numIndices / 3)

/-- The word `instanceAndGeometryIndex` of the task of a geometry. -/
def GeomEntry.taskId (e : GeomEntry F) : Nat :=
  toU32 ((e.inst.instanceIndex <<< 12) ||| (e.geometryIndex &&& 4095))

/-- The iterations of a scene that get a task, in scan order. -/
def emissiveEntries (fo : FloatOps F) (scene : Scene F) : List (GeomEntry F) :=
  (sceneEntries scene.meshInstances).filter (GeomEntry.emissive fo)

/-- A light that `ConvertLight` encodes (returns true for). -/
def encodes (fo : FloatOps F) (P : Platform F) (flag : Bool) (l : Light F) : Bool :=
  (ConvertLight fo P l (PolymorphicLightInfo.init fo) flag).1

/-- The lights of the sorted list that `ConvertLight` encodes, in the order of
the light loop. -/
def encodedLights (fo : FloatOps F) (P : Platform F) (flag : Bool) (lights : List (Light F)) :
    List (Light F) :=
  (P.std_sort lightOrder lights).filter (encodes fo P flag)

/-- What the C++ standard promises of `std::sort` with the comparison of
`Process`: the result is a rearrangement of the input in which no element is
followed by one that compares less. -/
def StdSortContract (P : Platform F) : Prop :=
  ∀ l : List (Light F), (P.std_sort lightOrder l).Perm l ∧
    (P.std_sort lightOrder l).Pairwise (fun a b => lightOrder b a = false)

/-- A frame: the inputs of one call of `Process`. -/
structure Frame (F : Type) where
  scene : Scene F
  sceneLights : List (Light F)
  enableImportanceSampledEnvironmentLight : Bool

/-- The members of the pass after a sequence of calls of `Process`. -/
def runFrames (fo : FloatOps F) (P : Platform F) : PassState → List (Frame F) → PassState
  | st, [] => st
  | st, f :: fs =>
    runFrames fo P
      (Process fo P st f.scene f.sceneLights f.enableImportanceSampledEnvironmentLight).state fs

/-! Reference instances, used to evaluate the definitions on examples -/

/-- Integer stand-in for the float operations: exact where the integers allow. -/
def intOps : FloatOps Int where
  zero := 0
  half := 0
  one := 1
  two := 2
  negOne := -1
  PI_f := 3
  ofUInt := fun n => (n : Int)
  toUInt := Int.toNat
  ofBits := fun n => (n : Int)
  bits := Int.toNat
  add := fun a b => a + b
  sub := fun a b => a - b
  mul := fun a b => a * b
  div := fun a b => a / b
  neg := fun a => -a
  lt := fun a b => decide (a < b)
  le := fun a b => decide (a ≤ b)
  ge := fun a b => decide (b ≤ a)
  eq := fun a b => decide (a = b)
  ne := fun a b => decide (a ≠ b)
  abs := fun a => (Int.natAbs a : Int)
  floor := id
  ceilf := id
  log2f := fun a => (Nat.log2 (Int.toNat a) : Int)
  exp2f := fun a => ((2 ^ Int.toNat a : Nat) : Int)
  cosf := fun _ => 1
  radians := id
  saturate := fun a => if a < 0 then 0 else if 1 < a then 1 else a
  square := fun a => a * a
  diskSolidAngle := fun _ => 1
  normalize := id

/-- Insertion of a light into a sorted list, in front of the elements
equivalent to it. -/
def insertLight (cmp : Light F → Light F → Bool) (x : Light F) : List (Light F) → List (Light F)
  | [] => [x]
  | b :: bs => if cmp b x then b :: insertLight cmp x bs else x :: b :: bs

/-- A sort that meets the contract of `std::sort`: the elements are inserted
one after the other, starting with the last, each in front of the elements
equivalent to it (equivalent elements keep their order). -/
def insertionSortFront (cmp : Light F → Light F → Bool) : List (Light F) → List (Light F)
  | [] => []
  | x :: xs => insertLight cmp x (insertionSortFront cmp xs)

/-- Insertion of a light behind the elements equivalent to it. -/
def insertLightBack (cmp : Light F → Light F → Bool) (x : Light F) : List (Light F) → List (Light F)
  | [] => [x]
  | b :: bs => if cmp x b then x :: b :: bs else b :: insertLightBack cmp x bs

/-- Another sort that meets the contract of `std::sort`: the elements are
inserted one after the other, starting with the last, each behind the
elements equivalent to it (equivalent elements end up in reverse order). -/
def insertionSortBack (cmp : Light F → Light F → Bool) : List (Light F) → List (Light F)
  | [] => []
  | x :: xs => insertLightBack cmp x (insertionSortBack cmp xs)

/-- Reference platform for the examples: a shift-and-xor hash combiner on
64-bit words, the given sort, and sample values for the header constants. -/
def refPlatform (sortFn : (Light Int → Light Int → Bool) → List (Light Int) → List (Light Int)) :
    Platform Int where
  hash_combine_ptr := fun seed v =>
    (seed ^^^ (v + 2654435769 + (seed <<< 6) + (seed >>> 2))) % 18446744073709551616
  hash_combine_size := fun seed v =>
    (seed ^^^ (v + 2654435769 + (seed <<< 6) + (seed >>> 2))) % 18446744073709551616
  std_sort := sortFn
  div_ceil := fun a b => (a + b - 1) / b
  RTXDI_INVALID_LIGHT_INDEX := 4294967295
  TASK_PRIMITIVE_LIGHT_BIT := 2147483648
  kPolymorphicLightTypeShift := 24
  kPolymorphicLightShapingEnableBit := 8388608
  kPolymorphicLightIesProfileEnableBit := 4194304
  kPolymorphicLightMinLog2Radiance := -8
  kPolymorphicLightMaxLog2Radiance := 40
  kSphere := 0
  kCylinder := 1
  kDisk := 2
  kRect := 3
  kDirectional := 5
  kEnvironment := 6
  kPoint := 7

/-- The members of a freshly constructed pass. -/
def freshState (maxLights : Nat) : PassState :=
  { m_InstanceLightBufferOffsets := fun _ => none
    m_PrimitiveLightBufferOffsets := fun _ => none
    m_OddFrame := false
    m_MaxLightsInBuffer := maxLights }

/-- A material with white emission of intensity one. -/
def emissiveMaterial : Material Int := ⟨⟨1, 1, 1⟩, 1⟩

/-- A material without emission. -/
def darkMaterial : Material Int := ⟨⟨0, 0, 0⟩, 1⟩

/-- A point light of radius zero at the address `p`. -/
def pointLight (p : Nat) : Light Int := ⟨p, .Point 0 1 ⟨1, 1, 1⟩ ⟨0, 0, 0⟩⟩

/-- A directional light at the address `p`. -/
def directionalLight (p : Nat) : Light Int := ⟨p, .Directional 1 1 ⟨1, 1, 1⟩ ⟨0, 0, 1⟩⟩

/-- An environment light at the address `p` with texture index `t`. -/
def environmentLight (p : Nat) (t : Int) : Light Int := ⟨p, .Environment t ⟨1, 1, 1⟩ 0⟩

/-- An instance (address 100, instance index 0, first geometry instance 0)
whose geometries have the given materials and index counts. -/
def exampleInstance (gs : List (Material Int × Nat)) : MeshInstance Int :=
  ⟨100, 0, 0, gs.map (fun g => ⟨g.1, g.2⟩)⟩

/-- A scene of one instance whose geometries have the given materials and
index counts. -/
def oneInstanceScene (gs : List (Material Int × Nat)) : Scene Int :=
  { meshInstances := [exampleInstance gs]
    geometryInstancesCount := gs.length }

/-- The iteration of the geometry loops for geometry `i` of the one instance
of `oneInstanceScene gs`, of material `m` and index count `n`. -/
def exampleEntry (gs : List (Material Int × Nat)) (i : Nat) (m : Material Int) (n : Nat) :
    GeomEntry Int :=
  ⟨exampleInstance gs, i, ⟨m, n⟩⟩

/-- Consecutive allocation: the first task starts at `start`, every task
starts where the one before it ends (in `uint32_t` arithmetic), and the last
one ends at `stop`. -/
def TaskChain : Nat → List PrepareLightsTask → Nat → Prop
  | start, [], stop => start = stop
  | start, t :: ts, stop =>
    t.lightBufferOffset = start ∧ TaskChain (toU32 (start + t.triangleCount)) ts stop

/-- The task that the geometry loop builds at an emissive iteration, from the
locals at that point. -/
def geometryTask (P : Platform F) (e : GeomEntry F) (s : Locals F) : PrepareLightsTask :=
  { instanceAndGeometryIndex := e.taskId
    lightBufferOffset := s.lightBufferOffset
    triangleCount := e.triangleCount
    previousLightBufferOffset :=
      match s.m_InstanceLightBufferOffsets (e.key P) with
      | some v => toInt32 v
      | none => -1 }

/-- The task that the light loop builds for an encoded light, from the locals
at that point. -/
def lightTask (P : Platform F) (l : Light F) (s : Locals F) : PrepareLightsTask :=
  { instanceAndGeometryIndex := toU32 (P.TASK_PRIMITIVE_LIGHT_BIT ||| toU32 s.primitiveLightInfos.length)
    lightBufferOffset := s.lightBufferOffset
    triangleCount := 1
    previousLightBufferOffset :=
      match s.m_PrimitiveLightBufferOffsets l.ptr with
      | some v => toInt32 v
      | none => -1 }

/-- The branch of the light loop that counts a light as an importance-sampled
environment light. -/
def countsAsImportanceSampledEnvironment (flag : Bool) (l : Light F) : Bool :=
  decide (l.GetLightType = .LightType_Environment) && flag

/-- The branch of the light loop that counts a light as an infinite light. -/
def countsAsInfinite (flag : Bool) (l : Light F) : Bool :=
  !countsAsImportanceSampledEnvironment flag l && decide (isInfiniteLight l ≠ 0)

/-- The branch of the light loop that counts a light as a finite light. -/
def countsAsFinite (flag : Bool) (l : Light F) : Bool :=
  !countsAsImportanceSampledEnvironment flag l && decide (isInfiniteLight l = 0)

/-- The locals after the geometry loops of `Process`. -/
def geometryPass (fo : FloatOps F) (P : Platform F) (st : PassState) (scene : Scene F) : Locals F :=
  entriesLoop fo P (sceneEntries scene.meshInstances) (initLocals scene st P)

/-- The locals after the light loop of `Process`. -/
def lightPass (fo : FloatOps F) (P : Platform F) (st : PassState) (scene : Scene F)
    (sceneLights : List (Light F)) (flag : Bool) : Locals F :=
  lightLoop fo P flag (P.std_sort lightOrder sceneLights) (geometryPass fo P st scene)

/-- The geometries of the example scene. -/
def exampleGeometries : List (Material Int × Nat) :=
  [(emissiveMaterial, 30), (darkMaterial, 9), (emissiveMaterial, 2), (emissiveMaterial, 6)]

/-- The geometries of the example scene in a later frame: the first one has
shrunk to 3 indices and the third one is dark. -/
def laterGeometries : List (Material Int × Nat) :=
  [(emissiveMaterial, 3), (darkMaterial, 9), (darkMaterial, 2), (emissiveMaterial, 6)]

/-- Scene of the examples: one instance with an emissive geometry of 30
indices, a dark one of 9, an emissive one of 2 and an emissive one of 6. -/
def exampleScene : Scene Int := oneInstanceScene exampleGeometries

/-- Scene of the examples in a later frame. -/
def laterScene : Scene Int := oneInstanceScene laterGeometries

/-- Lights of the examples: a directional light, two point lights and an
environment light with a texture. -/
def exampleLights : List (Light Int) :=
  [directionalLight 1, pointLight 2, environmentLight 3 0, pointLight 4]

/-- The slots allocated to the emissive geometries of a scene: their triangle
counts added up. -/
def geometrySlots (fo : FloatOps F) (scene : Scene F) : Nat :=
  ((emissiveEntries fo scene).map GeomEntry.triangleCount).sum

/-- The number of encoded lights of classification 0 (finite lights). -/
def numEncodedFinite (fo : FloatOps F) (P : Platform F) (flag : Bool) (lights : List (Light F)) :
    Nat :=
  ((encodedLights fo P flag lights).filter (fun l => decide (isInfiniteLight l = 0))).length

/-- The number of encoded environment lights. -/
def numEncodedEnvironment (fo : FloatOps F) (P : Platform F) (flag : Bool)
    (lights : List (Light F)) : Nat :=
  ((encodedLights fo P flag lights).filter
    (fun l => decide (l.GetLightType = .LightType_Environment))).length

/-- The number of encoded lights of classification 1 or 2 (infinite lights)
that are not counted as importance-sampled environment lights, which is what
the environment lights are when the flag is set. -/
def numEncodedInfiniteOther (fo : FloatOps F) (P : Platform F) (flag : Bool)
    (lights : List (Light F)) : Nat :=
  ((encodedLights fo P flag lights).filter
    (fun l => decide (isInfiniteLight l ≠ 0) &&
      !(decide (l.GetLightType = .LightType_Environment) && flag))).length

/-- The base of the current half of the light buffer, before truncation to
32 bits: `m_MaxLightsInBuffer` times the frame parity. -/
def halfBufferBase (st : PassState) : Nat := st.m_MaxLightsInBuffer * boolToNat st.m_OddFrame

/-- The index of the geometry-instance-to-light array that the geometry loop
writes for an emissive iteration: `firstGeometryInstanceIndex + geometryIndex`. -/
def GeomEntry.geometryInstance (e : GeomEntry F) : Nat :=
  toU32 e.inst.geometryInstanceIndex + e.geometryIndex

/-- The members of the pass after one call on a fresh pass: empty trackers and
odd parity. -/
def oddState (maxLights : Nat) : PassState :=
  (Process intOps (refPlatform insertionSortFront) (freshState maxLights) (oneInstanceScene [])
    [] false).state

/-! Exact arithmetic as an instance of the float operations -/

/-- What an ordered field does not provide of the float operations: the
constant `dm::PI_f`, the transcendental functions, `dm::radians`, the
double-precision expression of the directional light, `normalize`, and the
bit pattern of a binary32 number. -/
structure Transcendental (K : Type) where
  PI_f : K
  log2f : K → K
  exp2f : K → K
  cosf : K → K
  radians : K → K
  diskSolidAngle : K → K
  normalize : Float3 K → Float3 K
  ofBits : Nat → K
  bits : K → Nat

/-- The float operations computed without rounding in an ordered field with a
floor function. They are not the operations of binary32, which rounds: they
serve for the statement on the octahedral mapping, which is over exact real
arithmetic, and for evaluating `packLightColor` on inputs for which no step of
the computation rounds in binary32. The conversion `(uint)x` truncates, which
is the floor for `x ≥ 0`; the C++ conversion is undefined for `x ≤ -1` and the
value 0 is used there. `saturate` is the clamp to the interval from 0 to 1. -/
def exactOps (K : Type) [LinearOrderedField K] [FloorRing K] (tr : Transcendental K) :
    FloatOps K where
  zero := 0
  half := 1 / 2
  one := 1
  two := 2
  negOne := -1
  PI_f := tr.PI_f
  ofUInt := fun n => (n : K)
  toUInt := fun x => Int.toNat ⌊x⌋
  ofBits := tr.ofBits
  bits := tr.bits
  add := fun a b => a + b
  sub := fun a b => a - b
  mul := fun a b => a * b
  div := fun a b => a / b
  neg := fun a => -a
  lt := fun a b => decide (a < b)
  le := fun a b => decide (a ≤ b)
  ge := fun a b => decide (b ≤ a)
  eq := fun a b => decide (a = b)
  ne := fun a b => decide (a ≠ b)
  abs := fun a => |a|
  floor := fun a => (⌊a⌋ : K)
  ceilf := fun a => (⌈a⌉ : K)
  log2f := tr.log2f
  exp2f := tr.exp2f
  cosf := tr.cosf
  radians := tr.radians
  saturate := fun a => max 0 (min a 1)
  square := fun a => a * a
  diskSolidAngle := tr.diskSolidAngle
  normalize := tr.normalize

/-- The local `maxRadiance` of `packLightColor`. -/
def maxRadiance (fo : FloatOps F) (color : Float3 F) : F :=
  fmax fo color.x (fmax fo color.y color.z)

/-- The local `packedRadiance` of `packLightColor`, as a function of the value
of `maxRadiance`. -/
def packedRadiance (fo : FloatOps F) (P : Platform F) (maxRadiance : F) : Nat :=
  let range := fo.sub P.kPolymorphicLightMaxLog2Radiance P.kPolymorphicLightMinLog2Radiance
  let logRadiance := fo.div (fo.sub (fo.log2f maxRadiance) P.kPolymorphicLightMinLog2Radiance) range
  let logRadiance := fo.saturate logRadiance
  min (toU32 (toU32 (fo.toUInt (fo.ceilf (fo.mul logRadiance (fo.ofUInt 65534)))) + 1)) 65535

/-- The local `unpackedRadiance` of `packLightColor`, as a function of the
value of `packedRadiance`. -/
def unpackedRadiance (fo : FloatOps F) (P : Platform F) (packedRadiance : Nat) : F :=
  let range := fo.sub P.kPolymorphicLightMaxLog2Radiance P.kPolymorphicLightMinLog2Radiance
  fo.exp2f (fo.add
    (fo.mul (fo.div (fo.ofUInt (toU32 (packedRadiance + 4294967295))) (fo.ofUInt 65534)) range)
    P.kPolymorphicLightMinLog2Radiance)

/-- A piecewise linear stand-in for `exp2f` on the rationals: exact at the
integers and linear between two consecutive integers. -/
def segmentExp2 (t : ℚ) : ℚ := (2 : ℚ) ^ ⌊t⌋ * (1 + Int.fract t)

/-- The inverse of `segmentExp2` on the positive rationals, a stand-in for
`log2f`: exact at the powers of two and linear between two consecutive ones. -/
def segmentLog2 (m : ℚ) : ℚ := (Int.log 2 m : ℚ) + (m / (2 : ℚ) ^ Int.log 2 m - 1)

/-- Stand-ins on the rationals for the functions of `Transcendental`. -/
def segmentTranscendental : Transcendental ℚ where
  PI_f := 22 / 7
  log2f := segmentLog2
  exp2f := segmentExp2
  cosf := fun _ => 1
  radians := fun a => a * (22 / 7) / 180
  diskSolidAngle := fun _ => 1
  normalize := id
  ofBits := fun n => (n : ℚ)
  bits := fun x => Int.toNat ⌊x⌋

/-- The float operations of the examples in exact arithmetic. -/
def ratOps : FloatOps ℚ := exactOps ℚ segmentTranscendental

/-- Reference platform for the examples in exact arithmetic: as `refPlatform`,
with the first insertion sort. -/
def ratPlatform : Platform ℚ where
  hash_combine_ptr := fun seed v =>
    (seed ^^^ (v + 2654435769 + (seed <<< 6) + (seed >>> 2))) % 18446744073709551616
  hash_combine_size := fun seed v =>
    (seed ^^^ (v + 2654435769 + (seed <<< 6) + (seed >>> 2))) % 18446744073709551616
  std_sort := insertionSortFront
  div_ceil := fun a b => (a + b - 1) / b
  RTXDI_INVALID_LIGHT_INDEX := 4294967295
  TASK_PRIMITIVE_LIGHT_BIT := 2147483648
  kPolymorphicLightTypeShift := 24
  kPolymorphicLightShapingEnableBit := 8388608
  kPolymorphicLightIesProfileEnableBit := 4194304
  kPolymorphicLightMinLog2Radiance := -8
  kPolymorphicLightMaxLog2Radiance := 40
  kSphere := 0
  kCylinder := 1
  kDisk := 2
  kRect := 3
  kDirectional := 5
  kEnvironment := 6
  kPoint := 7

/-- The value of the local `unpackedRadiance` of `packLightColor` for a colour:
the scale by which the three channels are divided. -/
def colorScale (fo : FloatOps F) (P : Platform F) (color : Float3 F) : F :=
  unpackedRadiance fo P (packedRadiance fo P (maxRadiance fo color))

/-! The light counter of the pass and the buffer sizes of `RtxdiResources` -/

/-- The test of `CountLightsInScene`: `any(emissiveColor != 0.f)`. -/
def hasEmissiveColor (fo : FloatOps F) (m : Material F) : Bool :=
  fo.ne m.emissiveColor.x fo.zero || fo.ne m.emissiveColor.y fo.zero
    || fo.ne m.emissiveColor.z fo.zero

/-- Body of the inner loop of `CountLightsInScene`, on the pair
`(numEmissiveMeshes, numEmissiveTriangles)`. -/
def countStep (fo : FloatOps F) (geometry : MeshGeometry F) (c : Nat × Nat) : Nat × Nat :=
  if hasEmissiveColor fo geometry.material then
    (toU32 (c.1 + 1), toU32 (c.2 + geometry.numIndices / 3))
  else c

/-- The inner loop of `CountLightsInScene` over the geometries of a mesh. -/
def countGeometryLoop (fo : FloatOps F) : List (MeshGeometry F) → Nat × Nat → Nat × Nat
  | [], c => c
  | g :: gs, c => countGeometryLoop fo gs (countStep fo g c)

/-- The outer loop of `CountLightsInScene` over the mesh instances. -/
def countInstanceLoop (fo : FloatOps F) : List (MeshInstance F) → Nat × Nat → Nat × Nat
  | [], c => c
  | inst :: rest, c => countInstanceLoop fo rest (countGeometryLoop fo inst.geometries c)

/-- The method `PrepareLightsPass::CountLightsInScene`: the values of
`numEmissiveMeshes` and `numEmissiveTriangles` after the call. -/
def CountLightsInScene (fo : FloatOps F) (scene : Scene F) : Nat × Nat :=
  countInstanceLoop fo scene.meshInstances (0, 0)

/-- The local `maxEmissiveLights` of the constructor of `RtxdiResources`. -/
def maxEmissiveLights (maxEmissiveMeshes maxPrimitiveLights : Nat) : Nat :=
  toU32 (maxEmissiveMeshes + maxPrimitiveLights)

/-- The first argument of `std::max` in the byte size of the visibility
buffer, `enableVisibilityVairanceSampling ? 1 : 0 * 16 * 16 * 16 *
maxEmissiveLights`: the conditional operator binds weaker than `*`, so the
products belong to its third operand; the value is a `uint32_t`. -/
def visibilityElementCount (enableVisibilityVairanceSampling : Bool) (maxEmissiveLights : Nat) :
    Nat :=
  if enableVisibilityVairanceSampling then 1 else toU32 (0 * 16 * 16 * 16 * maxEmissiveLights)

/-- The value assigned to `VisibilityBufferDesc.byteSize` in the constructor
of `RtxdiResources`, with `sizeof(uint32_t) = 4`. -/
def visibilityBufferByteSize (enableVisibilityVairanceSampling : Bool)
    (maxEmissiveMeshes maxPrimitiveLights : Nat) : Nat :=
  4 * 2 * max (visibilityElementCount enableVisibilityVairanceSampling
    (maxEmissiveLights maxEmissiveMeshes maxPrimitiveLights)) 1

/-- The loops of `CountLightsInScene` as one loop over the iterations. -/
def countEntriesLoop (fo : FloatOps F) : List (GeomEntry F) → Nat × Nat → Nat × Nat
  | [], c => c
  | e :: es, c => countEntriesLoop fo es (countStep fo e.geometry c)

/-- An iteration whose geometry is counted by `CountLightsInScene`. -/
def GeomEntry.counted (fo : FloatOps F) (e : GeomEntry F) : Bool :=
  hasEmissiveColor fo e.geometry.material

/-- The iterations of a scene that `CountLightsInScene` counts, in scan order. -/
def countedEntries (fo : FloatOps F) (scene : Scene F) : List (GeomEntry F) :=
  (sceneEntries scene.meshInstances).filter (GeomEntry.counted fo)

/-- A scene with a geometry of non-zero emissive colour and zero intensity:
one instance with an emissive geometry of 30 indices, one of colour
`(1, 0, 0)` and intensity 0 of 9 indices, and a dark one of 6 indices. -/
def dimmedScene : Scene Int :=
  oneInstanceScene [(emissiveMaterial, 30), (⟨⟨1, 0, 0⟩, 0⟩, 9), (darkMaterial, 6)]

/-- An Environment light with `textureIndex >= 0`. -/
def texturedEnvironment (l : Light F) : Bool :=
  match l.data with
  | .Environment textureIndex _ _ => decide (0 ≤ textureIndex)
  | _ => false

/-- Lights of the examples with a second environment light that has no
texture. -/
def mixedLights : List (Light Int) :=
  [environmentLight 3 0, directionalLight 1, pointLight 2, environmentLight 5 (-1), pointLight 4]

/-- The integer stand-in for the float operations extended with a value that
is not a number (`none`): arithmetic on it gives it back, every ordered
comparison with it is false and `!=` with it is true, as for a NaN. -/
def nanOps : FloatOps (Option Int) where
  zero := some 0
  half := some 0
  one := some 1
  two := some 2
  negOne := some (-1)
  PI_f := some 3
  ofUInt := fun n => some (n : Int)
  toUInt := fun a => match a with
    | some x => Int.toNat x
    | none => 0
  ofBits := fun n => some (n : Int)
  bits := fun a => match a with
    | some x => Int.toNat x
    | none => 2143289344
  add := fun a b => match a, b with
    | some x, some y => some (x + y)
    | _, _ => none
  sub := fun a b => match a, b with
    | some x, some y => some (x - y)
    | _, _ => none
  mul := fun a b => match a, b with
    | some x, some y => some (x * y)
    | _, _ => none
  div := fun a b => match a, b with
    | some x, some y => some (x / y)
    | _, _ => none
  neg := fun a => a.map (fun x => -x)
  lt := fun a b => match a, b with
    | some x, some y => decide (x < y)
    | _, _ => false
  le := fun a b => match a, b with
    | some x, some y => decide (x ≤ y)
    | _, _ => false
  ge := fun a b => match a, b with
    | some x, some y => decide (y ≤ x)
    | _, _ => false
  eq := fun a b => match a, b with
    | some x, some y => decide (x = y)
    | _, _ => false
  ne := fun a b => match a, b with
    | some x, some y => decide (x ≠ y)
    | _, _ => true
  abs := fun a => a.map (fun x => (Int.natAbs x : Int))
  floor := id
  ceilf := id
  log2f := fun a => a.map (fun x => (Nat.log2 (Int.toNat x) : Int))
  exp2f := fun a => a.map (fun x => ((2 ^ Int.toNat x : Nat) : Int))
  cosf := fun a => a.map (fun _ => 1)
  radians := id
  saturate := fun a => a.map (fun x => if x < 0 then 0 else if 1 < x then 1 else x)
  square := fun a => match a with
    | some x => some (x * x)
    | none => none
  diskSolidAngle := fun a => a.map (fun _ => 1)
  normalize := id

/-- Reference platform for the examples with a NaN: as `refPlatform`, with the
first insertion sort. -/
def nanPlatform : Platform (Option Int) where
  hash_combine_ptr := fun seed v =>
    (seed ^^^ (v + 2654435769 + (seed <<< 6) + (seed >>> 2))) % 18446744073709551616
  hash_combine_size := fun seed v =>
    (seed ^^^ (v + 2654435769 + (seed <<< 6) + (seed >>> 2))) % 18446744073709551616
  std_sort := insertionSortFront
  div_ceil := fun a b => (a + b - 1) / b
  RTXDI_INVALID_LIGHT_INDEX := 4294967295
  TASK_PRIMITIVE_LIGHT_BIT := 2147483648
  kPolymorphicLightTypeShift := 24
  kPolymorphicLightShapingEnableBit := 8388608
  kPolymorphicLightIesProfileEnableBit := 4194304
  kPolymorphicLightMinLog2Radiance := some (-8)
  kPolymorphicLightMaxLog2Radiance := some 40
  kSphere := 0
  kCylinder := 1
  kDisk := 2
  kRect := 3
  kDirectional := 5
  kEnvironment := 6
  kPoint := 7

/-- A scene of one instance (address 100, instance index 0) with one geometry
of 30 indices whose material has the emissive colour `(1, 1, 1)` and an
emissive intensity that is not a number. -/
def nanScene : Scene (Option Int) :=
  { meshInstances := [⟨100, 0, 0, [⟨⟨⟨some 1, some 1, some 1⟩, none⟩, 30⟩]⟩]
    geometryInstancesCount := 1 }

/-- What the quantisation of `packLightColor` needs of the float operations,
with the header constants `min = kPolymorphicLightMinLog2Radiance`,
`max = kPolymorphicLightMaxLog2Radiance` and `c = 65534.f`. Every law is about
operands for which a comparison holds, hence about numbers and infinities and
not about a NaN, or is the value of an operation at given constants. IEEE 754
arithmetic with rounding to nearest has these laws for finite `min < max`
(every operation here is monotone under rounding and exact at the constants
named), given a `log2f` that is non-decreasing and a `saturate` that clamps to
the interval from 0 to 1. -/
structure PackingLaws (fo : FloatOps F) (P : Platform F) : Prop where
  /-- The comparison `<=` is transitive. -/
  le_trans : ∀ a b c : F, fo.le a b = true → fo.le b c = true → fo.le a c = true
  /-- An operand of a comparison `<=` that holds compares `<=` to itself. -/
  le_refl_left : ∀ a b : F, fo.le a b = true → fo.le a a = true
  /-- An operand of a comparison `<=` that holds compares `<=` to itself. -/
  le_refl_right : ∀ a b : F, fo.le a b = true → fo.le b b = true
  /-- From `a < b` follows `a <= b`. -/
  le_of_lt : ∀ a b : F, fo.lt a b = true → fo.le a b = true
  /-- From `a < b` follows that `b <= a` is false. -/
  not_le_of_lt : ∀ a b : F, fo.lt a b = true → fo.le b a = false
  /-- The function `log2f` is non-decreasing on the positive numbers. -/
  log2f_mono : ∀ a b : F, fo.lt fo.zero a = true → fo.le a b = true →
    fo.le (fo.log2f a) (fo.log2f b) = true
  /-- Subtraction of `min` is non-decreasing. -/
  sub_mono : ∀ a b : F, fo.le a b = true →
    fo.le (fo.sub a P.kPolymorphicLightMinLog2Radiance)
      (fo.sub b P.kPolymorphicLightMinLog2Radiance) = true
  /-- Division by `max - min` is non-decreasing. -/
  div_mono : ∀ a b : F, fo.le a b = true →
    fo.le (fo.div a (fo.sub P.kPolymorphicLightMaxLog2Radiance P.kPolymorphicLightMinLog2Radiance))
      (fo.div b (fo.sub P.kPolymorphicLightMaxLog2Radiance P.kPolymorphicLightMinLog2Radiance))
      = true
  /-- The function `saturate` is non-decreasing. -/
  saturate_mono : ∀ a b : F, fo.le a b = true → fo.le (fo.saturate a) (fo.saturate b) = true
  /-- The function `saturate` takes a number into the interval from 0 to 1. -/
  saturate_range : ∀ a : F, fo.le a a = true →
    fo.le fo.zero (fo.saturate a) = true ∧ fo.le (fo.saturate a) fo.one = true
  /-- Multiplication by `c` is non-decreasing. -/
  mul_mono : ∀ a b : F, fo.le a b = true →
    fo.le (fo.mul a (fo.ofUInt 65534)) (fo.mul b (fo.ofUInt 65534)) = true
  /-- The function `ceilf` is non-decreasing. -/
  ceilf_mono : ∀ a b : F, fo.le a b = true → fo.le (fo.ceilf a) (fo.ceilf b) = true
  /-- The conversion to `uint` is non-decreasing between 0 and `c`. -/
  toUInt_mono : ∀ a b : F, fo.le fo.zero a = true → fo.le a b = true →
    fo.le b (fo.ofUInt 65534) = true → fo.toUInt a ≤ fo.toUInt b
  /-- The difference `min - min` is 0. -/
  sub_self : fo.sub P.kPolymorphicLightMinLog2Radiance P.kPolymorphicLightMinLog2Radiance
    = fo.zero
  /-- The quotient `0 / (max - min)` is 0. -/
  zero_div : fo.div fo.zero
    (fo.sub P.kPolymorphicLightMaxLog2Radiance P.kPolymorphicLightMinLog2Radiance) = fo.zero
  /-- The quotient `(max - min) / (max - min)` is 1. -/
  div_self : fo.div
    (fo.sub P.kPolymorphicLightMaxLog2Radiance P.kPolymorphicLightMinLog2Radiance)
    (fo.sub P.kPolymorphicLightMaxLog2Radiance P.kPolymorphicLightMinLog2Radiance) = fo.one
  /-- The value `saturate(0)` is 0. -/
  saturate_zero : fo.saturate fo.zero = fo.zero
  /-- The value `saturate(1)` is 1. -/
  saturate_one : fo.saturate fo.one = fo.one
  /-- The product `0 * c` is 0. -/
  zero_mul : fo.mul fo.zero (fo.ofUInt 65534) = fo.zero
  /-- The product `1 * c` is `c`. -/
  one_mul : fo.mul fo.one (fo.ofUInt 65534) = fo.ofUInt 65534
  /-- The value `ceilf(0)` is 0. -/
  ceilf_zero : fo.ceilf fo.zero = fo.zero
  /-- The value `ceilf(c)` is `c`. -/
  ceilf_c : fo.ceilf (fo.ofUInt 65534) = fo.ofUInt 65534
  /-- The conversion of 0 to `uint` is 0. -/
  toUInt_zero : fo.toUInt fo.zero = 0
  /-- The conversion of `c` to `uint` is 65534. -/
  toUInt_c : fo.toUInt (fo.ofUInt 65534) = 65534

/-- What the reconstruction of the scale in `packLightColor` needs of the
float operations, with `min`, `max` and `c` as in `PackingLaws`. IEEE 754
arithmetic with rounding to nearest has these laws for the header constants
-8 and 40 (the conversions of the integers up to 65534 are exact and lie
between 0 and `c`, the operations are monotone under rounding and exact at the
constants named), given an `exp2f` that is positive and finite between `min`
and `max`. -/
structure DecodeLaws (fo : FloatOps F) (P : Platform F) : Prop where
  /-- The conversion of an integer up to 65534 lies between 0 and `c`. -/
  ofUInt_range : ∀ n : Nat, n ≤ 65534 →
    fo.le fo.zero (fo.ofUInt n) = true ∧ fo.le (fo.ofUInt n) (fo.ofUInt 65534) = true
  /-- Division by `c` is non-decreasing. -/
  div_c_mono : ∀ a b : F, fo.le a b = true →
    fo.le (fo.div a (fo.ofUInt 65534)) (fo.div b (fo.ofUInt 65534)) = true
  /-- The quotient `0 / c` is 0. -/
  zero_div_c : fo.div fo.zero (fo.ofUInt 65534) = fo.zero
  /-- The quotient `c / c` is 1. -/
  c_div_c : fo.div (fo.ofUInt 65534) (fo.ofUInt 65534) = fo.one
  /-- Multiplication by `max - min` is non-decreasing. -/
  mul_range_mono : ∀ a b : F, fo.le a b = true →
    fo.le (fo.mul a (fo.sub P.kPolymorphicLightMaxLog2Radiance P.kPolymorphicLightMinLog2Radiance))
      (fo.mul b (fo.sub P.kPolymorphicLightMaxLog2Radiance P.kPolymorphicLightMinLog2Radiance))
      = true
  /-- The product `0 * (max - min)` is 0. -/
  zero_mul_range : fo.mul fo.zero
    (fo.sub P.kPolymorphicLightMaxLog2Radiance P.kPolymorphicLightMinLog2Radiance) = fo.zero
  /-- The product `1 * (max - min)` is `max - min`. -/
  one_mul_range : fo.mul fo.one
    (fo.sub P.kPolymorphicLightMaxLog2Radiance P.kPolymorphicLightMinLog2Radiance) =
      fo.sub P.kPolymorphicLightMaxLog2Radiance P.kPolymorphicLightMinLog2Radiance
  /-- Addition of `min` is non-decreasing. -/
  add_mono : ∀ a b : F, fo.le a b = true →
    fo.le (fo.add a P.kPolymorphicLightMinLog2Radiance)
      (fo.add b P.kPolymorphicLightMinLog2Radiance) = true
  /-- The sum `0 + min` is `min`. -/
  zero_add : fo.add fo.zero P.kPolymorphicLightMinLog2Radiance =
    P.kPolymorphicLightMinLog2Radiance
  /-- The sum `(max - min) + min` is `max`. -/
  range_add : fo.add
    (fo.sub P.kPolymorphicLightMaxLog2Radiance P.kPolymorphicLightMinLog2Radiance)
    P.kPolymorphicLightMinLog2Radiance = P.kPolymorphicLightMaxLog2Radiance
  /-- The function `exp2f` is positive between `min` and `max`. -/
  exp2f_pos : ∀ t : F, fo.le P.kPolymorphicLightMinLog2Radiance t = true →
    fo.le t P.kPolymorphicLightMaxLog2Radiance = true → fo.lt fo.zero (fo.exp2f t) = true
  /-- A number `>= 0` divided by `exp2f(t)` for `t` between `min` and `max` is
  `>= 0`. -/
  div_nonneg : ∀ x t : F, fo.le P.kPolymorphicLightMinLog2Radiance t = true →
    fo.le t P.kPolymorphicLightMaxLog2Radiance = true → fo.le fo.zero x = true →
    fo.le fo.zero (fo.div x (fo.exp2f t)) = true

/-! Lemmas: machine integers -/

theorem toU32_lt (n : Nat) : toU32 n < 4294967296 := by
  unfold toU32; omega

theorem toU32_of_lt {n : Nat} (h : n < 4294967296) : toU32 n = n := by
  unfold toU32; omega

theorem toU32_idem (n : Nat) : toU32 (toU32 n) = toU32 n := by
  unfold toU32; omega

theorem toU32_add_left (a b : Nat) : toU32 (toU32 a + b) = toU32 (a + b) := by
  unfold toU32; omega

theorem toU32_add_right (a b : Nat) : toU32 (a + toU32 b) = toU32 (a + b) := by
  unfold toU32; omega

theorem toInt32_of_lt {n : Nat} (h : n < 2147483648) : toInt32 n = (n : Int) := by
  unfold toInt32 toU32
  have h1 : n % 4294967296 = n := by omega
  rw [h1, if_pos h]

/-! Lemmas: consecutive allocation -/

theorem getElem?_append_cons_length {α : Type} (xs ys : List α) (a : α) :
    (xs ++ a :: ys)[xs.length]? = some a := by
  induction xs with
  | nil => simp
  | cons x xs ih => simpa using ih

theorem TaskChain.append {a b c : Nat} {xs ys : List PrepareLightsTask}
    (h1 : TaskChain a xs b) (h2 : TaskChain b ys c) : TaskChain a (xs ++ ys) c := by
  induction xs generalizing a with
  | nil => simp only [TaskChain] at h1; subst h1; simpa using h2
  | cons t ts ih =>
    simp only [TaskChain] at h1
    simp only [List.cons_append, TaskChain]
    exact ⟨h1.1, ih h1.2⟩

theorem TaskChain.single (t : PrepareLightsTask) :
    TaskChain t.lightBufferOffset [t] (toU32 (t.lightBufferOffset + t.triangleCount)) := by
  simp [TaskChain]

theorem TaskChain.head {a b : Nat} {ts : List PrepareLightsTask} (h : TaskChain a ts b)
    {t : PrepareLightsTask} (ht : ts.head? = some t) : t.lightBufferOffset = a := by
  cases ts with
  | nil => simp at ht
  | cons u us =>
    simp only [List.head?_cons, Option.some.injEq] at ht
    subst ht
    exact h.1

theorem TaskChain.next {a b : Nat} {ts : List PrepareLightsTask} (h : TaskChain a ts b)
    {i : Nat} {t u : PrepareLightsTask} (ht : ts[i]? = some t) (hu : ts[i + 1]? = some u) :
    u.lightBufferOffset = toU32 (t.lightBufferOffset + t.triangleCount) := by
  induction ts generalizing a i with
  | nil => simp at ht
  | cons v vs ih =>
    simp only [TaskChain] at h
    cases i with
    | zero =>
      simp only [List.getElem?_cons_zero, Option.some.injEq] at ht
      subst ht
      simp only [List.getElem?_cons_succ] at hu
      cases vs with
      | nil => simp at hu
      | cons w ws =>
        simp only [List.getElem?_cons_zero, Option.some.injEq] at hu
        subst hu
        simp only [TaskChain] at h
        rw [h.2.1, h.1]
    | succ j =>
      simp only [List.getElem?_cons_succ] at ht hu
      exact ih h.2 ht hu

theorem TaskChain.last {a b : Nat} {ts : List PrepareLightsTask} (h : TaskChain a ts b)
    {t : PrepareLightsTask} (ht : ts.getLast? = some t) :
    toU32 (t.lightBufferOffset + t.triangleCount) = b := by
  induction ts generalizing a with
  | nil => simp at ht
  | cons v vs ih =>
    simp only [TaskChain] at h
    cases vs with
    | nil =>
      simp only [List.getLast?_singleton, Option.some.injEq] at ht
      subst ht
      simp only [TaskChain] at h
      rw [h.1]; exact h.2
    | cons w ws =>
      rw [List.getLast?_cons_cons] at ht
      exact ih h.2 ht

theorem TaskChain.stop_lt {a b : Nat} {ts : List PrepareLightsTask} (h : TaskChain a ts b)
    (ha : a < 4294967296) : b < 4294967296 := by
  induction ts generalizing a with
  | nil => simp only [TaskChain] at h; omega
  | cons v vs ih => exact ih h.2 (toU32_lt _)

/-- Without wrap-around the end of a chain is the start plus the counts, and
every task lies between the start and the end. -/
theorem TaskChain.exact {a b : Nat} {ts : List PrepareLightsTask} (h : TaskChain a ts b)
    (hs : a + (ts.map PrepareLightsTask.triangleCount).sum < 4294967296) :
    b = a + (ts.map PrepareLightsTask.triangleCount).sum ∧
    ∀ i t, ts[i]? = some t →
      t.lightBufferOffset = a + ((ts.take i).map PrepareLightsTask.triangleCount).sum ∧
      a ≤ t.lightBufferOffset ∧ t.lightBufferOffset + t.triangleCount ≤ b := by
  induction ts generalizing a with
  | nil =>
    simp only [TaskChain] at h
    simp [h]
  | cons v vs ih =>
    simp only [TaskChain] at h
    simp only [List.map_cons, List.sum_cons] at hs
    have hv : toU32 (a + v.triangleCount) = a + v.triangleCount := toU32_of_lt (by omega)
    rw [hv] at h
    obtain ⟨hb, hall⟩ := ih h.2 (by omega)
    refine ⟨by simp only [List.map_cons, List.sum_cons]; omega, ?_⟩
    intro i t ht
    cases i with
    | zero =>
      simp only [List.getElem?_cons_zero, Option.some.injEq] at ht
      subst ht
      simp only [List.take_zero, List.map_nil, List.sum_nil]
      refine ⟨by omega, by omega, ?_⟩
      rw [hb, h.1]; omega
    | succ j =>
      simp only [List.getElem?_cons_succ] at ht
      obtain ⟨h1, h2, h3⟩ := hall j t ht
      simp only [List.take_succ_cons, List.map_cons, List.sum_cons]
      exact ⟨by omega, by omega, h3⟩

/-- Without wrap-around every slot between the start and the end of a chain
belongs to exactly one task. -/
theorem TaskChain.tiling {a b : Nat} {ts : List PrepareLightsTask} (h : TaskChain a ts b)
    (hs : a + (ts.map PrepareLightsTask.triangleCount).sum < 4294967296)
    (slot : Nat) (h1 : a ≤ slot) (h2 : slot < b) :
    ∃! i : Nat, ∃ t : PrepareLightsTask, ts[i]? = some t ∧ t.lightBufferOffset ≤ slot ∧
      slot < t.lightBufferOffset + t.triangleCount := by
  induction ts generalizing a with
  | nil => simp only [TaskChain] at h; omega
  | cons v vs ih =>
    have hex := (TaskChain.exact h hs).2
    simp only [TaskChain] at h
    simp only [List.map_cons, List.sum_cons] at hs
    have hv : toU32 (a + v.triangleCount) = a + v.triangleCount := toU32_of_lt (by omega)
    rw [hv] at h
    have hrest := (TaskChain.exact h.2 (by omega)).2
    by_cases hc : slot < a + v.triangleCount
    · refine ⟨0, ⟨v, by simp, by omega, by omega⟩, ?_⟩
      rintro j ⟨t, ht, hle, hlt⟩
      cases j with
      | zero => rfl
      | succ k =>
        simp only [List.getElem?_cons_succ] at ht
        have := (hrest k t ht).2.1
        omega
    · obtain ⟨i, ⟨t, ht, hle, hlt⟩, huniq⟩ := ih h.2 (by omega) (by omega)
      refine ⟨i + 1, ⟨t, by simpa using ht, hle, hlt⟩, ?_⟩
      rintro j ⟨u, hu, hle2, hlt2⟩
      cases j with
      | zero =>
        simp only [List.getElem?_cons_zero, Option.some.injEq] at hu
        subst hu
        omega
      | succ k =>
        simp only [List.getElem?_cons_succ] at hu
        have := huniq k ⟨u, hu, hle2, hlt2⟩
        omega

/-! Lemmas: the geometry loops -/

theorem entriesLoop_append (fo : FloatOps F) (P : Platform F) (xs ys : List (GeomEntry F))
    (s : Locals F) :
    entriesLoop fo P (xs ++ ys) s = entriesLoop fo P ys (entriesLoop fo P xs s) := by
  induction xs generalizing s with
  | nil => rfl
  | cons e es ih => simp only [List.cons_append, entriesLoop]; exact ih _

theorem geometryLoop_eq (fo : FloatOps F) (P : Platform F) (inst : MeshInstance F)
    (gs : List (MeshGeometry F)) (i : Nat) (s : Locals F) :
    geometryLoop fo P inst i gs s = entriesLoop fo P (geometryEntriesFrom inst i gs) s := by
  induction gs generalizing i s with
  | nil => rfl
  | cons g gs ih => simp only [geometryLoop, geometryEntriesFrom, entriesLoop]; exact ih _ _

theorem instanceLoop_eq (fo : FloatOps F) (P : Platform F) (insts : List (MeshInstance F))
    (s : Locals F) :
    instanceLoop fo P insts s = entriesLoop fo P (sceneEntries insts) s := by
  induction insts generalizing s with
  | nil => rfl
  | cons inst rest ih =>
    simp only [instanceLoop, sceneEntries, entriesLoop_append, geometryLoop_eq]
    exact ih _

/-- The step of the geometry loop at an iteration that fails the emissive test. -/
theorem geometryStep_skip (fo : FloatOps F) (P : Platform F) (e : GeomEntry F) (s : Locals F)
    (h : e.emissive fo = false) :
    geometryStep fo P e.inst e.geometryIndex e.geometry s =
      { s with m_InstanceLightBufferOffsets := mapErase s.m_InstanceLightBufferOffsets (e.key P) } := by
  have h1 : notEmissive fo e.geometry.material = true := by
    simpa [GeomEntry.emissive] using h
  simp [geometryStep, h1, GeomEntry.key]

/-- The step of the geometry loop at an iteration that passes the emissive test. -/
theorem geometryStep_emit (fo : FloatOps F) (P : Platform F) (e : GeomEntry F) (s : Locals F)
    (h : e.emissive fo = true) :
    geometryStep fo P e.inst e.geometryIndex e.geometry s =
      { s with
        geometryInstanceToLight :=
          s.geometryInstanceToLight.set (toU32 e.inst.geometryInstanceIndex + e.geometryIndex)
            s.lightBufferOffset
        visibleLightIndex := s.visibleLightIndex ++ [s.lightBufferOffset]
        m_InstanceLightBufferOffsets :=
          mapSet s.m_InstanceLightBufferOffsets (e.key P) s.lightBufferOffset
        lightBufferOffset := toU32 (s.lightBufferOffset + e.triangleCount)
        tasks := s.tasks ++ [geometryTask P e s]
        numEmissionInstance := toU32 (s.numEmissionInstance + 1) } := by
  have h1 : notEmissive fo e.geometry.material = false := by
    simpa [GeomEntry.emissive] using h
  simp [geometryStep, h1, GeomEntry.key, geometryTask, GeomEntry.triangleCount, GeomEntry.taskId]

theorem entriesLoop_cons_skip (fo : FloatOps F) (P : Platform F) (e : GeomEntry F)
    (es : List (GeomEntry F)) (s : Locals F) (h : e.emissive fo = false) :
    entriesLoop fo P (e :: es) s = entriesLoop fo P es
      { s with m_InstanceLightBufferOffsets := mapErase s.m_InstanceLightBufferOffsets (e.key P) } := by
  simp only [entriesLoop, geometryStep_skip fo P e s h]

theorem entriesLoop_cons_emit (fo : FloatOps F) (P : Platform F) (e : GeomEntry F)
    (es : List (GeomEntry F)) (s : Locals F) (h : e.emissive fo = true) :
    entriesLoop fo P (e :: es) s = entriesLoop fo P es
      { s with
        geometryInstanceToLight :=
          s.geometryInstanceToLight.set (toU32 e.inst.geometryInstanceIndex + e.geometryIndex)
            s.lightBufferOffset
        visibleLightIndex := s.visibleLightIndex ++ [s.lightBufferOffset]
        m_InstanceLightBufferOffsets :=
          mapSet s.m_InstanceLightBufferOffsets (e.key P) s.lightBufferOffset
        lightBufferOffset := toU32 (s.lightBufferOffset + e.triangleCount)
        tasks := s.tasks ++ [geometryTask P e s]
        numEmissionInstance := toU32 (s.numEmissionInstance + 1) } := by
  simp only [entriesLoop, geometryStep_emit fo P e s h]

/-- The geometry loops leave the locals of the light loop alone. -/
theorem entriesLoop_untouched (fo : FloatOps F) (P : Platform F) (es : List (GeomEntry F))
    (s : Locals F) :
    (entriesLoop fo P es s).primitiveLightInfos = s.primitiveLightInfos ∧
    (entriesLoop fo P es s).numFinitePrimLights = s.numFinitePrimLights ∧
    (entriesLoop fo P es s).numInfinitePrimLights = s.numInfinitePrimLights ∧
    (entriesLoop fo P es s).numImportanceSampledEnvironmentLights =
      s.numImportanceSampledEnvironmentLights ∧
    (entriesLoop fo P es s).m_PrimitiveLightBufferOffsets = s.m_PrimitiveLightBufferOffsets := by
  induction es generalizing s with
  | nil => simp [entriesLoop]
  | cons e es ih =>
    cases h : e.emissive fo with
    | false => rw [entriesLoop_cons_skip fo P e es s h]; exact ih _
    | true => rw [entriesLoop_cons_emit fo P e es s h]; exact ih _

/-- The tasks appended by the geometry loops: one per emissive iteration, with
its triangle count, allocated consecutively from the cursor. -/
theorem entriesLoop_tasks (fo : FloatOps F) (P : Platform F) (es : List (GeomEntry F))
    (s : Locals F) :
    ∃ new : List PrepareLightsTask,
      (entriesLoop fo P es s).tasks = s.tasks ++ new ∧
      new.map PrepareLightsTask.triangleCount =
        (es.filter (GeomEntry.emissive fo)).map GeomEntry.triangleCount ∧
      TaskChain s.lightBufferOffset new (entriesLoop fo P es s).lightBufferOffset ∧
      ∀ t ∈ new, t.previousLightBufferOffset = -1 ∨
        ∃ v, t.previousLightBufferOffset = toInt32 v := by
  induction es generalizing s with
  | nil => exact ⟨[], by simp [entriesLoop, TaskChain]⟩
  | cons e es ih =>
    cases h : e.emissive fo with
    | false =>
      rw [entriesLoop_cons_skip fo P e es s h]
      obtain ⟨new, h1, h2, h3, h4⟩ := ih
        { s with m_InstanceLightBufferOffsets := mapErase s.m_InstanceLightBufferOffsets (e.key P) }
      exact ⟨new, h1, by simpa [List.filter_cons, h] using h2, h3, h4⟩
    | true =>
      rw [entriesLoop_cons_emit fo P e es s h]
      obtain ⟨new, h1, h2, h3, h4⟩ := ih
        { s with
          geometryInstanceToLight :=
            s.geometryInstanceToLight.set (toU32 e.inst.geometryInstanceIndex + e.geometryIndex)
              s.lightBufferOffset
          visibleLightIndex := s.visibleLightIndex ++ [s.lightBufferOffset]
          m_InstanceLightBufferOffsets :=
            mapSet s.m_InstanceLightBufferOffsets (e.key P) s.lightBufferOffset
          lightBufferOffset := toU32 (s.lightBufferOffset + e.triangleCount)
          tasks := s.tasks ++ [geometryTask P e s]
          numEmissionInstance := toU32 (s.numEmissionInstance + 1) }
      refine ⟨geometryTask P e s :: new, ?_, ?_, ?_, ?_⟩
      · rw [h1]; simp
      · simp only [List.map_cons, List.filter_cons, h, if_true, h2]
        rfl
      · exact ⟨rfl, h3⟩
      · intro t ht
        rcases List.mem_cons.mp ht with rfl | ht
        · simp only [geometryTask]
          cases s.m_InstanceLightBufferOffsets (e.key P) with
          | none => exact Or.inl rfl
          | some v => exact Or.inr ⟨v, rfl⟩
        · exact h4 t ht

/-- An entry of the geometry tracker whose key belongs to no iteration is not
changed by the geometry loops. -/
theorem entriesLoop_map_of_not_mem (fo : FloatOps F) (P : Platform F) (es : List (GeomEntry F))
    (s : Locals F) (k : Nat) (hk : k ∉ es.map (GeomEntry.key P)) :
    (entriesLoop fo P es s).m_InstanceLightBufferOffsets k = s.m_InstanceLightBufferOffsets k := by
  induction es generalizing s with
  | nil => rfl
  | cons e es ih =>
    simp only [List.map_cons, List.mem_cons, not_or] at hk
    cases h : e.emissive fo with
    | false =>
      rw [entriesLoop_cons_skip fo P e es s h, ih _ hk.2]
      simp [mapErase, hk.1]
    | true =>
      rw [entriesLoop_cons_emit fo P e es s h, ih _ hk.2]
      simp [mapSet, hk.1]

/-- When no emissive iteration has the key `k`, the geometry loops leave the
tracker without an entry for `k` if it had none or if some iteration has the
key `k`. -/
theorem entriesLoop_map_none (fo : FloatOps F) (P : Platform F) (es : List (GeomEntry F))
    (s : Locals F) (k : Nat)
    (hno : ∀ e ∈ es, e.key P = k → e.emissive fo = false)
    (h : s.m_InstanceLightBufferOffsets k = none ∨ k ∈ es.map (GeomEntry.key P)) :
    (entriesLoop fo P es s).m_InstanceLightBufferOffsets k = none := by
  induction es generalizing s with
  | nil => simpa [entriesLoop] using h
  | cons e es ih =>
    have hno2 : ∀ x ∈ es, x.key P = k → x.emissive fo = false :=
      fun x hx => hno x (List.mem_cons_of_mem _ hx)
    by_cases hek : e.key P = k
    · have he := hno e (List.mem_cons_self _ _) hek
      rw [entriesLoop_cons_skip fo P e es s he]
      exact ih _ hno2 (Or.inl (by simp [mapErase, hek]))
    · have hk2 : k ≠ e.key P := fun hh => hek hh.symm
      cases he : e.emissive fo with
      | false =>
        rw [entriesLoop_cons_skip fo P e es s he]
        refine ih _ hno2 ?_
        rcases h with h | h
        · exact Or.inl (by simp [mapErase, hk2, h])
        · simp only [List.map_cons, List.mem_cons] at h
          rcases h with h | h
          · exact absurd h hk2
          · exact Or.inr h
      | true =>
        rw [entriesLoop_cons_emit fo P e es s he]
        refine ih _ hno2 ?_
        rcases h with h | h
        · exact Or.inl (by simp [mapSet, hk2, h])
        · simp only [List.map_cons, List.mem_cons] at h
          rcases h with h | h
          · exact absurd h hk2
          · exact Or.inr h

/-- The geometry loops at an emissive iteration `e` that follows the
iterations `pre`: its task comes right after the tasks of `pre`, and the
tracker keeps its offset when no later iteration has the same key. -/
theorem entriesLoop_split (fo : FloatOps F) (P : Platform F) (pre post : List (GeomEntry F))
    (e : GeomEntry F) (s : Locals F) (he : e.emissive fo = true) :
    ∃ rest : List PrepareLightsTask,
      (entriesLoop fo P (pre ++ e :: post) s).tasks =
        (entriesLoop fo P pre s).tasks ++ geometryTask P e (entriesLoop fo P pre s) :: rest ∧
      (e.key P ∉ post.map (GeomEntry.key P) →
        (entriesLoop fo P (pre ++ e :: post) s).m_InstanceLightBufferOffsets (e.key P) =
          some (entriesLoop fo P pre s).lightBufferOffset) := by
  rw [entriesLoop_append, entriesLoop_cons_emit fo P e post _ he]
  obtain ⟨new, h1, -, -, -⟩ := entriesLoop_tasks fo P post
    { entriesLoop fo P pre s with
      geometryInstanceToLight :=
        (entriesLoop fo P pre s).geometryInstanceToLight.set
          (toU32 e.inst.geometryInstanceIndex + e.geometryIndex)
          (entriesLoop fo P pre s).lightBufferOffset
      visibleLightIndex :=
        (entriesLoop fo P pre s).visibleLightIndex ++ [(entriesLoop fo P pre s).lightBufferOffset]
      m_InstanceLightBufferOffsets :=
        mapSet (entriesLoop fo P pre s).m_InstanceLightBufferOffsets (e.key P)
          (entriesLoop fo P pre s).lightBufferOffset
      lightBufferOffset := toU32 ((entriesLoop fo P pre s).lightBufferOffset + e.triangleCount)
      tasks := (entriesLoop fo P pre s).tasks ++ [geometryTask P e (entriesLoop fo P pre s)]
      numEmissionInstance := toU32 ((entriesLoop fo P pre s).numEmissionInstance + 1) }
  refine ⟨new, ?_, ?_⟩
  · rw [h1]; simp
  · intro hk
    rw [entriesLoop_map_of_not_mem fo P post _ _ hk]
    simp [mapSet]

/-! Lemmas: the light loop -/

theorem lightStep_skip (fo : FloatOps F) (P : Platform F) (flag : Bool) (l : Light F)
    (s : Locals F) (h : encodes fo P flag l = false) : lightStep fo P flag l s = s := by
  unfold encodes at h
  simp [lightStep, h]

/-- The step of the light loop at a light that `ConvertLight` encodes. -/
theorem lightStep_emit (fo : FloatOps F) (P : Platform F) (flag : Bool) (l : Light F)
    (s : Locals F) (h : encodes fo P flag l = true) :
    (lightStep fo P flag l s).tasks = s.tasks ++ [lightTask P l s] ∧
    (lightStep fo P flag l s).primitiveLightInfos =
      s.primitiveLightInfos ++ [(ConvertLight fo P l (PolymorphicLightInfo.init fo) flag).2] ∧
    (lightStep fo P flag l s).lightBufferOffset = toU32 (s.lightBufferOffset + 1) ∧
    (lightStep fo P flag l s).visibleLightIndex = s.visibleLightIndex ++ [s.lightBufferOffset] ∧
    (lightStep fo P flag l s).m_PrimitiveLightBufferOffsets =
      mapSet s.m_PrimitiveLightBufferOffsets l.ptr s.lightBufferOffset ∧
    (lightStep fo P flag l s).m_InstanceLightBufferOffsets = s.m_InstanceLightBufferOffsets ∧
    (lightStep fo P flag l s).geometryInstanceToLight = s.geometryInstanceToLight ∧
    (lightStep fo P flag l s).numEmissionInstance = s.numEmissionInstance := by
  unfold encodes at h
  simp only [lightStep, h, Bool.not_true, Bool.false_eq_true, if_false, lightTask]
  split
  · simp
  · split <;> simp

/-- The counters after the step of the light loop at an encoded light. -/
theorem lightStep_emit_counts (fo : FloatOps F) (P : Platform F) (flag : Bool) (l : Light F)
    (s : Locals F) (h : encodes fo P flag l = true) :
    (lightStep fo P flag l s).numImportanceSampledEnvironmentLights =
      (if countsAsImportanceSampledEnvironment flag l then
        toU32 (s.numImportanceSampledEnvironmentLights + 1)
       else s.numImportanceSampledEnvironmentLights) ∧
    (lightStep fo P flag l s).numInfinitePrimLights =
      (if countsAsInfinite flag l then toU32 (s.numInfinitePrimLights + 1)
       else s.numInfinitePrimLights) ∧
    (lightStep fo P flag l s).numFinitePrimLights =
      (if countsAsFinite flag l then toU32 (s.numFinitePrimLights + 1)
       else s.numFinitePrimLights) := by
  unfold encodes at h
  simp only [lightStep, h, Bool.not_true, Bool.false_eq_true, if_false,
    countsAsImportanceSampledEnvironment, countsAsInfinite, countsAsFinite]
  by_cases h1 : (decide (l.GetLightType = LightType.LightType_Environment) && flag) = true
  · simp [h1]
  · by_cases h2 : isInfiniteLight l = 0
    · simp [h1, h2]
    · simp [h1, h2]

theorem lightLoop_append (fo : FloatOps F) (P : Platform F) (flag : Bool)
    (xs ys : List (Light F)) (s : Locals F) :
    lightLoop fo P flag (xs ++ ys) s = lightLoop fo P flag ys (lightLoop fo P flag xs s) := by
  induction xs generalizing s with
  | nil => rfl
  | cons l ls ih => simp only [List.cons_append, lightLoop]; exact ih _

/-- The light loop leaves the locals of the geometry loops alone. -/
theorem lightLoop_untouched (fo : FloatOps F) (P : Platform F) (flag : Bool)
    (ls : List (Light F)) (s : Locals F) :
    (lightLoop fo P flag ls s).m_InstanceLightBufferOffsets = s.m_InstanceLightBufferOffsets ∧
    (lightLoop fo P flag ls s).geometryInstanceToLight = s.geometryInstanceToLight ∧
    (lightLoop fo P flag ls s).numEmissionInstance = s.numEmissionInstance := by
  induction ls generalizing s with
  | nil => simp [lightLoop]
  | cons l ls ih =>
    simp only [lightLoop]
    cases h : encodes fo P flag l with
    | false => rw [lightStep_skip fo P flag l s h]; exact ih _
    | true =>
      obtain ⟨-, -, -, -, -, h6, h7, h8⟩ := lightStep_emit fo P flag l s h
      obtain ⟨i1, i2, i3⟩ := ih (lightStep fo P flag l s)
      exact ⟨i1.trans h6, i2.trans h7, i3.trans h8⟩

/-- The tasks appended by the light loop: one per encoded light, of count one,
the `k`-th at the cursor plus `k`. -/
theorem lightLoop_tasks (fo : FloatOps F) (P : Platform F) (flag : Bool)
    (ls : List (Light F)) (s : Locals F) (hs : s.lightBufferOffset < 4294967296) :
    ∃ new : List PrepareLightsTask,
      (lightLoop fo P flag ls s).tasks = s.tasks ++ new ∧
      new.length = (ls.filter (encodes fo P flag)).length ∧
      TaskChain s.lightBufferOffset new (lightLoop fo P flag ls s).lightBufferOffset ∧
      (∀ t ∈ new, t.triangleCount = 1) ∧
      (∀ k t, new[k]? = some t → t.lightBufferOffset = toU32 (s.lightBufferOffset + k)) ∧
      (lightLoop fo P flag ls s).lightBufferOffset =
        toU32 (s.lightBufferOffset + new.length) ∧
      (lightLoop fo P flag ls s).visibleLightIndex =
        s.visibleLightIndex ++ new.map PrepareLightsTask.lightBufferOffset ∧
      (lightLoop fo P flag ls s).primitiveLightInfos.length =
        s.primitiveLightInfos.length + new.length := by
  induction ls generalizing s with
  | nil => exact ⟨[], by simp [lightLoop, TaskChain, toU32_of_lt hs]⟩
  | cons l ls ih =>
    simp only [lightLoop]
    cases h : encodes fo P flag l with
    | false =>
      rw [lightStep_skip fo P flag l s h]
      obtain ⟨new, h1, h2, h3, h4, h5, h6, h7, h8⟩ := ih s hs
      exact ⟨new, h1, by simpa [List.filter_cons, h] using h2, h3, h4, h5, h6, h7, h8⟩
    | true =>
      obtain ⟨e1, e2, e3, e4, -, -, -, -⟩ := lightStep_emit fo P flag l s h
      obtain ⟨new, h1, h2, h3, h4, h5, h6, h7, h8⟩ :=
        ih (lightStep fo P flag l s) (by rw [e3]; exact toU32_lt _)
      refine ⟨lightTask P l s :: new, ?_, ?_, ?_, ?_, ?_, ?_, ?_, ?_⟩
      · rw [h1, e1]; simp
      · simp [List.filter_cons, h, h2]
      · refine ⟨rfl, ?_⟩
        rw [e3] at h3
        exact h3
      · intro t ht
        rcases List.mem_cons.mp ht with rfl | ht
        · rfl
        · exact h4 t ht
      · intro k t hk
        cases k with
        | zero =>
          simp only [List.getElem?_cons_zero, Option.some.injEq] at hk
          subst hk
          simp only [lightTask, Nat.add_zero]
          exact (toU32_of_lt hs).symm
        | succ j =>
          simp only [List.getElem?_cons_succ] at hk
          rw [h5 j t hk, e3, toU32_add_left]
          congr 1; omega
      · rw [h6, e3, toU32_add_left, List.length_cons]
        congr 1; omega
      · rw [h7, e4]; simp [lightTask]
      · rw [h8, e2]; simp; omega

/-- An entry of the light tracker whose key belongs to no encoded light of the
list is not changed by the light loop. -/
theorem lightLoop_map_of_not_mem (fo : FloatOps F) (P : Platform F) (flag : Bool)
    (ls : List (Light F)) (s : Locals F) (p : Nat)
    (hp : p ∉ (ls.filter (encodes fo P flag)).map Light.ptr) :
    (lightLoop fo P flag ls s).m_PrimitiveLightBufferOffsets p =
      s.m_PrimitiveLightBufferOffsets p := by
  induction ls generalizing s with
  | nil => rfl
  | cons l ls ih =>
    simp only [lightLoop]
    cases h : encodes fo P flag l with
    | false =>
      rw [lightStep_skip fo P flag l s h]
      exact ih s (by simpa [List.filter_cons, h] using hp)
    | true =>
      simp only [List.filter_cons, h, if_true, List.map_cons, List.mem_cons, not_or] at hp
      obtain ⟨-, -, -, -, e5, -, -, -⟩ := lightStep_emit fo P flag l s h
      rw [ih (lightStep fo P flag l s) hp.2, e5]
      simp [mapSet, hp.1]

/-- The light loop at an encoded light `l` that follows the lights `pre`: its
task comes right after the tasks of `pre`, and the tracker keeps its offset
when no later encoded light has the same address. -/
theorem lightLoop_split (fo : FloatOps F) (P : Platform F) (flag : Bool)
    (pre post : List (Light F)) (l : Light F) (s : Locals F)
    (hl : encodes fo P flag l = true) :
    ∃ rest : List PrepareLightsTask,
      (lightLoop fo P flag (pre ++ l :: post) s).tasks =
        (lightLoop fo P flag pre s).tasks ++ lightTask P l (lightLoop fo P flag pre s) :: rest ∧
      (l.ptr ∉ (post.filter (encodes fo P flag)).map Light.ptr →
        (lightLoop fo P flag (pre ++ l :: post) s).m_PrimitiveLightBufferOffsets l.ptr =
          some (lightLoop fo P flag pre s).lightBufferOffset) := by
  rw [lightLoop_append]
  simp only [lightLoop]
  obtain ⟨e1, -, e3, -, e5, -, -, -⟩ := lightStep_emit fo P flag l (lightLoop fo P flag pre s) hl
  obtain ⟨new, h1, -⟩ := lightLoop_tasks fo P flag post
    (lightStep fo P flag l (lightLoop fo P flag pre s)) (by rw [e3]; exact toU32_lt _)
  refine ⟨new, ?_, ?_⟩
  · rw [h1, e1]; simp
  · intro hk
    rw [lightLoop_map_of_not_mem fo P flag post _ _ hk, e5]
    simp [mapSet]

/-- The three counters of the light loop. -/
theorem lightLoop_counts (fo : FloatOps F) (P : Platform F) (flag : Bool)
    (ls : List (Light F)) (s : Locals F)
    (h1 : s.numImportanceSampledEnvironmentLights < 4294967296)
    (h2 : s.numInfinitePrimLights < 4294967296)
    (h3 : s.numFinitePrimLights < 4294967296) :
    (lightLoop fo P flag ls s).numImportanceSampledEnvironmentLights =
      toU32 (s.numImportanceSampledEnvironmentLights +
        ((ls.filter (encodes fo P flag)).filter
          (countsAsImportanceSampledEnvironment flag)).length) ∧
    (lightLoop fo P flag ls s).numInfinitePrimLights =
      toU32 (s.numInfinitePrimLights +
        ((ls.filter (encodes fo P flag)).filter (countsAsInfinite flag)).length) ∧
    (lightLoop fo P flag ls s).numFinitePrimLights =
      toU32 (s.numFinitePrimLights +
        ((ls.filter (encodes fo P flag)).filter (countsAsFinite flag)).length) := by
  induction ls generalizing s with
  | nil => simp [lightLoop, toU32_of_lt h1, toU32_of_lt h2, toU32_of_lt h3]
  | cons l ls ih =>
    simp only [lightLoop]
    cases h : encodes fo P flag l with
    | false =>
      rw [lightStep_skip fo P flag l s h]
      simpa [List.filter_cons, h] using ih s h1 h2 h3
    | true =>
      obtain ⟨c1, c2, c3⟩ := lightStep_emit_counts fo P flag l s h
      have b1 : (lightStep fo P flag l s).numImportanceSampledEnvironmentLights < 4294967296 := by
        rw [c1]; split
        · exact toU32_lt _
        · exact h1
      have b2 : (lightStep fo P flag l s).numInfinitePrimLights < 4294967296 := by
        rw [c2]; split
        · exact toU32_lt _
        · exact h2
      have b3 : (lightStep fo P flag l s).numFinitePrimLights < 4294967296 := by
        rw [c3]; split
        · exact toU32_lt _
        · exact h3
      obtain ⟨i1, i2, i3⟩ := ih (lightStep fo P flag l s) b1 b2 b3
      rw [i1, i2, i3, c1, c2, c3]
      simp only [List.filter_cons, h, if_true]
      refine ⟨?_, ?_, ?_⟩
      · cases countsAsImportanceSampledEnvironment flag l with
        | false => simp
        | true =>
          simp only [if_true, List.length_cons, toU32_add_left]
          congr 1; omega
      · cases countsAsInfinite flag l with
        | false => simp
        | true =>
          simp only [if_true, List.length_cons, toU32_add_left]
          congr 1; omega
      · cases countsAsFinite flag l with
        | false => simp
        | true =>
          simp only [if_true, List.length_cons, toU32_add_left]
          congr 1; omega

/-- In `uint32_t` arithmetic the end of a chain is the start plus the counts. -/
theorem TaskChain.stop_eq {a b : Nat} {ts : List PrepareLightsTask} (h : TaskChain a ts b)
    (ha : a < 4294967296) :
    b = toU32 (a + (ts.map PrepareLightsTask.triangleCount).sum) := by
  induction ts generalizing a with
  | nil => simp only [TaskChain] at h; subst h; simp [toU32_of_lt ha]
  | cons v vs ih =>
    simp only [TaskChain] at h
    rw [ih h.2 (toU32_lt _), toU32_add_left]
    simp only [List.map_cons, List.sum_cons]
    congr 1; omega

/-- The records appended by the light loop: the encodings of the encoded
lights, in the order of the list. -/
theorem lightLoop_records (fo : FloatOps F) (P : Platform F) (flag : Bool)
    (ls : List (Light F)) (s : Locals F) :
    (lightLoop fo P flag ls s).primitiveLightInfos =
      s.primitiveLightInfos ++ (ls.filter (encodes fo P flag)).map
        (fun l => (ConvertLight fo P l (PolymorphicLightInfo.init fo) flag).2) := by
  induction ls generalizing s with
  | nil => simp [lightLoop]
  | cons l ls ih =>
    simp only [lightLoop]
    cases h : encodes fo P flag l with
    | false =>
      rw [lightStep_skip fo P flag l s h, ih s]
      simp [List.filter_cons, h]
    | true =>
      obtain ⟨-, e2, -⟩ := lightStep_emit fo P flag l s h
      rw [ih (lightStep fo P flag l s), e2]
      simp [List.filter_cons, h]

/-- The `k`-th task appended by the light loop refers to the `k`-th record
appended by it and has the cursor plus `k` as its offset. -/
theorem lightLoop_task_at (fo : FloatOps F) (P : Platform F) (flag : Bool)
    (ls : List (Light F)) (s : Locals F) (hs : s.lightBufferOffset < 4294967296)
    (k : Nat) (hk : k < (ls.filter (encodes fo P flag)).length) :
    ∃ t : PrepareLightsTask,
      (lightLoop fo P flag ls s).tasks[s.tasks.length + k]? = some t ∧
      t.instanceAndGeometryIndex =
        toU32 (P.TASK_PRIMITIVE_LIGHT_BIT ||| toU32 (s.primitiveLightInfos.length + k)) ∧
      t.lightBufferOffset = toU32 (s.lightBufferOffset + k) ∧
      t.triangleCount = 1 := by
  induction ls generalizing s k with
  | nil => simp at hk
  | cons l ls ih =>
    simp only [lightLoop]
    cases h : encodes fo P flag l with
    | false =>
      rw [lightStep_skip fo P flag l s h]
      exact ih s hs k (by simpa [List.filter_cons, h] using hk)
    | true =>
      simp only [List.filter_cons, h, if_true, List.length_cons] at hk
      obtain ⟨e1, e2, e3, -⟩ := lightStep_emit fo P flag l s h
      have hs2 : (lightStep fo P flag l s).lightBufferOffset < 4294967296 := by
        rw [e3]; exact toU32_lt _
      cases k with
      | zero =>
        obtain ⟨new, h1, -⟩ := lightLoop_tasks fo P flag ls (lightStep fo P flag l s) hs2
        refine ⟨lightTask P l s, ?_, ?_, ?_, rfl⟩
        · rw [h1, e1, List.append_assoc, Nat.add_zero]
          exact getElem?_append_cons_length _ _ _
        · simp [lightTask]
        · simp [lightTask, toU32_of_lt hs]
      | succ j =>
        obtain ⟨t, t1, t2, t3, t4⟩ := ih (lightStep fo P flag l s) hs2 j (by omega)
        refine ⟨t, ?_, ?_, ?_, t4⟩
        · rw [e1] at t1
          simp only [List.length_append, List.length_singleton] at t1
          rw [← t1]
          congr 1
          omega
        · rw [t2, e2]
          simp only [List.length_append, List.length_singleton]
          congr 3
          omega
        · rw [t3, e3, toU32_add_left]
          congr 1
          omega

/-! Lemmas: the whole of `Process` -/

theorem geometryPass_eq (fo : FloatOps F) (P : Platform F) (st : PassState) (scene : Scene F) :
    instanceLoop fo P scene.meshInstances (initLocals scene st P) = geometryPass fo P st scene :=
  instanceLoop_eq fo P _ _

/-- The outputs of `Process` in terms of the locals after its two passes. -/
theorem Process_fields (fo : FloatOps F) (P : Platform F) (st : PassState) (scene : Scene F)
    (lights : List (Light F)) (flag : Bool) :
    (Process fo P st scene lights flag).tasks = (lightPass fo P st scene lights flag).tasks ∧
    (Process fo P st scene lights flag).primitiveLightInfos =
      (lightPass fo P st scene lights flag).primitiveLightInfos ∧
    (Process fo P st scene lights flag).geometryInstanceToLight =
      (geometryPass fo P st scene).geometryInstanceToLight ∧
    (Process fo P st scene lights flag).visibleLightIndex =
      (lightPass fo P st scene lights flag).visibleLightIndex ∧
    (Process fo P st scene lights flag).lightBufferOffset =
      (lightPass fo P st scene lights flag).lightBufferOffset ∧
    (Process fo P st scene lights flag).state.m_InstanceLightBufferOffsets =
      (geometryPass fo P st scene).m_InstanceLightBufferOffsets ∧
    (Process fo P st scene lights flag).state.m_PrimitiveLightBufferOffsets =
      (lightPass fo P st scene lights flag).m_PrimitiveLightBufferOffsets ∧
    (Process fo P st scene lights flag).state.m_OddFrame = !st.m_OddFrame ∧
    (Process fo P st scene lights flag).state.m_MaxLightsInBuffer = st.m_MaxLightsInBuffer := by
  simp only [Process, geometryPass_eq, lightPass, and_self, and_true, true_and]
  exact (lightLoop_untouched fo P flag _ _).1

/-- The geometry loops of `Process`: the tasks, their counts, the cursor. -/
theorem geometryPass_tasks (fo : FloatOps F) (P : Platform F) (st : PassState) (scene : Scene F) :
    (geometryPass fo P st scene).tasks.map PrepareLightsTask.triangleCount =
      (emissiveEntries fo scene).map GeomEntry.triangleCount ∧
    TaskChain 0 (geometryPass fo P st scene).tasks (geometryPass fo P st scene).lightBufferOffset ∧
    (geometryPass fo P st scene).lightBufferOffset < 4294967296 := by
  obtain ⟨new, h1, h2, h3, -⟩ :=
    entriesLoop_tasks fo P (sceneEntries scene.meshInstances) (initLocals scene st P)
  have e : (geometryPass fo P st scene).tasks = new := by
    unfold geometryPass; rw [h1]; simp [initLocals]
  have h3' : TaskChain 0 new (geometryPass fo P st scene).lightBufferOffset := h3
  rw [e]
  exact ⟨h2, h3', TaskChain.stop_lt h3' (by omega)⟩

/-- The tasks of `Process` are allocated consecutively from offset zero up to
the final cursor. -/
theorem Process_chain (fo : FloatOps F) (P : Platform F) (st : PassState) (scene : Scene F)
    (lights : List (Light F)) (flag : Bool) :
    TaskChain 0 (Process fo P st scene lights flag).tasks
      (Process fo P st scene lights flag).lightBufferOffset := by
  obtain ⟨f1, -, -, -, f5, -⟩ := Process_fields fo P st scene lights flag
  obtain ⟨-, g2, g3⟩ := geometryPass_tasks fo P st scene
  obtain ⟨new, h1, -, h3, -⟩ := lightLoop_tasks fo P flag (P.std_sort lightOrder lights)
    (geometryPass fo P st scene) g3
  rw [f1, f5]
  unfold lightPass
  rw [h1]
  exact TaskChain.append g2 h3

/-- Without wrap-around a task ends before any later task of the chain starts. -/
theorem TaskChain.ordered {a b : Nat} {ts : List PrepareLightsTask} (h : TaskChain a ts b)
    (hs : a + (ts.map PrepareLightsTask.triangleCount).sum < 4294967296)
    {i j : Nat} {t u : PrepareLightsTask} (hij : i < j) (ht : ts[i]? = some t)
    (hu : ts[j]? = some u) : t.lightBufferOffset + t.triangleCount ≤ u.lightBufferOffset := by
  induction ts generalizing a i j with
  | nil => simp at ht
  | cons v vs ih =>
    simp only [TaskChain] at h
    simp only [List.map_cons, List.sum_cons] at hs
    have hv : toU32 (a + v.triangleCount) = a + v.triangleCount := toU32_of_lt (by omega)
    rw [hv] at h
    cases j with
    | zero => omega
    | succ j2 =>
      simp only [List.getElem?_cons_succ] at hu
      cases i with
      | zero =>
        simp only [List.getElem?_cons_zero, Option.some.injEq] at ht
        subst ht
        have := ((TaskChain.exact h.2 (by omega)).2 j2 u hu).2.1
        omega
      | succ i2 =>
        simp only [List.getElem?_cons_succ] at ht
        exact ih h.2 (by omega) (by omega) ht hu

/-- The tasks of `Process`: those of the geometry loops, one per emissive
iteration with its triangle count, then those of the light loop, one per
encoded light with count one, the `k`-th at the geometry cursor plus `k`. -/
theorem Process_tasks_split (fo : FloatOps F) (P : Platform F) (st : PassState) (scene : Scene F)
    (lights : List (Light F)) (flag : Bool) :
    ∃ lnew : List PrepareLightsTask,
      (Process fo P st scene lights flag).tasks = (geometryPass fo P st scene).tasks ++ lnew ∧
      (geometryPass fo P st scene).tasks.map PrepareLightsTask.triangleCount =
        (emissiveEntries fo scene).map GeomEntry.triangleCount ∧
      lnew.length = (encodedLights fo P flag lights).length ∧
      (∀ t ∈ lnew, t.triangleCount = 1) ∧
      (∀ k t, lnew[k]? = some t →
        t.lightBufferOffset = toU32 ((geometryPass fo P st scene).lightBufferOffset + k)) ∧
      (Process fo P st scene lights flag).lightBufferOffset =
        toU32 ((geometryPass fo P st scene).lightBufferOffset + lnew.length) ∧
      (Process fo P st scene lights flag).visibleLightIndex =
        (geometryPass fo P st scene).visibleLightIndex ++
          lnew.map PrepareLightsTask.lightBufferOffset ∧
      (Process fo P st scene lights flag).primitiveLightInfos.length = lnew.length := by
  obtain ⟨f1, f2, -, f4, f5, -⟩ := Process_fields fo P st scene lights flag
  obtain ⟨g1, -, g3⟩ := geometryPass_tasks fo P st scene
  obtain ⟨new, h1, h2, -, h4, h5, h6, h7, h8⟩ := lightLoop_tasks fo P flag
    (P.std_sort lightOrder lights) (geometryPass fo P st scene) g3
  refine ⟨new, ?_, g1, h2, h4, h5, ?_, ?_, ?_⟩
  · rw [f1]; exact h1
  · rw [f5]; exact h6
  · rw [f4]; exact h7
  · rw [f2]; unfold lightPass; rw [h8]
    have := (entriesLoop_untouched fo P (sceneEntries scene.meshInstances)
      (initLocals scene st P)).1
    unfold geometryPass
    rw [this]
    simp [initLocals]

theorem entriesLoop_tasks_length (fo : FloatOps F) (P : Platform F) (es : List (GeomEntry F))
    (s : Locals F) :
    (entriesLoop fo P es s).tasks.length =
      s.tasks.length + (es.filter (GeomEntry.emissive fo)).length := by
  obtain ⟨new, h1, h2, -⟩ := entriesLoop_tasks fo P es s
  have := congrArg List.length h2
  simp only [List.length_map] at this
  rw [h1, List.length_append, this]

/-- The task of `Process` for the emissive iteration `e` of the geometry loops
and the entry of the geometry tracker for it after the call. -/
theorem Process_geometry_task (fo : FloatOps F) (P : Platform F) (st : PassState)
    (scene : Scene F) (lights : List (Light F)) (flag : Bool)
    (pre post : List (GeomEntry F)) (e : GeomEntry F)
    (hsplit : sceneEntries scene.meshInstances = pre ++ e :: post)
    (he : e.emissive fo = true) :
    (Process fo P st scene lights flag).tasks[(pre.filter (GeomEntry.emissive fo)).length]? =
      some (geometryTask P e (entriesLoop fo P pre (initLocals scene st P))) ∧
    (e.key P ∉ post.map (GeomEntry.key P) →
      (Process fo P st scene lights flag).state.m_InstanceLightBufferOffsets (e.key P) =
        some (entriesLoop fo P pre (initLocals scene st P)).lightBufferOffset) := by
  obtain ⟨lnew, h1, -⟩ := Process_tasks_split fo P st scene lights flag
  obtain ⟨-, -, -, -, -, f6, -⟩ := Process_fields fo P st scene lights flag
  obtain ⟨rest, s1, s2⟩ := entriesLoop_split fo P pre post e (initLocals scene st P) he
  have hlen := entriesLoop_tasks_length fo P pre (initLocals scene st P)
  have hlen2 : (entriesLoop fo P pre (initLocals scene st P)).tasks.length =
      (pre.filter (GeomEntry.emissive fo)).length := by
    rw [hlen]; simp [initLocals]
  constructor
  · rw [h1]
    unfold geometryPass
    rw [hsplit, s1, ← hlen2, List.append_assoc, List.cons_append]
    exact getElem?_append_cons_length _ _ _
  · intro hk
    rw [f6]
    unfold geometryPass
    rw [hsplit]
    exact s2 hk

/-- The geometry tracker seen by the iteration that follows the iterations
`pre`, when none of them has the key `k`: the tracker of the start of the call. -/
theorem geometry_lookup_of_not_mem (fo : FloatOps F) (P : Platform F) (st : PassState)
    (scene : Scene F) (pre : List (GeomEntry F)) (k : Nat)
    (hk : k ∉ pre.map (GeomEntry.key P)) :
    (entriesLoop fo P pre (initLocals scene st P)).m_InstanceLightBufferOffsets k =
      st.m_InstanceLightBufferOffsets k := by
  rw [entriesLoop_map_of_not_mem fo P pre _ k hk]
  rfl

/-- A call of `Process` in which no emissive iteration has the key `k` leaves
the geometry tracker without an entry for `k`, if it had none before or if
some iteration of the call has the key `k`. -/
theorem Process_geometry_key_none (fo : FloatOps F) (P : Platform F) (st : PassState)
    (f : Frame F) (k : Nat)
    (hno : ∀ e ∈ sceneEntries f.scene.meshInstances, e.key P = k → e.emissive fo = false)
    (h : st.m_InstanceLightBufferOffsets k = none ∨
      k ∈ (sceneEntries f.scene.meshInstances).map (GeomEntry.key P)) :
    (Process fo P st f.scene f.sceneLights
      f.enableImportanceSampledEnvironmentLight).state.m_InstanceLightBufferOffsets k = none := by
  obtain ⟨-, -, -, -, -, f6, -⟩ := Process_fields fo P st f.scene f.sceneLights
    f.enableImportanceSampledEnvironmentLight
  rw [f6]
  exact entriesLoop_map_none fo P _ _ k hno h

/-- Calls of `Process` in which no emissive iteration has the key `k` do not
give the geometry tracker an entry for `k`. -/
theorem runFrames_geometry_key_none (fo : FloatOps F) (P : Platform F) (fs : List (Frame F))
    (st : PassState) (k : Nat) (hst : st.m_InstanceLightBufferOffsets k = none)
    (hno : ∀ f ∈ fs, ∀ e ∈ sceneEntries f.scene.meshInstances,
      e.key P = k → e.emissive fo = false) :
    (runFrames fo P st fs).m_InstanceLightBufferOffsets k = none := by
  induction fs generalizing st with
  | nil => exact hst
  | cons f fs ih =>
    simp only [runFrames]
    refine ih _ ?_ (fun g hg => hno g (List.mem_cons_of_mem _ hg))
    exact Process_geometry_key_none fo P st f k (hno f (List.mem_cons_self _ _)) (Or.inl hst)

theorem geometryPass_tasks_length (fo : FloatOps F) (P : Platform F) (st : PassState)
    (scene : Scene F) :
    (geometryPass fo P st scene).tasks.length = (emissiveEntries fo scene).length := by
  have := congrArg List.length (geometryPass_tasks fo P st scene).1
  simpa using this

/-- The task of `Process` for the encoded light `l` of the sorted list and the
entry of the light tracker for it after the call. -/
theorem Process_light_task (fo : FloatOps F) (P : Platform F) (st : PassState)
    (scene : Scene F) (lights : List (Light F)) (flag : Bool)
    (pre post : List (Light F)) (l : Light F)
    (hsplit : P.std_sort lightOrder lights = pre ++ l :: post)
    (hl : encodes fo P flag l = true) :
    (Process fo P st scene lights flag).tasks[
        (emissiveEntries fo scene).length + (pre.filter (encodes fo P flag)).length]? =
      some (lightTask P l (lightLoop fo P flag pre (geometryPass fo P st scene))) ∧
    (l.ptr ∉ (post.filter (encodes fo P flag)).map Light.ptr →
      (Process fo P st scene lights flag).state.m_PrimitiveLightBufferOffsets l.ptr =
        some (lightLoop fo P flag pre (geometryPass fo P st scene)).lightBufferOffset) := by
  obtain ⟨f1, -, -, -, -, -, f7, -⟩ := Process_fields fo P st scene lights flag
  obtain ⟨rest, s1, s2⟩ := lightLoop_split fo P flag pre post l (geometryPass fo P st scene) hl
  obtain ⟨new, n1, n2, -⟩ := lightLoop_tasks fo P flag pre (geometryPass fo P st scene)
    (geometryPass_tasks fo P st scene).2.2
  have hlen : (lightLoop fo P flag pre (geometryPass fo P st scene)).tasks.length =
      (emissiveEntries fo scene).length + (pre.filter (encodes fo P flag)).length := by
    rw [n1, List.length_append, n2, geometryPass_tasks_length]
  constructor
  · rw [f1]
    unfold lightPass
    rw [hsplit, s1, ← hlen]
    exact getElem?_append_cons_length _ _ _
  · intro hk
    rw [f7]
    unfold lightPass
    rw [hsplit]
    exact s2 hk

/-- The light tracker seen by the light that follows the lights `pre` in the
sorted list, when no encoded one of them has the address `p`: the tracker of
the start of the call. -/
theorem light_lookup_of_not_mem (fo : FloatOps F) (P : Platform F) (st : PassState)
    (scene : Scene F) (flag : Bool) (pre : List (Light F)) (p : Nat)
    (hp : p ∉ (pre.filter (encodes fo P flag)).map Light.ptr) :
    (lightLoop fo P flag pre (geometryPass fo P st scene)).m_PrimitiveLightBufferOffsets p =
      st.m_PrimitiveLightBufferOffsets p := by
  rw [lightLoop_map_of_not_mem fo P flag pre _ p hp]
  unfold geometryPass
  rw [(entriesLoop_untouched fo P _ _).2.2.2.2]
  rfl

/-- The task of `Process` for the encoded light `l` of the sorted list refers
to the record of the primitive-light array that holds the encoding of `l`. -/
theorem Process_light_record (fo : FloatOps F) (P : Platform F) (st : PassState)
    (scene : Scene F) (lights : List (Light F)) (flag : Bool)
    (pre post : List (Light F)) (l : Light F)
    (hsplit : P.std_sort lightOrder lights = pre ++ l :: post)
    (hl : encodes fo P flag l = true) :
    (lightTask P l (lightLoop fo P flag pre (geometryPass fo P st scene))).instanceAndGeometryIndex
      = toU32 (P.TASK_PRIMITIVE_LIGHT_BIT ||| toU32 (pre.filter (encodes fo P flag)).length) ∧
    (Process fo P st scene lights flag).primitiveLightInfos[
        (pre.filter (encodes fo P flag)).length]? =
      some (ConvertLight fo P l (PolymorphicLightInfo.init fo) flag).2 := by
  obtain ⟨-, f2, -⟩ := Process_fields fo P st scene lights flag
  have hpli : (geometryPass fo P st scene).primitiveLightInfos = [] := by
    unfold geometryPass
    rw [(entriesLoop_untouched fo P _ _).1]
    rfl
  constructor
  · simp only [lightTask]
    rw [lightLoop_records, hpli]
    simp
  · rw [f2]
    unfold lightPass
    rw [lightLoop_records, hpli, hsplit, List.filter_append, List.filter_cons, hl]
    simp only [if_true, List.nil_append, List.map_append, List.map_cons]
    have := getElem?_append_cons_length
      ((pre.filter (encodes fo P flag)).map
        (fun l => (ConvertLight fo P l (PolymorphicLightInfo.init fo) flag).2))
      ((post.filter (encodes fo P flag)).map
        (fun l => (ConvertLight fo P l (PolymorphicLightInfo.init fo) flag).2))
      (ConvertLight fo P l (PolymorphicLightInfo.init fo) flag).2
    rw [List.length_map] at this
    exact this

/-- When the geometry tracker has no entry for the key of any emissive
iteration and the emissive iterations have pairwise different keys, every task
appended by the geometry loops reports no previous offset. -/
theorem entriesLoop_all_none (fo : FloatOps F) (P : Platform F) (es : List (GeomEntry F))
    (s : Locals F)
    (hs : ∀ e ∈ es, e.emissive fo = true → s.m_InstanceLightBufferOffsets (e.key P) = none)
    (hnd : ((es.filter (GeomEntry.emissive fo)).map (GeomEntry.key P)).Nodup) :
    ∃ new : List PrepareLightsTask,
      (entriesLoop fo P es s).tasks = s.tasks ++ new ∧
      ∀ t ∈ new, t.previousLightBufferOffset = -1 := by
  induction es generalizing s with
  | nil => exact ⟨[], by simp [entriesLoop]⟩
  | cons e es ih =>
    cases h : e.emissive fo with
    | false =>
      rw [entriesLoop_cons_skip fo P e es s h]
      simp only [List.filter_cons, h, Bool.false_eq_true, if_false] at hnd
      obtain ⟨new, h1, h2⟩ := ih
        { s with m_InstanceLightBufferOffsets := mapErase s.m_InstanceLightBufferOffsets (e.key P) }
        (by
          intro x hx hxe
          have := hs x (List.mem_cons_of_mem _ hx) hxe
          simp only [mapErase]
          split
          · rfl
          · exact this)
        hnd
      exact ⟨new, h1, h2⟩
    | true =>
      rw [entriesLoop_cons_emit fo P e es s h]
      simp only [List.filter_cons, h, if_true, List.map_cons, List.nodup_cons] at hnd
      obtain ⟨new, h1, h2⟩ := ih
        { s with
          geometryInstanceToLight :=
            s.geometryInstanceToLight.set (toU32 e.inst.geometryInstanceIndex + e.geometryIndex)
              s.lightBufferOffset
          visibleLightIndex := s.visibleLightIndex ++ [s.lightBufferOffset]
          m_InstanceLightBufferOffsets :=
            mapSet s.m_InstanceLightBufferOffsets (e.key P) s.lightBufferOffset
          lightBufferOffset := toU32 (s.lightBufferOffset + e.triangleCount)
          tasks := s.tasks ++ [geometryTask P e s]
          numEmissionInstance := toU32 (s.numEmissionInstance + 1) }
        (by
          intro x hx hxe
          have hne : x.key P ≠ e.key P := by
            intro heq
            apply hnd.1
            rw [← heq]
            exact List.mem_map_of_mem _ (List.mem_filter.mpr ⟨hx, hxe⟩)
          simp only [mapSet, hne, if_false]
          exact hs x (List.mem_cons_of_mem _ hx) hxe)
        hnd.2
      refine ⟨geometryTask P e s :: new, by rw [h1]; simp, ?_⟩
      intro t ht
      rcases List.mem_cons.mp ht with rfl | ht
      · simp only [geometryTask, hs e (List.mem_cons_self _ _) h]
      · exact h2 t ht

/-- When the light tracker has no entry for any encoded light of the list and
the encoded lights are pairwise different objects, every task appended by the
light loop reports no previous offset. -/
theorem lightLoop_all_none (fo : FloatOps F) (P : Platform F) (flag : Bool)
    (ls : List (Light F)) (s : Locals F)
    (hs : ∀ l ∈ ls, encodes fo P flag l = true → s.m_PrimitiveLightBufferOffsets l.ptr = none)
    (hnd : ((ls.filter (encodes fo P flag)).map Light.ptr).Nodup) :
    ∃ new : List PrepareLightsTask,
      (lightLoop fo P flag ls s).tasks = s.tasks ++ new ∧
      ∀ t ∈ new, t.previousLightBufferOffset = -1 := by
  induction ls generalizing s with
  | nil => exact ⟨[], by simp [lightLoop]⟩
  | cons l ls ih =>
    simp only [lightLoop]
    cases h : encodes fo P flag l with
    | false =>
      rw [lightStep_skip fo P flag l s h]
      simp only [List.filter_cons, h, Bool.false_eq_true, if_false] at hnd
      exact ih s (fun x hx hxe => hs x (List.mem_cons_of_mem _ hx) hxe) hnd
    | true =>
      simp only [List.filter_cons, h, if_true, List.map_cons, List.nodup_cons] at hnd
      obtain ⟨e1, -, -, -, e5, -⟩ := lightStep_emit fo P flag l s h
      obtain ⟨new, h1, h2⟩ := ih (lightStep fo P flag l s)
        (by
          intro x hx hxe
          have hne : x.ptr ≠ l.ptr := by
            intro heq
            apply hnd.1
            rw [← heq]
            exact List.mem_map_of_mem _ (List.mem_filter.mpr ⟨hx, hxe⟩)
          rw [e5]
          simp only [mapSet, hne, if_false]
          exact hs x (List.mem_cons_of_mem _ hx) hxe)
        hnd.2
      refine ⟨lightTask P l s :: new, by rw [h1, e1]; simp, ?_⟩
      intro t ht
      rcases List.mem_cons.mp ht with rfl | ht
      · simp only [lightTask, hs l (List.mem_cons_self _ _) h]
      · exact h2 t ht

/-- When no iteration is emissive the geometry loops change nothing but the
geometry tracker. -/
theorem entriesLoop_all_dark (fo : FloatOps F) (P : Platform F) (es : List (GeomEntry F))
    (s : Locals F) (hdark : ∀ e ∈ es, e.emissive fo = false) :
    (entriesLoop fo P es s).tasks = s.tasks ∧
    (entriesLoop fo P es s).lightBufferOffset = s.lightBufferOffset ∧
    (entriesLoop fo P es s).geometryInstanceToLight = s.geometryInstanceToLight ∧
    (entriesLoop fo P es s).visibleLightIndex = s.visibleLightIndex ∧
    (entriesLoop fo P es s).numEmissionInstance = s.numEmissionInstance := by
  induction es generalizing s with
  | nil => simp [entriesLoop]
  | cons e es ih =>
    rw [entriesLoop_cons_skip fo P e es s (hdark e (List.mem_cons_self _ _))]
    exact ih _ (fun x hx => hdark x (List.mem_cons_of_mem _ hx))

/-- The sort of the contract returns the empty list on the empty list. -/
theorem StdSortContract.sort_nil {P : Platform F} (h : StdSortContract P) :
    P.std_sort lightOrder [] = [] :=
  List.Perm.eq_nil (h []).1

/-! Lemmas: the two reference sorts meet the contract of `std::sort` -/

theorem lightOrder_eq_false_iff (a b : Light F) :
    lightOrder b a = false ↔ isInfiniteLight a ≤ isInfiniteLight b := by
  simp [lightOrder]

theorem insertLight_perm (x : Light F) (l : List (Light F)) :
    (insertLight lightOrder x l).Perm (x :: l) := by
  induction l with
  | nil => exact List.Perm.refl _
  | cons b bs ih =>
    simp only [insertLight]
    split
    · exact (List.Perm.cons b ih).trans (List.Perm.swap x b bs)
    · exact List.Perm.refl _

theorem insertLight_sorted (x : Light F) (l : List (Light F))
    (h : l.Pairwise (fun a b => lightOrder b a = false)) :
    (insertLight lightOrder x l).Pairwise (fun a b => lightOrder b a = false) := by
  induction l with
  | nil => simp [insertLight]
  | cons b bs ih =>
    rw [List.pairwise_cons] at h
    simp only [insertLight]
    split
    · next hc =>
      rw [List.pairwise_cons]
      refine ⟨?_, ih h.2⟩
      intro y hy
      rcases List.mem_cons.mp ((insertLight_perm x bs).mem_iff.mp hy) with rfl | hy
      · rw [lightOrder_eq_false_iff]
        simp only [lightOrder, decide_eq_true_eq] at hc
        omega
      · exact h.1 y hy
    · next hc =>
      rw [List.pairwise_cons]
      refine ⟨?_, List.pairwise_cons.mpr h⟩
      intro y hy
      have hxb : isInfiniteLight x ≤ isInfiniteLight b := by
        simp only [lightOrder, decide_eq_true_eq] at hc
        omega
      rcases List.mem_cons.mp hy with rfl | hy
      · rw [lightOrder_eq_false_iff]; exact hxb
      · have := (lightOrder_eq_false_iff b y).mp (h.1 y hy)
        rw [lightOrder_eq_false_iff]; omega

theorem insertionSortFront_contract (l : List (Light F)) :
    (insertionSortFront lightOrder l).Perm l ∧
    (insertionSortFront lightOrder l).Pairwise (fun a b => lightOrder b a = false) := by
  induction l with
  | nil => simp [insertionSortFront]
  | cons x xs ih =>
    simp only [insertionSortFront]
    exact ⟨(insertLight_perm x _).trans (List.Perm.cons x ih.1), insertLight_sorted x _ ih.2⟩

theorem insertLightBack_perm (x : Light F) (l : List (Light F)) :
    (insertLightBack lightOrder x l).Perm (x :: l) := by
  induction l with
  | nil => exact List.Perm.refl _
  | cons b bs ih =>
    simp only [insertLightBack]
    split
    · exact List.Perm.refl _
    · exact (List.Perm.cons b ih).trans (List.Perm.swap x b bs)

theorem insertLightBack_sorted (x : Light F) (l : List (Light F))
    (h : l.Pairwise (fun a b => lightOrder b a = false)) :
    (insertLightBack lightOrder x l).Pairwise (fun a b => lightOrder b a = false) := by
  induction l with
  | nil => simp [insertLightBack]
  | cons b bs ih =>
    rw [List.pairwise_cons] at h
    simp only [insertLightBack]
    split
    · next hc =>
      rw [List.pairwise_cons]
      refine ⟨?_, List.pairwise_cons.mpr h⟩
      intro y hy
      have hxb : isInfiniteLight x < isInfiniteLight b := by
        simpa [lightOrder] using hc
      rcases List.mem_cons.mp hy with rfl | hy
      · rw [lightOrder_eq_false_iff]; omega
      · have := (lightOrder_eq_false_iff b y).mp (h.1 y hy)
        rw [lightOrder_eq_false_iff]; omega
    · next hc =>
      rw [List.pairwise_cons]
      refine ⟨?_, ih h.2⟩
      intro y hy
      rcases List.mem_cons.mp ((insertLightBack_perm x bs).mem_iff.mp hy) with rfl | hy
      · rw [lightOrder_eq_false_iff]
        simp only [lightOrder, decide_eq_true_eq] at hc
        omega
      · exact h.1 y hy

theorem insertionSortBack_contract (l : List (Light F)) :
    (insertionSortBack lightOrder l).Perm l ∧
    (insertionSortBack lightOrder l).Pairwise (fun a b => lightOrder b a = false) := by
  induction l with
  | nil => simp [insertionSortBack]
  | cons x xs ih =>
    simp only [insertionSortBack]
    exact ⟨(insertLightBack_perm x _).trans (List.Perm.cons x ih.1),
      insertLightBack_sorted x _ ih.2⟩

/-- The reference platform with the first insertion sort meets the contract. -/
theorem refPlatform_front_contract : StdSortContract (refPlatform insertionSortFront) :=
  fun l => insertionSortFront_contract l

/-- The reference platform with the second insertion sort meets the contract. -/
theorem refPlatform_back_contract : StdSortContract (refPlatform insertionSortBack) :=
  fun l => insertionSortBack_contract l

/-- The cursor after the geometry loops of `Process`: the triangle counts of
the emissive geometries added up in `uint32_t` arithmetic. -/
theorem geometryPass_offset (fo : FloatOps F) (P : Platform F) (st : PassState)
    (scene : Scene F) :
    (geometryPass fo P st scene).lightBufferOffset =
      toU32 ((emissiveEntries fo scene).map GeomEntry.triangleCount).sum := by
  obtain ⟨g1, g2, -⟩ := geometryPass_tasks fo P st scene
  rw [g2.stop_eq (by omega), g1, Nat.zero_add]

theorem countsAsFinite_eq (flag : Bool) (l : Light F) :
    countsAsFinite flag l = decide (isInfiniteLight l = 0) := by
  obtain ⟨p, d⟩ := l
  cases d <;> cases flag <;>
    simp [countsAsFinite, countsAsImportanceSampledEnvironment, isInfiniteLight,
      Light.GetLightType]

theorem countsAsInfinite_eq (flag : Bool) (l : Light F) :
    countsAsInfinite flag l = (decide (isInfiniteLight l ≠ 0) &&
      !(decide (l.GetLightType = .LightType_Environment) && flag)) := by
  simp only [countsAsInfinite, countsAsImportanceSampledEnvironment]
  exact Bool.and_comm _ _

/-- The counters of `Process` after the light loop. -/
theorem lightPass_counts (fo : FloatOps F) (P : Platform F) (st : PassState) (scene : Scene F)
    (lights : List (Light F)) (flag : Bool) :
    (lightPass fo P st scene lights flag).numFinitePrimLights =
      toU32 (numEncodedFinite fo P flag lights) ∧
    (lightPass fo P st scene lights flag).numInfinitePrimLights =
      toU32 (numEncodedInfiniteOther fo P flag lights) ∧
    (lightPass fo P st scene lights flag).numImportanceSampledEnvironmentLights =
      toU32 (if flag then numEncodedEnvironment fo P flag lights else 0) := by
  obtain ⟨-, u2, u3, u4, -⟩ := entriesLoop_untouched fo P (sceneEntries scene.meshInstances)
    (initLocals scene st P)
  have z1 : (geometryPass fo P st scene).numImportanceSampledEnvironmentLights = 0 := u4
  have z2 : (geometryPass fo P st scene).numInfinitePrimLights = 0 := u3
  have z3 : (geometryPass fo P st scene).numFinitePrimLights = 0 := u2
  obtain ⟨c1, c2, c3⟩ := lightLoop_counts fo P flag (P.std_sort lightOrder lights)
    (geometryPass fo P st scene) (by omega) (by omega) (by omega)
  unfold lightPass
  rw [c1, c2, c3, z1, z2, z3]
  simp only [Nat.zero_add]
  refine ⟨?_, ?_, ?_⟩
  · unfold numEncodedFinite encodedLights
    congr 3
    funext l
    exact countsAsFinite_eq flag l
  · unfold numEncodedInfiniteOther encodedLights
    congr 3
    funext l
    exact countsAsInfinite_eq flag l
  · cases flag with
    | false => simp [countsAsImportanceSampledEnvironment]
    | true =>
      simp only [if_true, numEncodedEnvironment, encodedLights]
      congr 3
      funext l
      simp [countsAsImportanceSampledEnvironment]

/-- Every encoded light is counted by exactly one of the three counters of
the light loop. -/
theorem counts_partition (flag : Bool) (l : List (Light F)) :
    (l.filter (countsAsFinite flag)).length + (l.filter (countsAsInfinite flag)).length +
      (l.filter (countsAsImportanceSampledEnvironment flag)).length = l.length := by
  induction l with
  | nil => rfl
  | cons x xs ih =>
    have key : (countsAsFinite flag x = true ∧ countsAsInfinite flag x = false ∧
          countsAsImportanceSampledEnvironment flag x = false) ∨
        (countsAsFinite flag x = false ∧ countsAsInfinite flag x = true ∧
          countsAsImportanceSampledEnvironment flag x = false) ∨
        (countsAsFinite flag x = false ∧ countsAsInfinite flag x = false ∧
          countsAsImportanceSampledEnvironment flag x = true) := by
      simp only [countsAsFinite, countsAsInfinite]
      cases countsAsImportanceSampledEnvironment flag x <;>
        by_cases h0 : isInfiniteLight x = 0 <;> simp [h0]
    simp only [List.filter_cons]
    rcases key with ⟨h1, h2, h3⟩ | ⟨h1, h2, h3⟩ | ⟨h1, h2, h3⟩ <;>
      simp only [h1, h2, h3, if_true, Bool.false_eq_true, if_false, List.length_cons] <;> omega

theorem encoded_counts_le (fo : FloatOps F) (P : Platform F) (flag : Bool)
    (lights : List (Light F)) :
    numEncodedFinite fo P flag lights + numEncodedInfiniteOther fo P flag lights +
      (if flag then numEncodedEnvironment fo P flag lights else 0) =
      (encodedLights fo P flag lights).length := by
  have h := counts_partition flag (encodedLights fo P flag lights)
  have e1 : countsAsFinite flag = fun l : Light F => decide (isInfiniteLight l = 0) :=
    funext (countsAsFinite_eq flag)
  have e2 : countsAsInfinite flag = fun l : Light F => (decide (isInfiniteLight l ≠ 0) &&
      !(decide (l.GetLightType = .LightType_Environment) && flag)) :=
    funext (countsAsInfinite_eq flag)
  have e3 : countsAsImportanceSampledEnvironment flag = fun l : Light F =>
      (decide (l.GetLightType = .LightType_Environment) && flag) := rfl
  rw [e1, e2, e3] at h
  unfold numEncodedFinite numEncodedInfiniteOther numEncodedEnvironment
  cases flag with
  | false => simpa using h
  | true => simpa using h

/-! Claims -/

/-- C1: the tasks of one call of `Process` tile the light buffer. For every
scene, light list and tracker state the first task starts at offset 0, every
later task starts at the previous offset plus the previous triangle count and
the last task ends at the final cursor, all in the `uint32_t` arithmetic of the
code; when the counts of the frame add up to less than `2^32` (nothing wraps)
these sums are exact, the cursor is the total count, every range ends at or
below the total, and every slot below the total lies in the range of exactly
one task, so the ranges are pairwise disjoint and their union is `[0, total)`. -/
theorem C1_tasks_tile_light_buffer (fo : FloatOps F) (P : Platform F) (st : PassState)
    (scene : Scene F) (lights : List (Light F)) (flag : Bool) :
    (∀ t, (Process fo P st scene lights flag).tasks.head? = some t → t.lightBufferOffset = 0) ∧
    (∀ i t u, (Process fo P st scene lights flag).tasks[i]? = some t →
      (Process fo P st scene lights flag).tasks[i + 1]? = some u →
      u.lightBufferOffset = toU32 (t.lightBufferOffset + t.triangleCount)) ∧
    (∀ t, (Process fo P st scene lights flag).tasks.getLast? = some t →
      toU32 (t.lightBufferOffset + t.triangleCount) =
        (Process fo P st scene lights flag).lightBufferOffset) ∧
    ((Process fo P st scene lights flag).tasks = [] →
      (Process fo P st scene lights flag).lightBufferOffset = 0) ∧
    (((Process fo P st scene lights flag).tasks.map PrepareLightsTask.triangleCount).sum
        < 4294967296 →
      (Process fo P st scene lights flag).lightBufferOffset =
        ((Process fo P st scene lights flag).tasks.map PrepareLightsTask.triangleCount).sum ∧
      (∀ i t u, (Process fo P st scene lights flag).tasks[i]? = some t →
        (Process fo P st scene lights flag).tasks[i + 1]? = some u →
        u.lightBufferOffset = t.lightBufferOffset + t.triangleCount) ∧
      (∀ t, (Process fo P st scene lights flag).tasks.getLast? = some t →
        t.lightBufferOffset + t.triangleCount =
          (Process fo P st scene lights flag).lightBufferOffset) ∧
      (∀ t ∈ (Process fo P st scene lights flag).tasks,
        t.lightBufferOffset + t.triangleCount ≤
          (Process fo P st scene lights flag).lightBufferOffset) ∧
      (∀ slot, slot < (Process fo P st scene lights flag).lightBufferOffset →
        ∃! i : Nat, ∃ t : PrepareLightsTask,
          (Process fo P st scene lights flag).tasks[i]? = some t ∧
          t.lightBufferOffset ≤ slot ∧ slot < t.lightBufferOffset + t.triangleCount)) := by
  have hc := Process_chain fo P st scene lights flag
  refine ⟨fun t ht => hc.head ht, fun i t u ht hu => hc.next ht hu, fun t ht => hc.last ht,
    ?_, ?_⟩
  · intro hnil
    rw [hnil] at hc
    simp only [TaskChain] at hc
    exact hc.symm
  · intro hsum
    have hs : 0 + ((Process fo P st scene lights flag).tasks.map
        PrepareLightsTask.triangleCount).sum < 4294967296 := by omega
    obtain ⟨hb, hall⟩ := hc.exact hs
    have hfit : ∀ (i : Nat) (t : PrepareLightsTask),
        (Process fo P st scene lights flag).tasks[i]? = some t →
        toU32 (t.lightBufferOffset + t.triangleCount) = t.lightBufferOffset + t.triangleCount := by
      intro i t ht
      have := (hall i t ht).2.2
      exact toU32_of_lt (by omega)
    refine ⟨by omega, ?_, ?_, ?_, ?_⟩
    · intro i t u ht hu
      rw [hc.next ht hu, hfit i t ht]
    · intro t ht
      obtain ⟨i, hi⟩ : ∃ i, (Process fo P st scene lights flag).tasks[i]? = some t := by
        have hm := List.mem_of_mem_getLast? ht
        obtain ⟨i, hi, hget⟩ := List.getElem_of_mem hm
        exact ⟨i, by rw [List.getElem?_eq_getElem hi, hget]⟩
      rw [← hfit i t hi]
      exact hc.last ht
    · intro t ht
      obtain ⟨i, hi⟩ := List.getElem?_of_mem ht
      exact (hall i t hi).2.2
    · intro slot hslot
      exact hc.tiling hs slot (Nat.zero_le _) hslot

/-- C1, witness: in the example frame the counts add up to 16, and slot 11
lies in the range of exactly one task. -/
theorem C1_tasks_tile_light_buffer_witness :
    ((Process intOps (refPlatform insertionSortFront) (freshState 1000) exampleScene
        exampleLights true).tasks.map PrepareLightsTask.triangleCount).sum < 4294967296 ∧
    (Process intOps (refPlatform insertionSortFront) (freshState 1000) exampleScene
        exampleLights true).lightBufferOffset = 16 ∧
    ∃! i : Nat, ∃ t : PrepareLightsTask,
      (Process intOps (refPlatform insertionSortFront) (freshState 1000) exampleScene
        exampleLights true).tasks[i]? = some t ∧
      t.lightBufferOffset ≤ 11 ∧ 11 < t.lightBufferOffset + t.triangleCount :=
  ⟨by decide, by decide,
    (C1_tasks_tile_light_buffer intOps (refPlatform insertionSortFront) (freshState 1000)
      exampleScene exampleLights true).2.2.2.2 (by decide) |>.2.2.2.2 11 (by decide)⟩

/-- C2, counterexample: in the example frame the task of the emissive geometry
with two indices has triangle count 0, and it shares offset 10 with the task
that follows it. -/
theorem C2_counterexample :
    (Process intOps (refPlatform insertionSortFront) (freshState 1000) exampleScene
        exampleLights true).tasks[1]? =
      some { instanceAndGeometryIndex := 2, triangleCount := 0, lightBufferOffset := 10,
             previousLightBufferOffset := -1 } ∧
    (Process intOps (refPlatform insertionSortFront) (freshState 1000) exampleScene
        exampleLights true).tasks[2]? =
      some { instanceAndGeometryIndex := 3, triangleCount := 2, lightBufferOffset := 10,
             previousLightBufferOffset := -1 } := by
  decide

/-- C2, amended: every task of a primitive light has triangle count 1 and the
task of a geometry has its index count divided by three; so when every
emissive geometry of the scene has at least three indices (a `uint32_t`
number of them) and the counts of the frame add up to less than `2^32`, every
task occupies one or more slots and different tasks have different offsets. -/
theorem C2_tasks_occupy_slots (fo : FloatOps F) (P : Platform F) (st : PassState)
    (scene : Scene F) (lights : List (Light F)) (flag : Bool)
    (hgeo : ∀ e ∈ emissiveEntries fo scene,
      3 ≤ e.geometry.numIndices ∧ e.geometry.numIndices < 4294967296)
    (hfit : ((Process fo P st scene lights flag).tasks.map
      PrepareLightsTask.triangleCount).sum < 4294967296) :
    (∀ t ∈ (Process fo P st scene lights flag).tasks, 1 ≤ t.triangleCount) ∧
    (∀ (i j : Nat) (t u : PrepareLightsTask),
      (Process fo P st scene lights flag).tasks[i]? = some t →
      (Process fo P st scene lights flag).tasks[j]? = some u →
      i ≠ j → t.lightBufferOffset ≠ u.lightBufferOffset) := by
  obtain ⟨lnew, h1, h2, -, h4, -⟩ := Process_tasks_split fo P st scene lights flag
  have hcount : ∀ t ∈ (Process fo P st scene lights flag).tasks, 1 ≤ t.triangleCount := by
    intro t ht
    rw [h1] at ht
    rcases List.mem_append.mp ht with hg | hl
    · have hm : t.triangleCount ∈
          (geometryPass fo P st scene).tasks.map PrepareLightsTask.triangleCount :=
        List.mem_map_of_mem _ hg
      rw [h2] at hm
      obtain ⟨e, he, hec⟩ := List.mem_map.mp hm
      obtain ⟨h3, h32⟩ := hgeo e he
      rw [← hec]
      unfold GeomEntry.triangleCount toU32
      omega
    · rw [h4 t hl]
  refine ⟨hcount, ?_⟩
  have hc := Process_chain fo P st scene lights flag
  have hs : 0 + ((Process fo P st scene lights flag).tasks.map
      PrepareLightsTask.triangleCount).sum < 4294967296 := by omega
  intro i j t u ht hu hij
  have ht1 := hcount t (List.getElem?_mem ht)
  have hu1 := hcount u (List.getElem?_mem hu)
  rcases Nat.lt_or_gt_of_ne hij with hlt | hgt
  · have := hc.ordered hs hlt ht hu
    omega
  · have := hc.ordered hs hgt hu ht
    omega

/-- C2, witness: the scene with one emissive geometry of 30 indices and the
example lights: the geometry has at least three indices, the counts add up to
14, the first task occupies 10 slots and the first two tasks have different
offsets. -/
theorem C2_tasks_occupy_slots_witness :
    ((Process intOps (refPlatform insertionSortFront) (freshState 1000)
        (oneInstanceScene [(emissiveMaterial, 30)]) exampleLights true).tasks.map
        PrepareLightsTask.triangleCount).sum = 14 ∧
    (∃ t : PrepareLightsTask,
      (Process intOps (refPlatform insertionSortFront) (freshState 1000)
        (oneInstanceScene [(emissiveMaterial, 30)]) exampleLights true).tasks[0]? = some t ∧
      1 ≤ t.triangleCount) ∧
    (∃ t u : PrepareLightsTask,
      (Process intOps (refPlatform insertionSortFront) (freshState 1000)
        (oneInstanceScene [(emissiveMaterial, 30)]) exampleLights true).tasks[0]? = some t ∧
      (Process intOps (refPlatform insertionSortFront) (freshState 1000)
        (oneInstanceScene [(emissiveMaterial, 30)]) exampleLights true).tasks[1]? = some u ∧
      t.lightBufferOffset ≠ u.lightBufferOffset) :=
  have h := C2_tasks_occupy_slots intOps (refPlatform insertionSortFront) (freshState 1000)
    (oneInstanceScene [(emissiveMaterial, 30)]) exampleLights true (by decide) (by decide)
  ⟨by decide,
    ⟨{ instanceAndGeometryIndex := 0, triangleCount := 10, lightBufferOffset := 0,
       previousLightBufferOffset := -1 }, by decide, h.1 _ (by decide)⟩,
    ⟨{ instanceAndGeometryIndex := 0, triangleCount := 10, lightBufferOffset := 0,
       previousLightBufferOffset := -1 },
     { instanceAndGeometryIndex := 2147483648, triangleCount := 1, lightBufferOffset := 10,
       previousLightBufferOffset := -1 }, by decide, by decide,
     h.2 0 1 _ _ (by decide) (by decide) (by decide)⟩⟩

/-- C3: a geometry that is emissive in two consecutive frames reports in the
second frame the offset of its task of the first frame. The geometry is the
iteration `e1` of the geometry loops of frame N and `e2` of frame N+1, with the
same instance address and geometry index; no later iteration of frame N and no
earlier iteration of frame N+1 has its key. Then the task of `e2` has
`previousLightBufferOffset = int(X)` for the offset `X` of the task of `e1`,
which is `X` itself when `X < 2^31`; the other geometries and the lights of
both frames are arbitrary. The two tasks are those that carry the instance and
geometry index and the triangle count of the geometry. -/
theorem C3_previous_offset_of_geometry (fo : FloatOps F) (P : Platform F) (st : PassState)
    (scene1 scene2 : Scene F) (lights1 lights2 : List (Light F)) (flag1 flag2 : Bool)
    (pre1 post1 pre2 post2 : List (GeomEntry F)) (e1 e2 : GeomEntry F)
    (h1 : sceneEntries scene1.meshInstances = pre1 ++ e1 :: post1)
    (h2 : sceneEntries scene2.meshInstances = pre2 ++ e2 :: post2)
    (hptr : e2.inst.ptr = e1.inst.ptr) (hidx : e2.geometryIndex = e1.geometryIndex)
    (hem1 : e1.emissive fo = true) (hem2 : e2.emissive fo = true)
    (hu1 : e1.key P ∉ post1.map (GeomEntry.key P))
    (hu2 : e2.key P ∉ pre2.map (GeomEntry.key P)) :
    ∃ t1 t2 : PrepareLightsTask,
      (Process fo P st scene1 lights1 flag1).tasks[(pre1.filter (GeomEntry.emissive fo)).length]?
        = some t1 ∧
      (Process fo P (Process fo P st scene1 lights1 flag1).state scene2 lights2 flag2).tasks[
        (pre2.filter (GeomEntry.emissive fo)).length]? = some t2 ∧
      t1.instanceAndGeometryIndex = e1.taskId ∧ t1.triangleCount = e1.triangleCount ∧
      t2.instanceAndGeometryIndex = e2.taskId ∧ t2.triangleCount = e2.triangleCount ∧
      t2.previousLightBufferOffset = toInt32 t1.lightBufferOffset ∧
      (t1.lightBufferOffset < 2147483648 →
        t2.previousLightBufferOffset = (t1.lightBufferOffset : Int)) := by
  have hkey : e2.key P = e1.key P := by
    simp only [GeomEntry.key, instanceHash, hptr, hidx]
  obtain ⟨a1, a2⟩ := Process_geometry_task fo P st scene1 lights1 flag1 pre1 post1 e1 h1 hem1
  obtain ⟨b1, -⟩ := Process_geometry_task fo P (Process fo P st scene1 lights1 flag1).state
    scene2 lights2 flag2 pre2 post2 e2 h2 hem2
  have hlook := geometry_lookup_of_not_mem fo P (Process fo P st scene1 lights1 flag1).state
    scene2 pre2 (e2.key P) hu2
  rw [hkey, a2 hu1] at hlook
  have hprev : (geometryTask P e2 (entriesLoop fo P pre2
      (initLocals scene2 (Process fo P st scene1 lights1 flag1).state P))).previousLightBufferOffset
      = toInt32 (entriesLoop fo P pre1 (initLocals scene1 st P)).lightBufferOffset := by
    simp only [geometryTask, hkey, hlook]
  refine ⟨_, _, a1, b1, rfl, rfl, rfl, rfl, hprev, ?_⟩
  intro hlt
  rw [hprev]
  exact toInt32_of_lt hlt

/-- C3, witness: the fourth geometry of the example instance gets offset 10 in
the example frame and reports it in the later frame, in which the geometries
before it have changed and the lights are gone. -/
theorem C3_previous_offset_of_geometry_witness :
    ∃ t1 t2 : PrepareLightsTask,
      (Process intOps (refPlatform insertionSortFront) (freshState 1000) exampleScene
        exampleLights true).tasks[2]? = some t1 ∧
      (Process intOps (refPlatform insertionSortFront)
        (Process intOps (refPlatform insertionSortFront) (freshState 1000) exampleScene
          exampleLights true).state laterScene [] false).tasks[1]? = some t2 ∧
      t1.instanceAndGeometryIndex = 3 ∧ t1.triangleCount = 2 ∧
      t2.instanceAndGeometryIndex = 3 ∧ t2.triangleCount = 2 ∧
      t2.previousLightBufferOffset = toInt32 t1.lightBufferOffset ∧
      (t1.lightBufferOffset < 2147483648 →
        t2.previousLightBufferOffset = (t1.lightBufferOffset : Int)) :=
  C3_previous_offset_of_geometry intOps (refPlatform insertionSortFront) (freshState 1000)
    exampleScene laterScene exampleLights [] true false
    [exampleEntry exampleGeometries 0 emissiveMaterial 30,
      exampleEntry exampleGeometries 1 darkMaterial 9,
      exampleEntry exampleGeometries 2 emissiveMaterial 2] []
    [exampleEntry laterGeometries 0 emissiveMaterial 3,
      exampleEntry laterGeometries 1 darkMaterial 9,
      exampleEntry laterGeometries 2 darkMaterial 2] []
    (exampleEntry exampleGeometries 3 emissiveMaterial 6)
    (exampleEntry laterGeometries 3 emissiveMaterial 6)
    rfl rfl rfl rfl (by decide) (by decide) (by decide) (by decide)

/-- C4: a geometry that fails the emissive test in frame B and is emissive
again in frame C, with no emissive frame in between, reports no previous
offset in frame C. The pass is in any state before frame B (so the geometry
may have been emissive in any earlier frame A); in frame B the geometry is the
iteration `eB`, which is enumerated and fails the emissive test; in frame B and
in the frames `mid` between B and C no iteration with its key is emissive; in
frame C it is the emissive iteration `eC`, with the same instance address and
geometry index, and no earlier iteration of frame C has its key. Then the task
of `eC` has `previousLightBufferOffset = -1`. -/
theorem C4_previous_offset_after_dark_frame (fo : FloatOps F) (P : Platform F) (st : PassState)
    (frameB frameC : Frame F) (mid : List (Frame F))
    (eB eC : GeomEntry F) (pre post : List (GeomEntry F))
    (hB : eB ∈ sceneEntries frameB.scene.meshInstances)
    (hptr : eC.inst.ptr = eB.inst.ptr) (hidx : eC.geometryIndex = eB.geometryIndex)
    (hdarkB : ∀ e ∈ sceneEntries frameB.scene.meshInstances,
      e.key P = eB.key P → e.emissive fo = false)
    (hmid : ∀ f ∈ mid, ∀ e ∈ sceneEntries f.scene.meshInstances,
      e.key P = eB.key P → e.emissive fo = false)
    (hC : sceneEntries frameC.scene.meshInstances = pre ++ eC :: post)
    (hemC : eC.emissive fo = true)
    (huC : eC.key P ∉ pre.map (GeomEntry.key P)) :
    ∃ t : PrepareLightsTask,
      (Process fo P (runFrames fo P st (frameB :: mid)) frameC.scene frameC.sceneLights
        frameC.enableImportanceSampledEnvironmentLight).tasks[
          (pre.filter (GeomEntry.emissive fo)).length]? = some t ∧
      t.instanceAndGeometryIndex = eC.taskId ∧ t.triangleCount = eC.triangleCount ∧
      t.previousLightBufferOffset = -1 := by
  have hkey : eC.key P = eB.key P := by
    simp only [GeomEntry.key, instanceHash, hptr, hidx]
  have hafterB : (Process fo P st frameB.scene frameB.sceneLights
      frameB.enableImportanceSampledEnvironmentLight).state.m_InstanceLightBufferOffsets
        (eB.key P) = none :=
    Process_geometry_key_none fo P st frameB (eB.key P) hdarkB
      (Or.inr (List.mem_map_of_mem _ hB))
  have hbefore : (runFrames fo P st (frameB :: mid)).m_InstanceLightBufferOffsets (eB.key P)
      = none := by
    simp only [runFrames]
    exact runFrames_geometry_key_none fo P mid _ (eB.key P) hafterB hmid
  obtain ⟨b1, -⟩ := Process_geometry_task fo P (runFrames fo P st (frameB :: mid))
    frameC.scene frameC.sceneLights frameC.enableImportanceSampledEnvironmentLight
    pre post eC hC hemC
  have hlook := geometry_lookup_of_not_mem fo P (runFrames fo P st (frameB :: mid))
    frameC.scene pre (eC.key P) huC
  rw [hkey, hbefore] at hlook
  refine ⟨_, b1, rfl, rfl, ?_⟩
  simp only [geometryTask, hkey, hlook]

/-- C4, witness: the third geometry of the example instance is emissive in the
example frame and gets a tracker entry; it is dark in the later frame; when
the example frame comes again its task reports no previous offset. -/
theorem C4_previous_offset_after_dark_frame_witness :
    ∃ t : PrepareLightsTask,
      (Process intOps (refPlatform insertionSortFront)
        (runFrames intOps (refPlatform insertionSortFront)
          (Process intOps (refPlatform insertionSortFront) (freshState 1000) exampleScene
            exampleLights true).state
          [⟨laterScene, [], false⟩, ⟨oneInstanceScene [], exampleLights, true⟩])
        exampleScene exampleLights true).tasks[1]? = some t ∧
      t.instanceAndGeometryIndex = 2 ∧ t.triangleCount = 0 ∧
      t.previousLightBufferOffset = -1 :=
  C4_previous_offset_after_dark_frame intOps (refPlatform insertionSortFront)
    (Process intOps (refPlatform insertionSortFront) (freshState 1000) exampleScene
      exampleLights true).state
    ⟨laterScene, [], false⟩ ⟨exampleScene, exampleLights, true⟩
    [⟨oneInstanceScene [], exampleLights, true⟩]
    (exampleEntry laterGeometries 2 darkMaterial 2)
    (exampleEntry exampleGeometries 2 emissiveMaterial 2)
    [exampleEntry exampleGeometries 0 emissiveMaterial 30,
      exampleEntry exampleGeometries 1 darkMaterial 9]
    [exampleEntry exampleGeometries 3 emissiveMaterial 6]
    (by simp [laterScene, oneInstanceScene, sceneEntries, geometryEntriesFrom, exampleEntry,
      exampleInstance, laterGeometries])
    rfl rfl
    (by
      intro e he hk
      simp only [laterScene, oneInstanceScene, sceneEntries, geometryEntriesFrom,
        exampleInstance, laterGeometries, List.map, List.append_nil, List.mem_cons,
        List.mem_singleton, List.not_mem_nil, or_false] at he
      rcases he with rfl | rfl | rfl | rfl
      · exact absurd hk (by decide)
      · rfl
      · rfl
      · exact absurd hk (by decide))
    (by
      intro f hf e he
      simp only [List.mem_singleton] at hf
      subst hf
      simp [oneInstanceScene, sceneEntries, geometryEntriesFrom, exampleInstance] at he)
    rfl (by decide) (by decide)

/-- C5: a primitive light that is encoded in two consecutive frames reports in
the second frame the offset of its task of the first frame, and the tracker
then holds its offset of the second frame. The light is the element `l1` of
the sorted list of frame N and `l2` of that of frame N+1, the same object; no
later encoded light of frame N and no other encoded light of frame N+1 is the
same object. Then the task of `l2` has `previousLightBufferOffset = int(X)` for
the offset `X` of the task of `l1`, which is `X` itself when `X < 2^31`, and
after frame N+1 the light tracker maps the object to the offset of the task of
`l2`. The two tasks are those that refer to the records of the primitive-light
array holding the encodings of `l1` and `l2`. -/
theorem C5_previous_offset_of_light (fo : FloatOps F) (P : Platform F) (st : PassState)
    (scene1 scene2 : Scene F) (lights1 lights2 : List (Light F)) (flag1 flag2 : Bool)
    (pre1 post1 pre2 post2 : List (Light F)) (l1 l2 : Light F)
    (h1 : P.std_sort lightOrder lights1 = pre1 ++ l1 :: post1)
    (h2 : P.std_sort lightOrder lights2 = pre2 ++ l2 :: post2)
    (hptr : l2.ptr = l1.ptr)
    (henc1 : encodes fo P flag1 l1 = true) (henc2 : encodes fo P flag2 l2 = true)
    (hu1 : l1.ptr ∉ (post1.filter (encodes fo P flag1)).map Light.ptr)
    (hu2 : l2.ptr ∉ (pre2.filter (encodes fo P flag2)).map Light.ptr)
    (hu3 : l2.ptr ∉ (post2.filter (encodes fo P flag2)).map Light.ptr) :
    ∃ t1 t2 : PrepareLightsTask,
      (Process fo P st scene1 lights1 flag1).tasks[
        (emissiveEntries fo scene1).length + (pre1.filter (encodes fo P flag1)).length]?
        = some t1 ∧
      (Process fo P (Process fo P st scene1 lights1 flag1).state scene2 lights2 flag2).tasks[
        (emissiveEntries fo scene2).length + (pre2.filter (encodes fo P flag2)).length]?
        = some t2 ∧
      t1.instanceAndGeometryIndex =
        toU32 (P.TASK_PRIMITIVE_LIGHT_BIT ||| toU32 (pre1.filter (encodes fo P flag1)).length) ∧
      (Process fo P st scene1 lights1 flag1).primitiveLightInfos[
        (pre1.filter (encodes fo P flag1)).length]? =
        some (ConvertLight fo P l1 (PolymorphicLightInfo.init fo) flag1).2 ∧
      t2.instanceAndGeometryIndex =
        toU32 (P.TASK_PRIMITIVE_LIGHT_BIT ||| toU32 (pre2.filter (encodes fo P flag2)).length) ∧
      (Process fo P (Process fo P st scene1 lights1 flag1).state scene2 lights2
        flag2).primitiveLightInfos[(pre2.filter (encodes fo P flag2)).length]? =
        some (ConvertLight fo P l2 (PolymorphicLightInfo.init fo) flag2).2 ∧
      t2.previousLightBufferOffset = toInt32 t1.lightBufferOffset ∧
      (t1.lightBufferOffset < 2147483648 →
        t2.previousLightBufferOffset = (t1.lightBufferOffset : Int)) ∧
      (Process fo P (Process fo P st scene1 lights1 flag1).state scene2 lights2
        flag2).state.m_PrimitiveLightBufferOffsets l2.ptr = some t2.lightBufferOffset := by
  obtain ⟨a1, a2⟩ := Process_light_task fo P st scene1 lights1 flag1 pre1 post1 l1 h1 henc1
  obtain ⟨b1, b2⟩ := Process_light_task fo P (Process fo P st scene1 lights1 flag1).state
    scene2 lights2 flag2 pre2 post2 l2 h2 henc2
  have hlook := light_lookup_of_not_mem fo P (Process fo P st scene1 lights1 flag1).state
    scene2 flag2 pre2 l2.ptr hu2
  rw [hptr, a2 hu1] at hlook
  have hprev : (lightTask P l2 (lightLoop fo P flag2 pre2 (geometryPass fo P
      (Process fo P st scene1 lights1 flag1).state scene2))).previousLightBufferOffset
      = toInt32 (lightLoop fo P flag1 pre1 (geometryPass fo P st scene1)).lightBufferOffset := by
    simp only [lightTask, hptr, hlook]
  obtain ⟨r1, r2⟩ := Process_light_record fo P st scene1 lights1 flag1 pre1 post1 l1 h1 henc1
  obtain ⟨r3, r4⟩ := Process_light_record fo P (Process fo P st scene1 lights1 flag1).state
    scene2 lights2 flag2 pre2 post2 l2 h2 henc2
  refine ⟨_, _, a1, b1, r1, r2, r3, r4, hprev, ?_, b2 hu3⟩
  intro hlt
  rw [hprev]
  exact toInt32_of_lt hlt

/-- C5, witness: the point light at address 4 has offset 13 in the example
frame; in the next frame, which has no geometry and a new point light in
front, its task reports 13 and the tracker holds its new offset. -/
theorem C5_previous_offset_of_light_witness :
    ∃ t1 t2 : PrepareLightsTask,
      (Process intOps (refPlatform insertionSortFront) (freshState 1000) exampleScene
        exampleLights true).tasks[4]? = some t1 ∧
      (Process intOps (refPlatform insertionSortFront)
        (Process intOps (refPlatform insertionSortFront) (freshState 1000) exampleScene
          exampleLights true).state (oneInstanceScene [])
        [pointLight 9, pointLight 4] true).tasks[1]? = some t2 ∧
      t1.instanceAndGeometryIndex = 2147483649 ∧
      (Process intOps (refPlatform insertionSortFront) (freshState 1000) exampleScene
        exampleLights true).primitiveLightInfos[1]? =
        some (ConvertLight intOps (refPlatform insertionSortFront) (pointLight 4)
          (PolymorphicLightInfo.init intOps) true).2 ∧
      t2.instanceAndGeometryIndex = 2147483649 ∧
      (Process intOps (refPlatform insertionSortFront)
        (Process intOps (refPlatform insertionSortFront) (freshState 1000) exampleScene
          exampleLights true).state (oneInstanceScene [])
        [pointLight 9, pointLight 4] true).primitiveLightInfos[1]? =
        some (ConvertLight intOps (refPlatform insertionSortFront) (pointLight 4)
          (PolymorphicLightInfo.init intOps) true).2 ∧
      t2.previousLightBufferOffset = toInt32 t1.lightBufferOffset ∧
      (t1.lightBufferOffset < 2147483648 →
        t2.previousLightBufferOffset = (t1.lightBufferOffset : Int)) ∧
      (Process intOps (refPlatform insertionSortFront)
        (Process intOps (refPlatform insertionSortFront) (freshState 1000) exampleScene
          exampleLights true).state (oneInstanceScene [])
        [pointLight 9, pointLight 4] true).state.m_PrimitiveLightBufferOffsets 4
        = some t2.lightBufferOffset :=
  C5_previous_offset_of_light intOps (refPlatform insertionSortFront) (freshState 1000)
    exampleScene (oneInstanceScene []) exampleLights [pointLight 9, pointLight 4] true true
    [pointLight 2] [directionalLight 1, environmentLight 3 0]
    [pointLight 9] [] (pointLight 4) (pointLight 4)
    rfl rfl rfl (by decide) (by decide) (by decide) (by decide) (by decide)

/-- C6, counterexample: on the first frame of a fresh pass, with the same
point light twice in the light list, the tracker has no entry for the light
when the call starts and yet the second task reports the previous offset 0. -/
theorem C6_counterexample :
    (freshState 1000).m_PrimitiveLightBufferOffsets (pointLight 2).ptr = none ∧
    (Process intOps (refPlatform insertionSortFront) (freshState 1000) (oneInstanceScene [])
        [pointLight 2, pointLight 2] false).tasks =
      [{ instanceAndGeometryIndex := 2147483648, triangleCount := 1, lightBufferOffset := 0,
         previousLightBufferOffset := -1 },
       { instanceAndGeometryIndex := 2147483649, triangleCount := 1, lightBufferOffset := 1,
         previousLightBufferOffset := 0 }] := by
  decide

/-- C6, amended: a task reports no previous offset when its key has no entry
in the tracker at the start of the call and no earlier iteration of the same
call has given it one: for the task of the emissive iteration `e` of the
geometry loops, when no earlier emissive iteration has its key; for the task
of the encoded light `l` of the sorted list, when no earlier encoded light of
the list is the same object. In particular, when both trackers are empty, the
emissive iterations have pairwise different keys and the encoded lights are
pairwise different objects, every task has `previousLightBufferOffset = -1`. -/
theorem C6_no_previous_offset_for_new_key (fo : FloatOps F) (P : Platform F) (st : PassState)
    (scene : Scene F) (lights : List (Light F)) (flag : Bool) :
    (∀ (pre post : List (GeomEntry F)) (e : GeomEntry F),
      sceneEntries scene.meshInstances = pre ++ e :: post →
      e.emissive fo = true →
      st.m_InstanceLightBufferOffsets (e.key P) = none →
      (∀ x ∈ pre, x.key P = e.key P → x.emissive fo = false) →
      ∃ t : PrepareLightsTask,
        (Process fo P st scene lights flag).tasks[(pre.filter (GeomEntry.emissive fo)).length]?
          = some t ∧
        t.instanceAndGeometryIndex = e.taskId ∧ t.triangleCount = e.triangleCount ∧
        t.previousLightBufferOffset = -1) ∧
    (∀ (pre post : List (Light F)) (l : Light F),
      P.std_sort lightOrder lights = pre ++ l :: post →
      encodes fo P flag l = true →
      st.m_PrimitiveLightBufferOffsets l.ptr = none →
      l.ptr ∉ (pre.filter (encodes fo P flag)).map Light.ptr →
      ∃ t : PrepareLightsTask,
        (Process fo P st scene lights flag).tasks[
          (emissiveEntries fo scene).length + (pre.filter (encodes fo P flag)).length]?
          = some t ∧
        t.instanceAndGeometryIndex =
          toU32 (P.TASK_PRIMITIVE_LIGHT_BIT ||| toU32 (pre.filter (encodes fo P flag)).length) ∧
        (Process fo P st scene lights flag).primitiveLightInfos[
          (pre.filter (encodes fo P flag)).length]? =
          some (ConvertLight fo P l (PolymorphicLightInfo.init fo) flag).2 ∧
        t.previousLightBufferOffset = -1) ∧
    ((∀ k, st.m_InstanceLightBufferOffsets k = none) →
      (∀ p, st.m_PrimitiveLightBufferOffsets p = none) →
      ((emissiveEntries fo scene).map (GeomEntry.key P)).Nodup →
      ((encodedLights fo P flag lights).map Light.ptr).Nodup →
      ∀ t ∈ (Process fo P st scene lights flag).tasks, t.previousLightBufferOffset = -1) := by
  refine ⟨?_, ?_, ?_⟩
  · intro pre post e hsplit he hst hpre
    obtain ⟨b1, -⟩ := Process_geometry_task fo P st scene lights flag pre post e hsplit he
    have hlook : (entriesLoop fo P pre (initLocals scene st P)).m_InstanceLightBufferOffsets
        (e.key P) = none :=
      entriesLoop_map_none fo P pre _ (e.key P) hpre (Or.inl hst)
    refine ⟨_, b1, rfl, rfl, ?_⟩
    simp only [geometryTask, hlook]
  · intro pre post l hsplit hl hst hpre
    obtain ⟨b1, -⟩ := Process_light_task fo P st scene lights flag pre post l hsplit hl
    have hlook := light_lookup_of_not_mem fo P st scene flag pre l.ptr hpre
    rw [hst] at hlook
    obtain ⟨r1, r2⟩ := Process_light_record fo P st scene lights flag pre post l hsplit hl
    refine ⟨_, b1, r1, r2, ?_⟩
    simp only [lightTask, hlook]
  · intro hi hp hnd1 hnd2 t ht
    obtain ⟨f1, -⟩ := Process_fields fo P st scene lights flag
    obtain ⟨gnew, g1, g2⟩ := entriesLoop_all_none fo P (sceneEntries scene.meshInstances)
      (initLocals scene st P) (fun e _ _ => hi _) hnd1
    have hpm : (geometryPass fo P st scene).m_PrimitiveLightBufferOffsets =
        st.m_PrimitiveLightBufferOffsets := by
      unfold geometryPass
      rw [(entriesLoop_untouched fo P _ _).2.2.2.2]
      rfl
    obtain ⟨lnew, l1, l2⟩ := lightLoop_all_none fo P flag (P.std_sort lightOrder lights)
      (geometryPass fo P st scene) (fun l _ _ => by rw [hpm]; exact hp _) hnd2
    rw [f1] at ht
    unfold lightPass at ht
    rw [l1] at ht
    rcases List.mem_append.mp ht with hg | hl
    · unfold geometryPass at hg
      rw [g1] at hg
      simp only [initLocals, List.nil_append] at hg
      exact g2 t hg
    · exact l2 t hl

/-- C6, witness: on the first frame of a fresh pass, for the example frame:
the first geometry and the point light at address 2, which comes first in the
sorted list, get tasks that report no previous offset, and so does the last
task of the frame, the keys of the frame being pairwise different. -/
theorem C6_no_previous_offset_for_new_key_witness :
    (∃ t : PrepareLightsTask,
      (Process intOps (refPlatform insertionSortFront) (freshState 1000) exampleScene
        exampleLights true).tasks[0]? = some t ∧
      t.instanceAndGeometryIndex = 0 ∧ t.triangleCount = 10 ∧
      t.previousLightBufferOffset = -1) ∧
    (∃ t : PrepareLightsTask,
      (Process intOps (refPlatform insertionSortFront) (freshState 1000) exampleScene
        exampleLights true).tasks[3]? = some t ∧
      t.instanceAndGeometryIndex = 2147483648 ∧
      (Process intOps (refPlatform insertionSortFront) (freshState 1000) exampleScene
        exampleLights true).primitiveLightInfos[0]? =
        some (ConvertLight intOps (refPlatform insertionSortFront) (pointLight 2)
          (PolymorphicLightInfo.init intOps) true).2 ∧
      t.previousLightBufferOffset = -1) ∧
    (∃ t : PrepareLightsTask,
      (Process intOps (refPlatform insertionSortFront) (freshState 1000) exampleScene
        exampleLights true).tasks[6]? = some t ∧
      t.previousLightBufferOffset = -1) :=
  ⟨(C6_no_previous_offset_for_new_key intOps (refPlatform insertionSortFront) (freshState 1000)
      exampleScene exampleLights true).1
      [] [exampleEntry exampleGeometries 1 darkMaterial 9,
        exampleEntry exampleGeometries 2 emissiveMaterial 2,
        exampleEntry exampleGeometries 3 emissiveMaterial 6]
      (exampleEntry exampleGeometries 0 emissiveMaterial 30)
      rfl (by decide) rfl (by simp),
    (C6_no_previous_offset_for_new_key intOps (refPlatform insertionSortFront) (freshState 1000)
      exampleScene exampleLights true).2.1
      [] [pointLight 4, directionalLight 1, environmentLight 3 0] (pointLight 2)
      rfl (by decide) rfl (by decide),
    ⟨{ instanceAndGeometryIndex := 2147483651, triangleCount := 1, lightBufferOffset := 15,
       previousLightBufferOffset := -1 }, by decide,
      (C6_no_previous_offset_for_new_key intOps (refPlatform insertionSortFront)
        (freshState 1000) exampleScene exampleLights true).2.2
        (fun _ => rfl) (fun _ => rfl) (by decide) (by decide) _ (by decide)⟩⟩

/-- C7: for a scene in which no geometry passes the emissive test and an
empty light list, with any tracker state and frame parity, `Process` emits an
empty task list, an empty primitive-light array and an empty visible-light
list, sets `numLocalLights`, `numInfiniteLights`, `environmentLightPresent` and
`numEmissionThing` to 0, and leaves every entry of the geometry-instance-to-light
array, one per geometry instance of the scene, equal to
`RTXDI_INVALID_LIGHT_INDEX`. -/
theorem C7_empty_frame (fo : FloatOps F) (P : Platform F) (st : PassState) (scene : Scene F)
    (flag : Bool) (hsort : StdSortContract P)
    (hdark : ∀ e ∈ sceneEntries scene.meshInstances, e.emissive fo = false) :
    (Process fo P st scene [] flag).tasks = [] ∧
    (Process fo P st scene [] flag).primitiveLightInfos = [] ∧
    (Process fo P st scene [] flag).visibleLightIndex = [] ∧
    (Process fo P st scene [] flag).outFrameParameters.numLocalLights = 0 ∧
    (Process fo P st scene [] flag).outFrameParameters.numInfiniteLights = 0 ∧
    (Process fo P st scene [] flag).outFrameParameters.environmentLightPresent = 0 ∧
    (Process fo P st scene [] flag).outFrameParameters.numEmissionThing = 0 ∧
    (Process fo P st scene [] flag).geometryInstanceToLight =
      List.replicate scene.geometryInstancesCount P.RTXDI_INVALID_LIGHT_INDEX := by
  obtain ⟨d1, d2, d3, d4, -⟩ := entriesLoop_all_dark fo P (sceneEntries scene.meshInstances)
    (initLocals scene st P) hdark
  obtain ⟨u1, u2, u3, u4, -⟩ := entriesLoop_untouched fo P (sceneEntries scene.meshInstances)
    (initLocals scene st P)
  simp only [Process, geometryPass_eq, hsort.sort_nil, lightLoop]
  unfold geometryPass
  rw [d1, d2, d3, d4, u1, u2, u3, u4]
  simp [initLocals, toU32]

/-- C7, witness: after the example frame (trackers filled, odd parity) a frame
with two dark geometries and no light. -/
theorem C7_empty_frame_witness :
    (Process intOps (refPlatform insertionSortFront)
      (Process intOps (refPlatform insertionSortFront) (freshState 1000) exampleScene
        exampleLights true).state
      (oneInstanceScene [(darkMaterial, 9), (darkMaterial, 3)]) [] true).tasks = [] ∧
    (Process intOps (refPlatform insertionSortFront)
      (Process intOps (refPlatform insertionSortFront) (freshState 1000) exampleScene
        exampleLights true).state
      (oneInstanceScene [(darkMaterial, 9), (darkMaterial, 3)]) [] true).geometryInstanceToLight
      = [4294967295, 4294967295] :=
  have h := C7_empty_frame intOps (refPlatform insertionSortFront)
    (Process intOps (refPlatform insertionSortFront) (freshState 1000) exampleScene
      exampleLights true).state
    (oneInstanceScene [(darkMaterial, 9), (darkMaterial, 3)]) true
    refPlatform_front_contract (by decide)
  ⟨h.1, h.2.2.2.2.2.2.2⟩

/-- C9, counterexample: a sort that meets the contract of `std::sort` and puts
two point lights, which have the same classification, in the reverse of their
input order; `Process` then gives the first light of the input the larger
offset. -/
theorem C9_counterexample :
    StdSortContract (refPlatform insertionSortBack) ∧
    isInfiniteLight (pointLight 2) = isInfiniteLight (pointLight 4) ∧
    (((refPlatform insertionSortBack).std_sort lightOrder [pointLight 2, pointLight 4]).map
      Light.ptr) = [4, 2] ∧
    (Process intOps (refPlatform insertionSortBack) (freshState 1000) (oneInstanceScene [])
      [pointLight 2, pointLight 4] false).state.m_PrimitiveLightBufferOffsets 2 = some 1 ∧
    (Process intOps (refPlatform insertionSortBack) (freshState 1000) (oneInstanceScene [])
      [pointLight 2, pointLight 4] false).state.m_PrimitiveLightBufferOffsets 4 = some 0 :=
  ⟨refPlatform_back_contract, by decide, by decide, by decide, by decide⟩

/-- C9, amended: the reordering of the primitive lights in `Process` is a sort
by classification and what follows it keeps the order of the sorted list. For
any sort that meets the contract of `std::sort`, the sorted list is a
rearrangement of the input in which a light is never followed by one of
smaller classification; the primitive-light array holds the encodings of the
encoded lights in the order of the sorted list; and the `k`-th of them has the
task that refers to record `k`, with the offset `G + k` in `uint32_t`
arithmetic, `G` being the slots of the geometries. The order of two lights of
the same classification in the sorted list is left open. -/
theorem C9_order_follows_sorted_list (fo : FloatOps F) (P : Platform F) (st : PassState)
    (scene : Scene F) (lights : List (Light F)) (flag : Bool) (hsort : StdSortContract P) :
    (P.std_sort lightOrder lights).Perm lights ∧
    (∀ (i j : Nat) (a b : Light F),
      (P.std_sort lightOrder lights)[i]? = some a →
      (P.std_sort lightOrder lights)[j]? = some b →
      i < j → isInfiniteLight a ≤ isInfiniteLight b) ∧
    (Process fo P st scene lights flag).primitiveLightInfos =
      (encodedLights fo P flag lights).map
        (fun l => (ConvertLight fo P l (PolymorphicLightInfo.init fo) flag).2) ∧
    (∀ k : Nat, k < (encodedLights fo P flag lights).length →
      ∃ t : PrepareLightsTask,
        (Process fo P st scene lights flag).tasks[(emissiveEntries fo scene).length + k]?
          = some t ∧
        t.instanceAndGeometryIndex = toU32 (P.TASK_PRIMITIVE_LIGHT_BIT ||| toU32 k) ∧
        t.lightBufferOffset =
          toU32 (((emissiveEntries fo scene).map GeomEntry.triangleCount).sum + k)) := by
  obtain ⟨f1, f2, -⟩ := Process_fields fo P st scene lights flag
  have hpli : (geometryPass fo P st scene).primitiveLightInfos = [] := by
    unfold geometryPass
    rw [(entriesLoop_untouched fo P _ _).1]
    rfl
  refine ⟨(hsort lights).1, ?_, ?_, ?_⟩
  · intro i j a b ha hb hij
    obtain ⟨hi, rfl⟩ := List.getElem?_eq_some.mp ha
    obtain ⟨hj, rfl⟩ := List.getElem?_eq_some.mp hb
    exact (lightOrder_eq_false_iff _ _).mp
      (List.pairwise_iff_getElem.mp (hsort lights).2 i j hi hj hij)
  · rw [f2]
    unfold lightPass
    rw [lightLoop_records, hpli]
    rfl
  · intro k hk
    obtain ⟨t, t1, t2, t3, -⟩ := lightLoop_task_at fo P flag (P.std_sort lightOrder lights)
      (geometryPass fo P st scene) (geometryPass_tasks fo P st scene).2.2 k hk
    refine ⟨t, ?_, ?_, ?_⟩
    · rw [f1]
      unfold lightPass
      rw [← geometryPass_tasks_length fo P st scene]
      exact t1
    · rw [t2, hpli]
      simp
    · rw [t3, geometryPass_offset, toU32_add_left]

/-- C9, witness: the example frame with the sort that reverses equivalent
lights: the first encoded light of the sorted list, the point light at
address 4, has the task at offset 12 that refers to record 0. -/
theorem C9_order_follows_sorted_list_witness :
    ((refPlatform insertionSortBack).std_sort lightOrder exampleLights).map Light.ptr
      = [4, 2, 1, 3] ∧
    ∃ t : PrepareLightsTask,
      (Process intOps (refPlatform insertionSortBack) (freshState 1000) exampleScene
        exampleLights true).tasks[3]? = some t ∧
      t.instanceAndGeometryIndex = 2147483648 ∧
      t.lightBufferOffset = 12 :=
  ⟨by decide,
    (C9_order_follows_sorted_list intOps (refPlatform insertionSortBack) (freshState 1000)
      exampleScene exampleLights true refPlatform_back_contract).2.2.2 0 (by decide)⟩

/-- C10: the frame parameters output by `Process`, for every scene, light
list, state and flag. With `G` the slots of the emissive geometries, `F` the
number of encoded finite lights, `B` the base of the current half of the
buffer (`m_MaxLightsInBuffer` times the frame parity): `numLocalLights = G + F`,
`firstLocalLight = B`, `firstInfiniteLight = B + numLocalLights`,
`numInfiniteLights` is the number of encoded infinite lights that are not
counted as importance-sampled environment lights, `environmentLightIndex =
firstInfiniteLight + numInfiniteLights`, and `environmentLightPresent` is the
number of encoded environment lights when the flag is set and 0 when it is
clear. The equations hold in `uint32_t` arithmetic for every input, and as
written when `B` plus the slots of the frame stay below `2^32`. -/
theorem C10_frame_ranges (fo : FloatOps F) (P : Platform F) (st : PassState) (scene : Scene F)
    (lights : List (Light F)) (flag : Bool) :
    ((Process fo P st scene lights flag).outFrameParameters.numLocalLights =
        toU32 (geometrySlots fo scene + numEncodedFinite fo P flag lights) ∧
      (Process fo P st scene lights flag).outFrameParameters.firstLocalLight =
        toU32 (halfBufferBase st) ∧
      (Process fo P st scene lights flag).outFrameParameters.firstInfiniteLight =
        toU32 (halfBufferBase st +
          (Process fo P st scene lights flag).outFrameParameters.numLocalLights) ∧
      (Process fo P st scene lights flag).outFrameParameters.numInfiniteLights =
        toU32 (numEncodedInfiniteOther fo P flag lights) ∧
      (Process fo P st scene lights flag).outFrameParameters.environmentLightIndex =
        toU32 ((Process fo P st scene lights flag).outFrameParameters.firstInfiniteLight +
          (Process fo P st scene lights flag).outFrameParameters.numInfiniteLights) ∧
      (Process fo P st scene lights flag).outFrameParameters.environmentLightPresent =
        toU32 (if flag then numEncodedEnvironment fo P flag lights else 0)) ∧
    (halfBufferBase st + geometrySlots fo scene + (encodedLights fo P flag lights).length
        < 4294967296 →
      (Process fo P st scene lights flag).outFrameParameters.numLocalLights =
        geometrySlots fo scene + numEncodedFinite fo P flag lights ∧
      (Process fo P st scene lights flag).outFrameParameters.firstLocalLight =
        halfBufferBase st ∧
      (Process fo P st scene lights flag).outFrameParameters.firstInfiniteLight =
        halfBufferBase st +
          (Process fo P st scene lights flag).outFrameParameters.numLocalLights ∧
      (Process fo P st scene lights flag).outFrameParameters.numInfiniteLights =
        numEncodedInfiniteOther fo P flag lights ∧
      (Process fo P st scene lights flag).outFrameParameters.environmentLightIndex =
        (Process fo P st scene lights flag).outFrameParameters.firstInfiniteLight +
          (Process fo P st scene lights flag).outFrameParameters.numInfiniteLights ∧
      (Process fo P st scene lights flag).outFrameParameters.environmentLightPresent =
        (if flag then numEncodedEnvironment fo P flag lights else 0)) := by
  obtain ⟨c1, c2, c3⟩ := lightPass_counts fo P st scene lights flag
  have hsum := encoded_counts_le fo P flag lights
  have hoff := geometryPass_offset fo P st scene
  unfold lightPass at c1 c2 c3
  simp only [Process, geometryPass_eq, c1, c2, c3, hoff]
  unfold halfBufferBase geometrySlots
  generalize st.m_MaxLightsInBuffer * boolToNat st.m_OddFrame = B at *
  generalize ((emissiveEntries fo scene).map GeomEntry.triangleCount).sum = G at *
  generalize numEncodedFinite fo P flag lights = Fn at *
  generalize numEncodedInfiniteOther fo P flag lights = In at *
  generalize (if flag then numEncodedEnvironment fo P flag lights else 0) = En at *
  generalize (encodedLights fo P flag lights).length = n at *
  unfold toU32
  refine ⟨⟨?_, ?_, ?_, ?_, ?_, ?_⟩, ?_⟩
  · omega
  · omega
  · omega
  · trivial
  · omega
  · trivial
  · intro h
    refine ⟨?_, ?_, ?_, ?_, ?_, ?_⟩ <;> omega

/-- C10, witness: the example frame on a pass of odd parity with half-buffer
size 1000: base 1000, 12 geometry slots, 2 finite lights, 1 directional light
and 1 importance-sampled environment light. -/
theorem C10_frame_ranges_witness :
    halfBufferBase (Process intOps (refPlatform insertionSortFront) (freshState 1000)
        (oneInstanceScene []) [] false).state = 1000 ∧
    geometrySlots intOps exampleScene = 12 ∧
    numEncodedFinite intOps (refPlatform insertionSortFront) true exampleLights = 2 ∧
    (Process intOps (refPlatform insertionSortFront)
        (Process intOps (refPlatform insertionSortFront) (freshState 1000)
          (oneInstanceScene []) [] false).state
        exampleScene exampleLights true).outFrameParameters =
      { firstLocalLight := 1000, numLocalLights := 14, firstInfiniteLight := 1014,
        numInfiniteLights := 1, environmentLightIndex := 1015, environmentLightPresent := 1,
        numEmissionThing := 7, currentFrameLightOffset := 1000 } ∧
    (Process intOps (refPlatform insertionSortFront)
        (Process intOps (refPlatform insertionSortFront) (freshState 1000)
          (oneInstanceScene []) [] false).state
        exampleScene exampleLights true).outFrameParameters.numLocalLights =
      geometrySlots intOps exampleScene +
        numEncodedFinite intOps (refPlatform insertionSortFront) true exampleLights :=
  ⟨by decide, by decide, by decide, by decide,
    ((C10_frame_ranges intOps (refPlatform insertionSortFront)
      (Process intOps (refPlatform insertionSortFront) (freshState 1000)
        (oneInstanceScene []) [] false).state
      exampleScene exampleLights true).2 (by decide)).1⟩

/-- Two chains with the same start and the same counts have the same offsets
and the same end. -/
theorem TaskChain.offsets_eq {a b b2 : Nat} {ts ts2 : List PrepareLightsTask}
    (h : TaskChain a ts b) (h2 : TaskChain a ts2 b2)
    (hc : ts.map PrepareLightsTask.triangleCount = ts2.map PrepareLightsTask.triangleCount) :
    ts.map PrepareLightsTask.lightBufferOffset = ts2.map PrepareLightsTask.lightBufferOffset ∧
    b = b2 := by
  induction ts generalizing a ts2 with
  | nil =>
    cases ts2 with
    | nil =>
      simp only [TaskChain] at h h2
      exact ⟨rfl, h.symm.trans h2⟩
    | cons u us => simp at hc
  | cons v vs ih =>
    cases ts2 with
    | nil => simp at hc
    | cons u us =>
      simp only [List.map_cons, List.cons.injEq] at hc
      simp only [TaskChain] at h h2
      rw [hc.1] at h
      obtain ⟨i1, i2⟩ := ih h.2 h2.2 hc.2
      exact ⟨by simp only [List.map_cons, h.1, h2.1, i1], i2⟩

/-- The triangle counts of the tasks of `Process`: those of the emissive
geometries, then a one for every encoded light. -/
theorem Process_task_counts (fo : FloatOps F) (P : Platform F) (st : PassState) (scene : Scene F)
    (lights : List (Light F)) (flag : Bool) :
    (Process fo P st scene lights flag).tasks.map PrepareLightsTask.triangleCount =
      (emissiveEntries fo scene).map GeomEntry.triangleCount ++
        List.replicate (encodedLights fo P flag lights).length 1 := by
  obtain ⟨lnew, h1, h2, h3, h4, -⟩ := Process_tasks_split fo P st scene lights flag
  rw [h1, List.map_append, h2, ← h3]
  congr 1
  apply List.eq_replicate_iff.mpr
  refine ⟨by simp, ?_⟩
  intro c hc
  obtain ⟨t, ht, rfl⟩ := List.mem_map.mp hc
  exact h4 t ht

/-- The offsets of the tasks of `Process` and the final cursor do not depend
on the members of the pass. -/
theorem Process_offsets_indep (fo : FloatOps F) (P : Platform F) (st st2 : PassState)
    (scene : Scene F) (lights : List (Light F)) (flag : Bool) :
    (Process fo P st scene lights flag).tasks.map PrepareLightsTask.lightBufferOffset =
      (Process fo P st2 scene lights flag).tasks.map PrepareLightsTask.lightBufferOffset ∧
    (Process fo P st scene lights flag).lightBufferOffset =
      (Process fo P st2 scene lights flag).lightBufferOffset :=
  TaskChain.offsets_eq (Process_chain fo P st scene lights flag)
    (Process_chain fo P st2 scene lights flag)
    ((Process_task_counts fo P st scene lights flag).trans
      (Process_task_counts fo P st2 scene lights flag).symm)

/-- C12: the half-buffer base alternates over consecutive calls of `Process`
on one pass (`m_MaxLightsInBuffer` a `uint32_t` value). In each call
`currentFrameLightOffset` is `m_MaxLightsInBuffer` times the parity and
`previousFrameLightOffset` is `m_MaxLightsInBuffer` times one minus the parity;
the call flips the parity; frame N+1 has the two bases of frame N exchanged;
`firstLocalLight` is the current base, so that it differs by exactly
`m_MaxLightsInBuffer` between the two frames; and when frame N+1 has the scene,
lights and flag of frame N, the tasks have the same frame-relative offsets, so
that the absolute offset of a task, its offset plus the current base, differs
by exactly `m_MaxLightsInBuffer` between the two frames. -/
theorem C12_half_buffer_alternates (fo : FloatOps F) (P : Platform F) (st : PassState)
    (scene1 scene2 : Scene F) (lights1 lights2 : List (Light F)) (flag1 flag2 : Bool)
    (hmax : st.m_MaxLightsInBuffer < 4294967296) :
    (Process fo P st scene1 lights1 flag1).constants.currentFrameLightOffset =
      st.m_MaxLightsInBuffer * boolToNat st.m_OddFrame ∧
    (Process fo P st scene1 lights1 flag1).constants.previousFrameLightOffset =
      st.m_MaxLightsInBuffer * (1 - boolToNat st.m_OddFrame) ∧
    (Process fo P st scene1 lights1 flag1).state.m_OddFrame = !st.m_OddFrame ∧
    (Process fo P (Process fo P st scene1 lights1 flag1).state scene2 lights2
      flag2).state.m_OddFrame = st.m_OddFrame ∧
    (Process fo P (Process fo P st scene1 lights1 flag1).state scene2 lights2
      flag2).constants.previousFrameLightOffset =
      (Process fo P st scene1 lights1 flag1).constants.currentFrameLightOffset ∧
    (Process fo P (Process fo P st scene1 lights1 flag1).state scene2 lights2
      flag2).constants.currentFrameLightOffset =
      (Process fo P st scene1 lights1 flag1).constants.previousFrameLightOffset ∧
    (Process fo P st scene1 lights1 flag1).outFrameParameters.firstLocalLight =
      (Process fo P st scene1 lights1 flag1).constants.currentFrameLightOffset ∧
    (Process fo P (Process fo P st scene1 lights1 flag1).state scene2 lights2
      flag2).outFrameParameters.firstLocalLight =
      (Process fo P (Process fo P st scene1 lights1 flag1).state scene2 lights2
        flag2).constants.currentFrameLightOffset ∧
    ((Process fo P (Process fo P st scene1 lights1 flag1).state scene2 lights2
        flag2).outFrameParameters.firstLocalLight =
        (Process fo P st scene1 lights1 flag1).outFrameParameters.firstLocalLight +
          st.m_MaxLightsInBuffer ∨
      (Process fo P st scene1 lights1 flag1).outFrameParameters.firstLocalLight =
        (Process fo P (Process fo P st scene1 lights1 flag1).state scene2 lights2
          flag2).outFrameParameters.firstLocalLight + st.m_MaxLightsInBuffer) ∧
    (Process fo P (Process fo P st scene1 lights1 flag1).state scene1 lights1
      flag1).tasks.map PrepareLightsTask.lightBufferOffset =
      (Process fo P st scene1 lights1 flag1).tasks.map PrepareLightsTask.lightBufferOffset ∧
    (∀ (i : Nat) (t1 t2 : PrepareLightsTask),
      (Process fo P st scene1 lights1 flag1).tasks[i]? = some t1 →
      (Process fo P (Process fo P st scene1 lights1 flag1).state scene1 lights1
        flag1).tasks[i]? = some t2 →
      ((Process fo P (Process fo P st scene1 lights1 flag1).state scene1 lights1
          flag1).constants.currentFrameLightOffset + t2.lightBufferOffset =
          (Process fo P st scene1 lights1 flag1).constants.currentFrameLightOffset +
            t1.lightBufferOffset + st.m_MaxLightsInBuffer ∨
        (Process fo P st scene1 lights1 flag1).constants.currentFrameLightOffset +
            t1.lightBufferOffset =
          (Process fo P (Process fo P st scene1 lights1 flag1).state scene1 lights1
            flag1).constants.currentFrameLightOffset + t2.lightBufferOffset +
            st.m_MaxLightsInBuffer)) := by
  have hoff := (Process_offsets_indep fo P (Process fo P st scene1 lights1 flag1).state st
    scene1 lights1 flag1).1
  have hcur : ∀ (s : PassState) (sc : Scene F) (ls : List (Light F)) (fl : Bool),
      (Process fo P s sc ls fl).constants.currentFrameLightOffset =
        toU32 (s.m_MaxLightsInBuffer * boolToNat s.m_OddFrame) := fun _ _ _ _ => rfl
  have hprev : ∀ (s : PassState) (sc : Scene F) (ls : List (Light F)) (fl : Bool),
      (Process fo P s sc ls fl).constants.previousFrameLightOffset =
        toU32 (s.m_MaxLightsInBuffer * boolToNat (!s.m_OddFrame)) := fun _ _ _ _ => rfl
  have hfirst : ∀ (s : PassState) (sc : Scene F) (ls : List (Light F)) (fl : Bool),
      (Process fo P s sc ls fl).outFrameParameters.firstLocalLight =
        toU32 (0 + toU32 (s.m_MaxLightsInBuffer * boolToNat s.m_OddFrame)) :=
    fun _ _ _ _ => rfl
  have hodd : ∀ (s : PassState) (sc : Scene F) (ls : List (Light F)) (fl : Bool),
      (Process fo P s sc ls fl).state.m_OddFrame = !s.m_OddFrame := fun _ _ _ _ => rfl
  have hmx : ∀ (s : PassState) (sc : Scene F) (ls : List (Light F)) (fl : Bool),
      (Process fo P s sc ls fl).state.m_MaxLightsInBuffer = s.m_MaxLightsInBuffer :=
    fun _ _ _ _ => rfl
  simp only [hcur, hprev, hfirst, hodd, hmx, hoff, true_and]
  cases hb : st.m_OddFrame with
  | false =>
    simp only [boolToNat, Bool.not_false, Bool.not_true, if_true, if_false, Bool.false_eq_true,
      Nat.mul_zero, Nat.mul_one, Nat.sub_zero, Nat.zero_add, toU32_of_lt hmax, toU32_idem,
      toU32_of_lt (by omega : 0 < 4294967296)]
    refine ⟨trivial, trivial, trivial, trivial, trivial, trivial, Or.inl trivial, ?_⟩
    intro i t1 t2 h1 h2
    have e1 := congrArg (fun l => l[i]?) hoff
    simp only [List.getElem?_map, h1, h2, Option.map_some'] at e1
    injection e1 with e1
    left
    omega
  | true =>
    simp only [boolToNat, Bool.not_false, Bool.not_true, if_true, if_false, Bool.false_eq_true,
      Nat.mul_zero, Nat.mul_one, Nat.sub_self, Nat.zero_add, toU32_of_lt hmax, toU32_idem,
      toU32_of_lt (by omega : 0 < 4294967296)]
    refine ⟨trivial, trivial, trivial, trivial, trivial, trivial, Or.inr trivial, ?_⟩
    intro i t1 t2 h1 h2
    have e1 := congrArg (fun l => l[i]?) hoff
    simp only [List.getElem?_map, h1, h2, Option.map_some'] at e1
    injection e1 with e1
    right
    omega

/-- C12, witness: two calls on a fresh pass with half-buffer size 1000 and the
example frame: the bases are 0 and 1000 in the first call and exchanged in the
second, and the offsets of the tasks are the same in both. -/
theorem C12_half_buffer_alternates_witness :
    (freshState 1000).m_MaxLightsInBuffer < 4294967296 ∧
    (Process intOps (refPlatform insertionSortFront) (freshState 1000) exampleScene
      exampleLights true).constants.currentFrameLightOffset = 0 ∧
    (Process intOps (refPlatform insertionSortFront) (freshState 1000) exampleScene
      exampleLights true).constants.previousFrameLightOffset = 1000 ∧
    (Process intOps (refPlatform insertionSortFront)
      (Process intOps (refPlatform insertionSortFront) (freshState 1000) exampleScene
        exampleLights true).state laterScene [] false).constants.previousFrameLightOffset =
      (Process intOps (refPlatform insertionSortFront) (freshState 1000) exampleScene
        exampleLights true).constants.currentFrameLightOffset ∧
    (Process intOps (refPlatform insertionSortFront)
      (Process intOps (refPlatform insertionSortFront) (freshState 1000) exampleScene
        exampleLights true).state exampleScene exampleLights
      true).tasks.map PrepareLightsTask.lightBufferOffset =
      (Process intOps (refPlatform insertionSortFront) (freshState 1000) exampleScene
        exampleLights true).tasks.map PrepareLightsTask.lightBufferOffset :=
  have h := C12_half_buffer_alternates intOps (refPlatform insertionSortFront) (freshState 1000)
    exampleScene laterScene exampleLights [] true false (by decide)
  ⟨by decide, by decide, by decide, h.2.2.2.2.1, h.2.2.2.2.2.2.2.2.2.1⟩

/-- The visible-light list after the geometry loops: one entry for every task
appended, its offset. -/
theorem entriesLoop_visible (fo : FloatOps F) (P : Platform F) (es : List (GeomEntry F))
    (s : Locals F) :
    ∃ new : List PrepareLightsTask,
      (entriesLoop fo P es s).tasks = s.tasks ++ new ∧
      (entriesLoop fo P es s).visibleLightIndex =
        s.visibleLightIndex ++ new.map PrepareLightsTask.lightBufferOffset ∧
      (entriesLoop fo P es s).geometryInstanceToLight.length = s.geometryInstanceToLight.length ∧
      (∀ v ∈ (entriesLoop fo P es s).geometryInstanceToLight,
        v ∈ s.geometryInstanceToLight ∨ ∃ t ∈ new, t.lightBufferOffset = v) ∧
      new.map PrepareLightsTask.instanceAndGeometryIndex =
        (es.filter (GeomEntry.emissive fo)).map GeomEntry.taskId := by
  induction es generalizing s with
  | nil => exact ⟨[], by simp [entriesLoop]⟩
  | cons e es ih =>
    cases h : e.emissive fo with
    | false =>
      rw [entriesLoop_cons_skip fo P e es s h]
      obtain ⟨new, h1, h2, h3, h4, h5⟩ := ih
        { s with m_InstanceLightBufferOffsets := mapErase s.m_InstanceLightBufferOffsets (e.key P) }
      exact ⟨new, h1, h2, h3, h4, by simpa [List.filter_cons, h] using h5⟩
    | true =>
      rw [entriesLoop_cons_emit fo P e es s h]
      obtain ⟨new, h1, h2, h3, h4, h5⟩ := ih
        { s with
          geometryInstanceToLight :=
            s.geometryInstanceToLight.set (toU32 e.inst.geometryInstanceIndex + e.geometryIndex)
              s.lightBufferOffset
          visibleLightIndex := s.visibleLightIndex ++ [s.lightBufferOffset]
          m_InstanceLightBufferOffsets :=
            mapSet s.m_InstanceLightBufferOffsets (e.key P) s.lightBufferOffset
          lightBufferOffset := toU32 (s.lightBufferOffset + e.triangleCount)
          tasks := s.tasks ++ [geometryTask P e s]
          numEmissionInstance := toU32 (s.numEmissionInstance + 1) }
      refine ⟨geometryTask P e s :: new, ?_, ?_, ?_, ?_, ?_⟩
      · rw [h1]; simp
      · rw [h2]; simp [geometryTask]
      · rw [h3]; simp
      · intro v hv
        rcases h4 v hv with hin | ⟨t, ht, htv⟩
        · rcases List.mem_or_eq_of_mem_set hin with hs | hs
          · exact Or.inl hs
          · exact Or.inr ⟨geometryTask P e s, List.mem_cons_self _ _, by rw [hs]; rfl⟩
        · exact Or.inr ⟨t, List.mem_cons_of_mem _ ht, htv⟩
      · simp only [List.map_cons, List.filter_cons, h, if_true, h5]
        rfl

/-- The visible-light list of `Process` holds the offsets of the tasks, in the
order of the tasks. -/
theorem Process_visible (fo : FloatOps F) (P : Platform F) (st : PassState) (scene : Scene F)
    (lights : List (Light F)) (flag : Bool) :
    (Process fo P st scene lights flag).visibleLightIndex =
      (Process fo P st scene lights flag).tasks.map PrepareLightsTask.lightBufferOffset := by
  obtain ⟨lnew, h1, -, -, -, -, -, h7, -⟩ := Process_tasks_split fo P st scene lights flag
  obtain ⟨new, e1, e2, -⟩ := entriesLoop_visible fo P (sceneEntries scene.meshInstances)
    (initLocals scene st P)
  have hg : (geometryPass fo P st scene).tasks = new := by
    unfold geometryPass; rw [e1]; simp [initLocals]
  have hv : (geometryPass fo P st scene).visibleLightIndex =
      new.map PrepareLightsTask.lightBufferOffset := by
    unfold geometryPass; rw [e2]; simp [initLocals]
  rw [h7, h1, hv, hg, List.map_append]

/-- The geometry-instance-to-light array of `Process` has one entry for every
geometry instance of the scene, and every entry is the invalid index or the
offset of a task of the geometry loops. -/
theorem Process_geometryInstanceToLight_entries (fo : FloatOps F) (P : Platform F)
    (st : PassState) (scene : Scene F) (lights : List (Light F)) (flag : Bool) :
    (Process fo P st scene lights flag).geometryInstanceToLight.length =
      scene.geometryInstancesCount ∧
    ∀ v ∈ (Process fo P st scene lights flag).geometryInstanceToLight,
      v = P.RTXDI_INVALID_LIGHT_INDEX ∨
      ∃ t ∈ (Process fo P st scene lights flag).tasks, t.lightBufferOffset = v := by
  obtain ⟨lnew, h1, -⟩ := Process_tasks_split fo P st scene lights flag
  obtain ⟨-, -, f3, -⟩ := Process_fields fo P st scene lights flag
  obtain ⟨new, e1, -, e3, e4, -⟩ := entriesLoop_visible fo P (sceneEntries scene.meshInstances)
    (initLocals scene st P)
  have hg : (geometryPass fo P st scene).tasks = new := by
    unfold geometryPass; rw [e1]; simp [initLocals]
  rw [f3]
  constructor
  · unfold geometryPass; rw [e3]; simp [initLocals]
  · intro v hv
    rcases e4 v hv with hin | ⟨t, ht, htv⟩
    · left
      simp only [initLocals] at hin
      exact (List.mem_replicate.mp hin).2
    · right
      refine ⟨t, ?_, htv⟩
      rw [h1, hg]
      exact List.mem_append_left _ ht

/-- An entry of the geometry-instance-to-light array whose index belongs to no
emissive iteration is not changed by the geometry loops. -/
theorem entriesLoop_g2l_of_not_mem (fo : FloatOps F) (P : Platform F) (es : List (GeomEntry F))
    (s : Locals F) (j : Nat)
    (hj : ∀ e ∈ es, e.emissive fo = true → e.geometryInstance ≠ j) :
    (entriesLoop fo P es s).geometryInstanceToLight[j]? = s.geometryInstanceToLight[j]? := by
  induction es generalizing s with
  | nil => rfl
  | cons e es ih =>
    have hj2 : ∀ x ∈ es, x.emissive fo = true → x.geometryInstance ≠ j :=
      fun x hx => hj x (List.mem_cons_of_mem _ hx)
    cases h : e.emissive fo with
    | false =>
      rw [entriesLoop_cons_skip fo P e es s h, ih _ hj2]
    | true =>
      rw [entriesLoop_cons_emit fo P e es s h, ih _ hj2]
      exact List.getElem?_set_ne (hj e (List.mem_cons_self _ _) h)

/-- The entry of the geometry-instance-to-light array for the emissive
iteration `e` that follows the iterations `pre`: the cursor at that point,
when the index is in range and no later emissive iteration has the same
index. -/
theorem entriesLoop_g2l_split (fo : FloatOps F) (P : Platform F) (pre post : List (GeomEntry F))
    (e : GeomEntry F) (s : Locals F) (he : e.emissive fo = true)
    (hr : e.geometryInstance < s.geometryInstanceToLight.length)
    (hpost : ∀ x ∈ post, x.emissive fo = true → x.geometryInstance ≠ e.geometryInstance) :
    (entriesLoop fo P (pre ++ e :: post) s).geometryInstanceToLight[e.geometryInstance]? =
      some (entriesLoop fo P pre s).lightBufferOffset := by
  rw [entriesLoop_append, entriesLoop_cons_emit fo P e post _ he,
    entriesLoop_g2l_of_not_mem fo P post _ _ hpost]
  have hlen := (entriesLoop_visible fo P pre s).choose_spec.2.2.1
  exact List.getElem?_set_self (by
    rw [hlen]
    exact hr)

/-- The offsets, the cursor and the geometry-instance-to-light array after the
geometry loops depend on the locals only through the cursor and the array. -/
theorem entriesLoop_indep (fo : FloatOps F) (P : Platform F) (es : List (GeomEntry F))
    (s s2 : Locals F) (h1 : s.lightBufferOffset = s2.lightBufferOffset)
    (h2 : s.geometryInstanceToLight = s2.geometryInstanceToLight) :
    (entriesLoop fo P es s).lightBufferOffset = (entriesLoop fo P es s2).lightBufferOffset ∧
    (entriesLoop fo P es s).geometryInstanceToLight =
      (entriesLoop fo P es s2).geometryInstanceToLight := by
  induction es generalizing s s2 with
  | nil => exact ⟨h1, h2⟩
  | cons e es ih =>
    cases h : e.emissive fo with
    | false =>
      rw [entriesLoop_cons_skip fo P e es s h, entriesLoop_cons_skip fo P e es s2 h]
      exact ih _ _ h1 h2
    | true =>
      rw [entriesLoop_cons_emit fo P e es s h, entriesLoop_cons_emit fo P e es s2 h]
      exact ih _ _ (by simp only [h1]) (by simp only [h1, h2])

/-- The geometry-instance-to-light array of `Process` does not depend on the
members of the pass. -/
theorem Process_geometryInstanceToLight_indep (fo : FloatOps F) (P : Platform F)
    (st st2 : PassState) (scene : Scene F) (lights : List (Light F)) (flag : Bool) :
    (Process fo P st scene lights flag).geometryInstanceToLight =
      (Process fo P st2 scene lights flag).geometryInstanceToLight := by
  rw [(Process_fields fo P st scene lights flag).2.2.1,
    (Process_fields fo P st2 scene lights flag).2.2.1]
  exact (entriesLoop_indep fo P (sceneEntries scene.meshInstances) (initLocals scene st P)
    (initLocals scene st2 P) rfl rfl).2

/-- C13, counterexample: the example frame on a pass of odd parity with
half-buffer size 1000. The base is 1000 and `firstLocalLight` is shifted by it,
but the first task has `lightBufferOffset` 0, and the geometry-instance-to-light
array and the visible-light list hold the unshifted offsets 0, 10, 12 and so on. -/
theorem C13_counterexample :
    (Process intOps (refPlatform insertionSortFront) (oddState 1000) exampleScene
      exampleLights true).constants.currentFrameLightOffset = 1000 ∧
    (Process intOps (refPlatform insertionSortFront) (oddState 1000) exampleScene
      exampleLights true).outFrameParameters.firstLocalLight = 1000 ∧
    (Process intOps (refPlatform insertionSortFront) (oddState 1000) exampleScene
      exampleLights true).tasks.map PrepareLightsTask.lightBufferOffset
      = [0, 10, 10, 12, 13, 14, 15] ∧
    (Process intOps (refPlatform insertionSortFront) (oddState 1000) exampleScene
      exampleLights true).geometryInstanceToLight = [0, 4294967295, 10, 10] ∧
    (Process intOps (refPlatform insertionSortFront) (oddState 1000) exampleScene
      exampleLights true).visibleLightIndex = [0, 10, 10, 12, 13, 14, 15] := by
  decide

/-- C13, amended: of what `Process` emits only the frame parameters
`firstLocalLight`, `firstInfiniteLight` and `environmentLightIndex` are shifted
by the base of the current half-buffer, which is also handed over as
`currentFrameLightOffset`. The `lightBufferOffset` of the tasks, the entries of
the geometry-instance-to-light array and those of the visible-light list are
frame-relative: they are the same whatever the members of the pass, its parity
and its half-buffer size are; the first task has offset 0, the visible-light
list holds the offsets of the tasks, and every entry of the
geometry-instance-to-light array is the invalid index or the offset of a task. -/
theorem C13_offsets_are_frame_relative (fo : FloatOps F) (P : Platform F) (st st2 : PassState)
    (scene : Scene F) (lights : List (Light F)) (flag : Bool) :
    (Process fo P st scene lights flag).tasks.map PrepareLightsTask.lightBufferOffset =
      (Process fo P st2 scene lights flag).tasks.map PrepareLightsTask.lightBufferOffset ∧
    (Process fo P st scene lights flag).geometryInstanceToLight =
      (Process fo P st2 scene lights flag).geometryInstanceToLight ∧
    (Process fo P st scene lights flag).visibleLightIndex =
      (Process fo P st2 scene lights flag).visibleLightIndex ∧
    (Process fo P st scene lights flag).visibleLightIndex =
      (Process fo P st scene lights flag).tasks.map PrepareLightsTask.lightBufferOffset ∧
    (∀ t, (Process fo P st scene lights flag).tasks.head? = some t → t.lightBufferOffset = 0) ∧
    (∀ v ∈ (Process fo P st scene lights flag).geometryInstanceToLight,
      v = P.RTXDI_INVALID_LIGHT_INDEX ∨
      ∃ t ∈ (Process fo P st scene lights flag).tasks, t.lightBufferOffset = v) ∧
    (Process fo P st scene lights flag).constants.currentFrameLightOffset =
      toU32 (halfBufferBase st) ∧
    (Process fo P st scene lights flag).outFrameParameters.currentFrameLightOffset =
      toU32 (halfBufferBase st) ∧
    (Process fo P st scene lights flag).outFrameParameters.firstLocalLight =
      toU32 (halfBufferBase st) ∧
    (Process fo P st scene lights flag).outFrameParameters.firstInfiniteLight =
      toU32 ((Process fo P st scene lights flag).outFrameParameters.numLocalLights +
        halfBufferBase st) ∧
    (Process fo P st scene lights flag).outFrameParameters.environmentLightIndex =
      toU32 ((Process fo P st scene lights flag).outFrameParameters.numLocalLights +
        (Process fo P st scene lights flag).outFrameParameters.numInfiniteLights +
        halfBufferBase st) := by
  have hoff := (Process_offsets_indep fo P st st2 scene lights flag).1
  refine ⟨hoff, Process_geometryInstanceToLight_indep fo P st st2 scene lights flag, ?_,
    Process_visible fo P st scene lights flag,
    fun t ht => (Process_chain fo P st scene lights flag).head ht,
    (Process_geometryInstanceToLight_entries fo P st scene lights flag).2, rfl, rfl, ?_, ?_, ?_⟩
  · rw [Process_visible, Process_visible, hoff]
  · simp only [Process, halfBufferBase, Nat.zero_add, toU32_idem]
  · simp only [Process, halfBufferBase, toU32_add_right]
  · simp only [Process, halfBufferBase]
    generalize st.m_MaxLightsInBuffer * boolToNat st.m_OddFrame = B
    unfold toU32
    omega

/-- C13, witness: the example frame on a pass of even and of odd parity: the
same offsets in the tasks, and the first task at offset 0 in both. -/
theorem C13_offsets_are_frame_relative_witness :
    (Process intOps (refPlatform insertionSortFront) (oddState 1000) exampleScene
      exampleLights true).tasks.map PrepareLightsTask.lightBufferOffset =
      (Process intOps (refPlatform insertionSortFront) (freshState 1000) exampleScene
        exampleLights true).tasks.map PrepareLightsTask.lightBufferOffset ∧
    (∃ t : PrepareLightsTask,
      (Process intOps (refPlatform insertionSortFront) (oddState 1000) exampleScene
        exampleLights true).tasks.head? = some t ∧ t.lightBufferOffset = 0) :=
  have h := C13_offsets_are_frame_relative intOps (refPlatform insertionSortFront)
    (oddState 1000) (freshState 1000) exampleScene exampleLights true
  ⟨h.1, ⟨{ instanceAndGeometryIndex := 0, triangleCount := 10, lightBufferOffset := 0,
           previousLightBufferOffset := -1 }, by decide, h.2.2.2.2.1 _ (by decide)⟩⟩

/-- The success flag of `ConvertLight`, by the kind of the light. -/
theorem ConvertLight_success (fo : FloatOps F) (P : Platform F) (l : Light F)
    (polymorphic : PolymorphicLightInfo F) (flag : Bool) :
    (ConvertLight fo P l polymorphic flag).1 =
      match l.data with
      | .Environment t _ _ => decide (0 ≤ t)
      | .Other => false
      | _ => true := by
  obtain ⟨p, d⟩ := l
  cases d with
  | Point radius intensity color position =>
    simp only [ConvertLight]
    split <;> rfl
  | Environment t rs rot =>
    simp only [ConvertLight]
    by_cases ht : t < 0
    · simp [ht]
    · simp only [ht, if_false]
      simp only [Int.not_lt] at ht
      simp [ht]
  | _ => rfl

/-- The light loop skips a light that `ConvertLight` does not encode. -/
theorem lightLoop_remove (fo : FloatOps F) (P : Platform F) (flag : Bool)
    (pre post : List (Light F)) (l : Light F) (s : Locals F)
    (hl : encodes fo P flag l = false) :
    lightLoop fo P flag (pre ++ l :: post) s = lightLoop fo P flag (pre ++ post) s := by
  rw [lightLoop_append, lightLoop_append]
  simp only [lightLoop]
  rw [lightStep_skip fo P flag l _ hl]

/-- C14: `ConvertLight` on a light of a supported kind (any kind that its
switch has a case for), with any record and any flag: it returns false if and
only if the light is an Environment light with a negative `textureIndex`, and
true for every Directional, Spot, Point, Cylinder, Disk and Rect light and
every Environment light with `textureIndex >= 0`. In `Process` the step of the
light loop for a light that is not encoded leaves all locals and both trackers
as they are, so that the tasks, the records, the visible-light list, the
cursor and the light tracker of the call are those of the light loop run
without that light. -/
theorem C14_only_environment_without_texture_fails (fo : FloatOps F) (P : Platform F)
    (l : Light F) (polymorphic : PolymorphicLightInfo F) (flag : Bool) :
    (l.GetLightType ≠ .LightType_Other →
      ((ConvertLight fo P l polymorphic flag).1 = false ↔
        ∃ t rs rot, l.data = .Environment t rs rot ∧ t < 0)) ∧
    (l.GetLightType ≠ .LightType_Other →
      (∀ t rs rot, l.data = .Environment t rs rot → 0 ≤ t) →
      (ConvertLight fo P l polymorphic flag).1 = true) ∧
    (∀ s : Locals F, encodes fo P flag l = false → lightStep fo P flag l s = s) ∧
    (∀ (st : PassState) (scene : Scene F) (lights pre post : List (Light F)),
      P.std_sort lightOrder lights = pre ++ l :: post →
      encodes fo P flag l = false →
      (Process fo P st scene lights flag).tasks =
        (lightLoop fo P flag (pre ++ post) (geometryPass fo P st scene)).tasks ∧
      (Process fo P st scene lights flag).primitiveLightInfos =
        (lightLoop fo P flag (pre ++ post) (geometryPass fo P st scene)).primitiveLightInfos ∧
      (Process fo P st scene lights flag).visibleLightIndex =
        (lightLoop fo P flag (pre ++ post) (geometryPass fo P st scene)).visibleLightIndex ∧
      (Process fo P st scene lights flag).lightBufferOffset =
        (lightLoop fo P flag (pre ++ post) (geometryPass fo P st scene)).lightBufferOffset ∧
      (Process fo P st scene lights flag).state.m_PrimitiveLightBufferOffsets =
        (lightLoop fo P flag (pre ++ post)
          (geometryPass fo P st scene)).m_PrimitiveLightBufferOffsets) := by
  have hs := ConvertLight_success fo P l polymorphic flag
  refine ⟨?_, ?_, fun s h => lightStep_skip fo P flag l s h, ?_⟩
  · intro hk
    rw [hs]
    obtain ⟨p, d⟩ := l
    cases d with
    | Environment t rs rot =>
      simp only [decide_eq_false_iff_not, Int.not_le, LightData.Environment.injEq]
      constructor
      · intro ht
        exact ⟨t, rs, rot, ⟨rfl, rfl, rfl⟩, ht⟩
      · rintro ⟨t2, rs2, rot2, ⟨rfl, -, -⟩, ht⟩
        exact ht
    | Other => exact absurd rfl hk
    | _ => simp
  · intro hk henv
    rw [hs]
    obtain ⟨p, d⟩ := l
    cases d with
    | Environment t rs rot => simpa using henv t rs rot rfl
    | Other => exact absurd rfl hk
    | _ => rfl
  · intro st scene lights pre post hsplit hl
    obtain ⟨f1, f2, -, f4, f5, -, f7, -⟩ := Process_fields fo P st scene lights flag
    have hp : lightPass fo P st scene lights flag =
        lightLoop fo P flag (pre ++ post) (geometryPass fo P st scene) := by
      unfold lightPass
      rw [hsplit]
      exact lightLoop_remove fo P flag pre post l _ hl
    rw [f1, f2, f4, f5, f7, hp]
    exact ⟨rfl, rfl, rfl, rfl, rfl⟩

/-- C14, witness: an environment light with texture index -1 is not encoded,
and a frame with that light between two point lights has the tasks of the
light loop over the two point lights alone. -/
theorem C14_only_environment_without_texture_fails_witness :
    (ConvertLight intOps (refPlatform insertionSortFront) (environmentLight 3 (-1))
      (PolymorphicLightInfo.init intOps) true).1 = false ∧
    (Process intOps (refPlatform insertionSortFront) (freshState 1000) exampleScene
      [pointLight 2, environmentLight 3 (-1), pointLight 4] true).tasks =
      (lightLoop intOps (refPlatform insertionSortFront) true
        ([pointLight 2, pointLight 4] ++ [])
        (geometryPass intOps (refPlatform insertionSortFront) (freshState 1000)
          exampleScene)).tasks :=
  have h := C14_only_environment_without_texture_fails intOps (refPlatform insertionSortFront)
    (environmentLight 3 (-1)) (PolymorphicLightInfo.init intOps) true
  ⟨(h.1 (by decide)).mpr ⟨-1, ⟨1, 1, 1⟩, 0, rfl, by decide⟩,
    (h.2.2.2 (freshState 1000) exampleScene
      [pointLight 2, environmentLight 3 (-1), pointLight 4]
      [pointLight 2, pointLight 4] [] rfl (by decide)).1⟩

/-- The iterations of the inner loop for one instance are its geometries with
their indices. -/
theorem mem_geometryEntriesFrom (inst : MeshInstance F) (gs : List (MeshGeometry F)) (k : Nat)
    (e : GeomEntry F) :
    e ∈ geometryEntriesFrom inst k gs ↔
      e.inst = inst ∧ ∃ j, e.geometryIndex = k + j ∧ gs[j]? = some e.geometry := by
  induction gs generalizing k with
  | nil => simp [geometryEntriesFrom]
  | cons g gs ih =>
    simp only [geometryEntriesFrom, List.mem_cons, ih]
    constructor
    · rintro (rfl | ⟨hi, j, hj, hg⟩)
      · exact ⟨rfl, 0, rfl, by simp⟩
      · exact ⟨hi, j + 1, by omega, by simpa using hg⟩
    · rintro ⟨hi, j, hj, hg⟩
      cases j with
      | zero =>
        left
        obtain ⟨i, gi, ge⟩ := e
        simp only [List.getElem?_cons_zero, Option.some.injEq] at hg
        simp only at hi hj
        subst hi hg
        simp [hj]
      | succ j2 =>
        right
        exact ⟨hi, j2, by omega, by simpa using hg⟩

/-- The iterations of the geometry loops are the geometries of the meshes of
the instances, each with its instance and its index in the mesh. -/
theorem mem_sceneEntries (insts : List (MeshInstance F)) (e : GeomEntry F) :
    e ∈ sceneEntries insts ↔
      e.inst ∈ insts ∧ e.inst.geometries[e.geometryIndex]? = some e.geometry := by
  induction insts with
  | nil => simp [sceneEntries]
  | cons inst rest ih =>
    simp only [sceneEntries, List.mem_append, mem_geometryEntriesFrom, ih, List.mem_cons]
    constructor
    · rintro (⟨hi, j, hj, hg⟩ | ⟨hm, hg⟩)
      · refine ⟨Or.inl hi, ?_⟩
        rw [hi, hj, Nat.zero_add]
        exact hg
      · exact ⟨Or.inr hm, hg⟩
    · rintro ⟨hi | hm, hg⟩
      · left
        refine ⟨hi, e.geometryIndex, by omega, ?_⟩
        rw [← hi]
        exact hg
      · exact Or.inr ⟨hm, hg⟩

/-- The iterations of the inner loop for one instance: its geometries,
numbered from `k`, in the order of the mesh. -/
theorem geometryEntriesFrom_eq (inst : MeshInstance F) (gs : List (MeshGeometry F)) (k : Nat) :
    geometryEntriesFrom inst k gs =
      (gs.enumFrom k).map (fun p => (⟨inst, p.1, p.2⟩ : GeomEntry F)) := by
  induction gs generalizing k with
  | nil => rfl
  | cons g gs ih => simp only [geometryEntriesFrom, List.enumFrom_cons, List.map_cons, ih]

/-- The iterations of the geometry loops: instance after instance, and for
each instance its geometries in the order of the mesh, numbered from zero. -/
theorem sceneEntries_eq (insts : List (MeshInstance F)) :
    sceneEntries insts =
      insts.flatMap (fun inst =>
        inst.geometries.enum.map (fun p => (⟨inst, p.1, p.2⟩ : GeomEntry F))) := by
  induction insts with
  | nil => rfl
  | cons inst rest ih =>
    simp only [sceneEntries, List.flatMap_cons, ih, geometryEntriesFrom_eq, List.enum]

/-- C15, counterexample: a geometry whose emissive intensity is not a number.
Its material has the emissive colour `(1, 1, 1)`; for its intensity both
`emissiveIntensity > 0` and `emissiveIntensity <= 0` are false, so the test of
`Process` does not skip it and it gets a task, of 10 triangles at offset 0,
although its intensity is not `> 0`. -/
theorem C15_counterexample :
    nanOps.lt nanOps.zero (none : Option Int) = false ∧
    nanOps.le (none : Option Int) nanOps.zero = false ∧
    (Process nanOps nanPlatform (freshState 1000) nanScene [] false).tasks =
      [{ instanceAndGeometryIndex := 0, triangleCount := 10, lightBufferOffset := 0,
         previousLightBufferOffset := -1 }] ∧
    ((nanScene.meshInstances.flatMap (fun inst =>
        inst.geometries.enum.map (fun p => (⟨inst, p.1, p.2⟩ : GeomEntry (Option Int))))).filter
        (fun e =>
          (nanOps.ne e.geometry.material.emissiveColor.x nanOps.zero ||
            nanOps.ne e.geometry.material.emissiveColor.y nanOps.zero ||
            nanOps.ne e.geometry.material.emissiveColor.z nanOps.zero) &&
          nanOps.lt nanOps.zero e.geometry.material.emissiveIntensity)).length = 0 := by
  decide

/-- C15: the tasks of the geometries. The iterations of the geometry loops are
the geometries of the scene in scan order, instance after instance and
geometry after geometry; the emissive ones are those whose material has an
emissive colour channel different from zero and an emissive intensity for
which the test `emissiveIntensity <= 0.f` fails. When for every geometry of the
scene `emissiveIntensity <= 0` is the negation of `emissiveIntensity > 0` (no
intensity is a NaN) these are the geometries with a non-zero colour channel and
`emissiveIntensity > 0`; a geometry with a non-zero colour channel whose
intensity fails both comparisons is emissive as well. The first tasks of
`Process` are the tasks of the emissive iterations, one for each in scan order
and none for any other geometry, with `instanceAndGeometryIndex =
(instanceIndex << 12) | (geometryIndex & 0xfff)` and `triangleCount =
numIndices / 3`; the tasks after them are those of the encoded lights. -/
theorem C15_geometry_tasks (fo : FloatOps F) (P : Platform F) (st : PassState) (scene : Scene F)
    (lights : List (Light F)) (flag : Bool) :
    emissiveEntries fo scene =
      (scene.meshInstances.flatMap (fun inst =>
        inst.geometries.enum.map (fun p => (⟨inst, p.1, p.2⟩ : GeomEntry F)))).filter
        (fun e =>
          (fo.ne e.geometry.material.emissiveColor.x fo.zero ||
            fo.ne e.geometry.material.emissiveColor.y fo.zero ||
            fo.ne e.geometry.material.emissiveColor.z fo.zero) &&
          !fo.le e.geometry.material.emissiveIntensity fo.zero) ∧
    ((∀ e ∈ sceneEntries scene.meshInstances,
        fo.le e.geometry.material.emissiveIntensity fo.zero =
          !fo.lt fo.zero e.geometry.material.emissiveIntensity) →
      emissiveEntries fo scene =
        (scene.meshInstances.flatMap (fun inst =>
          inst.geometries.enum.map (fun p => (⟨inst, p.1, p.2⟩ : GeomEntry F)))).filter
          (fun e =>
            (fo.ne e.geometry.material.emissiveColor.x fo.zero ||
              fo.ne e.geometry.material.emissiveColor.y fo.zero ||
              fo.ne e.geometry.material.emissiveColor.z fo.zero) &&
            fo.lt fo.zero e.geometry.material.emissiveIntensity)) ∧
    (∀ e ∈ sceneEntries scene.meshInstances,
      (fo.ne e.geometry.material.emissiveColor.x fo.zero ||
        fo.ne e.geometry.material.emissiveColor.y fo.zero ||
        fo.ne e.geometry.material.emissiveColor.z fo.zero) = true →
      fo.le e.geometry.material.emissiveIntensity fo.zero = false →
      e ∈ emissiveEntries fo scene) ∧
    ((Process fo P st scene lights flag).tasks.take (emissiveEntries fo scene).length).map
        PrepareLightsTask.instanceAndGeometryIndex =
      (emissiveEntries fo scene).map
        (fun e => toU32 ((e.inst.instanceIndex <<< 12) ||| (e.geometryIndex &&& 4095))) ∧
    ((Process fo P st scene lights flag).tasks.take (emissiveEntries fo scene).length).map
        PrepareLightsTask.triangleCount =
      (emissiveEntries fo scene).map (fun e => toU32 (e.geometry.numIndices / 3)) ∧
    ((Process fo P st scene lights flag).tasks.drop (emissiveEntries fo scene).length).length =
      (encodedLights fo P flag lights).length := by
  have hemissive : ∀ e : GeomEntry F, GeomEntry.emissive fo e =
      ((fo.ne e.geometry.material.emissiveColor.x fo.zero ||
          fo.ne e.geometry.material.emissiveColor.y fo.zero ||
          fo.ne e.geometry.material.emissiveColor.z fo.zero) &&
        !fo.le e.geometry.material.emissiveIntensity fo.zero) := by
    intro e
    simp only [GeomEntry.emissive, notEmissive]
    generalize fo.ne e.geometry.material.emissiveColor.x fo.zero = a
    generalize fo.ne e.geometry.material.emissiveColor.y fo.zero = b
    generalize fo.ne e.geometry.material.emissiveColor.z fo.zero = c
    generalize fo.le e.geometry.material.emissiveIntensity fo.zero = d
    cases a <;> cases b <;> cases c <;> cases d <;> rfl
  obtain ⟨lnew, h1, h2, h3, -⟩ := Process_tasks_split fo P st scene lights flag
  obtain ⟨new, e1, -, -, -, e5⟩ := entriesLoop_visible fo P (sceneEntries scene.meshInstances)
    (initLocals scene st P)
  have hg : (geometryPass fo P st scene).tasks = new := by
    unfold geometryPass; rw [e1]; simp [initLocals]
  have hlen := geometryPass_tasks_length fo P st scene
  refine ⟨?_, ?_, ?_, ?_, ?_, ?_⟩
  · unfold emissiveEntries
    rw [sceneEntries_eq]
    congr 1
    funext e
    exact hemissive e
  · intro hord
    unfold emissiveEntries
    rw [← sceneEntries_eq]
    apply List.filter_congr
    intro e he
    rw [hemissive e, hord e he, Bool.not_not]
  · intro e he hcol hle
    unfold emissiveEntries
    apply List.mem_filter.mpr
    refine ⟨he, ?_⟩
    rw [hemissive e, hcol, hle]
    rfl
  · rw [h1, ← hlen, List.take_left']
    · rw [hg, e5]
      rfl
    · rfl
  · rw [h1, ← hlen, List.take_left']
    · rw [h2]
      rfl
    · rfl
  · rw [h1, ← hlen, List.drop_left']
    · exact h3
    · rfl

/-- C15, witness: in the example scene, with the integer stand-in for the
floats (an ordered number type), the emissive iterations are the geometries 0,
2 and 3, which have an emissive intensity above zero, and the first three
tasks of the example frame carry their indices and their triangle counts. -/
theorem C15_geometry_tasks_witness :
    (∀ e ∈ sceneEntries exampleScene.meshInstances,
      intOps.le e.geometry.material.emissiveIntensity intOps.zero =
        !intOps.lt intOps.zero e.geometry.material.emissiveIntensity) ∧
    (emissiveEntries intOps exampleScene).map GeomEntry.geometryIndex = [0, 2, 3] ∧
    ((exampleScene.meshInstances.flatMap (fun inst =>
        inst.geometries.enum.map (fun p => (⟨inst, p.1, p.2⟩ : GeomEntry Int)))).filter
        (fun e =>
          (intOps.ne e.geometry.material.emissiveColor.x intOps.zero ||
            intOps.ne e.geometry.material.emissiveColor.y intOps.zero ||
            intOps.ne e.geometry.material.emissiveColor.z intOps.zero) &&
          intOps.lt intOps.zero e.geometry.material.emissiveIntensity)).map
        GeomEntry.geometryIndex =
      (emissiveEntries intOps exampleScene).map GeomEntry.geometryIndex ∧
    ((Process intOps (refPlatform insertionSortFront) (freshState 1000) exampleScene
      exampleLights true).tasks.take 3).map PrepareLightsTask.instanceAndGeometryIndex
      = [0, 2, 3] ∧
    ((Process intOps (refPlatform insertionSortFront) (freshState 1000) exampleScene
      exampleLights true).tasks.take 3).map PrepareLightsTask.triangleCount = [10, 0, 2] :=
  have hord : ∀ e ∈ sceneEntries exampleScene.meshInstances,
      intOps.le e.geometry.material.emissiveIntensity intOps.zero =
        !intOps.lt intOps.zero e.geometry.material.emissiveIntensity := by
    intro e _
    simp only [intOps]
    by_cases h : e.geometry.material.emissiveIntensity ≤ 0
    · simp [h, Int.not_lt.mpr h]
    · simp [h, Int.not_le.mp h]
  have h := C15_geometry_tasks intOps (refPlatform insertionSortFront) (freshState 1000)
    exampleScene exampleLights true
  ⟨hord, by decide, congrArg (List.map GeomEntry.geometryIndex) (h.2.1 hord).symm,
    h.2.2.2.1, h.2.2.2.2.1⟩

/-- C16: the geometry-instance-to-light array written by `Process`, for a
scene in which the index `firstGeometryInstanceIndex + geometryIndex` of every
emissive geometry is below `GetGeometryInstancesCount()` and different
emissive geometries have different indices. The array has
`GetGeometryInstancesCount()` entries; for every emissive iteration `e` of the
geometry loops the entry at its index is the `lightBufferOffset` of its task;
every entry at an index of no emissive geometry is
`RTXDI_INVALID_LIGHT_INDEX`; and when the counts of the frame add up to less
than `2^32` and less than `RTXDI_INVALID_LIGHT_INDEX`, no task has that value
as its offset. -/
theorem C16_geometry_instance_to_light (fo : FloatOps F) (P : Platform F) (st : PassState)
    (scene : Scene F) (lights : List (Light F)) (flag : Bool)
    (hrange : ∀ e ∈ emissiveEntries fo scene,
      e.geometryInstance < scene.geometryInstancesCount)
    (hdist : ((emissiveEntries fo scene).map GeomEntry.geometryInstance).Nodup) :
    (Process fo P st scene lights flag).geometryInstanceToLight.length =
      scene.geometryInstancesCount ∧
    (∀ (pre post : List (GeomEntry F)) (e : GeomEntry F),
      sceneEntries scene.meshInstances = pre ++ e :: post →
      e.emissive fo = true →
      ∃ t : PrepareLightsTask,
        (Process fo P st scene lights flag).tasks[(pre.filter (GeomEntry.emissive fo)).length]?
          = some t ∧
        t.instanceAndGeometryIndex = e.taskId ∧ t.triangleCount = e.triangleCount ∧
        (Process fo P st scene lights flag).geometryInstanceToLight[e.geometryInstance]? =
          some t.lightBufferOffset) ∧
    (∀ j, j < scene.geometryInstancesCount →
      (∀ e ∈ emissiveEntries fo scene, e.geometryInstance ≠ j) →
      (Process fo P st scene lights flag).geometryInstanceToLight[j]? =
        some P.RTXDI_INVALID_LIGHT_INDEX) ∧
    (((Process fo P st scene lights flag).tasks.map PrepareLightsTask.triangleCount).sum
        < 4294967296 →
      ((Process fo P st scene lights flag).tasks.map PrepareLightsTask.triangleCount).sum
        < P.RTXDI_INVALID_LIGHT_INDEX →
      ∀ t ∈ (Process fo P st scene lights flag).tasks,
        t.lightBufferOffset ≠ P.RTXDI_INVALID_LIGHT_INDEX) := by
  obtain ⟨-, -, f3, -⟩ := Process_fields fo P st scene lights flag
  refine ⟨(Process_geometryInstanceToLight_entries fo P st scene lights flag).1, ?_, ?_, ?_⟩
  · intro pre post e hsplit he
    obtain ⟨b1, -⟩ := Process_geometry_task fo P st scene lights flag pre post e hsplit he
    refine ⟨_, b1, rfl, rfl, ?_⟩
    rw [f3]
    unfold geometryPass
    rw [hsplit]
    have hem : emissiveEntries fo scene =
        pre.filter (GeomEntry.emissive fo) ++ e :: post.filter (GeomEntry.emissive fo) := by
      unfold emissiveEntries
      rw [hsplit, List.filter_append, List.filter_cons, he]
      rfl
    refine entriesLoop_g2l_split fo P pre post e _ he ?_ ?_
    · have := hrange e (by rw [hem]; simp)
      simpa [initLocals] using this
    · intro x hx hxe heq
      rw [hem, List.map_append, List.map_cons] at hdist
      have hnd := (List.nodup_append.mp hdist).2.1
      rw [List.nodup_cons] at hnd
      apply hnd.1
      rw [← heq]
      exact List.mem_map_of_mem _ (List.mem_filter.mpr ⟨hx, hxe⟩)
  · intro j hj hno
    rw [f3]
    unfold geometryPass
    rw [entriesLoop_g2l_of_not_mem fo P _ _ j
      (fun e he hee => hno e (List.mem_filter.mpr ⟨he, hee⟩))]
    simp [initLocals, hj]
  · intro hfit hsent t ht
    have hc := Process_chain fo P st scene lights flag
    obtain ⟨hb, hall⟩ := hc.exact (by omega)
    obtain ⟨i, hi⟩ := List.getElem?_of_mem ht
    have := (hall i t hi).2.2
    omega

/-- C16, witness: the example frame: the indices 0, 2 and 3 of the emissive
geometries are below 4 and different; the array is
`[0, invalid, 10, 10]`, the entry 3 being the offset 10 of the third task. -/
theorem C16_geometry_instance_to_light_witness :
    (Process intOps (refPlatform insertionSortFront) (freshState 1000) exampleScene
      exampleLights true).geometryInstanceToLight.length = 4 ∧
    (∃ t : PrepareLightsTask,
      (Process intOps (refPlatform insertionSortFront) (freshState 1000) exampleScene
        exampleLights true).tasks[2]? = some t ∧
      t.instanceAndGeometryIndex = 3 ∧ t.triangleCount = 2 ∧
      (Process intOps (refPlatform insertionSortFront) (freshState 1000) exampleScene
        exampleLights true).geometryInstanceToLight[3]? = some t.lightBufferOffset) ∧
    (Process intOps (refPlatform insertionSortFront) (freshState 1000) exampleScene
      exampleLights true).geometryInstanceToLight[1]? = some 4294967295 :=
  have h := C16_geometry_instance_to_light intOps (refPlatform insertionSortFront)
    (freshState 1000) exampleScene exampleLights true (by decide) (by decide)
  ⟨h.1,
    h.2.1 [exampleEntry exampleGeometries 0 emissiveMaterial 30,
        exampleEntry exampleGeometries 1 darkMaterial 9,
        exampleEntry exampleGeometries 2 emissiveMaterial 2] []
      (exampleEntry exampleGeometries 3 emissiveMaterial 6) rfl (by decide),
    h.2.2.1 1 (by decide) (by decide)⟩

/-- A chain of tasks of count one without wrap-around has the consecutive
offsets from its start on. -/
theorem TaskChain.unit_offsets {a b : Nat} {ts : List PrepareLightsTask} (h : TaskChain a ts b)
    (hone : ∀ t ∈ ts, t.triangleCount = 1) (hfit : a + ts.length < 4294967296) :
    ts.map PrepareLightsTask.lightBufferOffset = List.range' a ts.length ∧
    b = a + ts.length := by
  induction ts generalizing a with
  | nil => simp only [TaskChain] at h; simp [h]
  | cons v vs ih =>
    simp only [TaskChain] at h
    simp only [List.length_cons] at hfit
    have hv := hone v (List.mem_cons_self _ _)
    rw [hv, toU32_of_lt (by omega)] at h
    obtain ⟨i1, i2⟩ := ih h.2 (fun t ht => hone t (List.mem_cons_of_mem _ ht)) (by omega)
    constructor
    · simp only [List.map_cons, List.length_cons, List.range'_succ, h.1, i1]
    · rw [i2, List.length_cons]; omega

/-- C17, counterexample: a frame with one emissive geometry of 30 indices and
no light allocates the ten slots 0 to 9, but the visible-light list has the
single entry 0 and `numEmissionThing` is 1. -/
theorem C17_counterexample :
    (Process intOps (refPlatform insertionSortFront) (freshState 1000)
      (oneInstanceScene [(emissiveMaterial, 30)]) [] false).lightBufferOffset = 10 ∧
    (Process intOps (refPlatform insertionSortFront) (freshState 1000)
      (oneInstanceScene [(emissiveMaterial, 30)]) [] false).visibleLightIndex = [0] ∧
    (Process intOps (refPlatform insertionSortFront) (freshState 1000)
      (oneInstanceScene [(emissiveMaterial, 30)]) [] false).outFrameParameters.numEmissionThing
      = 1 := by
  decide

/-- C17, amended: the visible-light list built by `Process` has one entry for
every task, the `lightBufferOffset` of the task: the first slot of the run of
every emissive geometry and the slot of every encoded light. Its length is the
number of tasks, the number of emissive geometries plus the number of encoded
lights, and `numEmissionThing` is that number as a `uint32_t`. When every
emissive geometry has triangle count one (and there are fewer than `2^32`
tasks) the entries are the offsets from 0 to the total light count minus one,
and `numEmissionThing` is the total light count. -/
theorem C17_visible_list_has_one_entry_per_task (fo : FloatOps F) (P : Platform F)
    (st : PassState) (scene : Scene F) (lights : List (Light F)) (flag : Bool) :
    (Process fo P st scene lights flag).visibleLightIndex =
      (Process fo P st scene lights flag).tasks.map PrepareLightsTask.lightBufferOffset ∧
    (Process fo P st scene lights flag).visibleLightIndex.length =
      (emissiveEntries fo scene).length + (encodedLights fo P flag lights).length ∧
    (Process fo P st scene lights flag).outFrameParameters.numEmissionThing =
      toU32 ((emissiveEntries fo scene).length + (encodedLights fo P flag lights).length) ∧
    ((∀ e ∈ emissiveEntries fo scene, e.triangleCount = 1) →
      (emissiveEntries fo scene).length + (encodedLights fo P flag lights).length
        < 4294967296 →
      (Process fo P st scene lights flag).visibleLightIndex =
        List.range (Process fo P st scene lights flag).lightBufferOffset ∧
      (Process fo P st scene lights flag).outFrameParameters.numEmissionThing =
        (Process fo P st scene lights flag).lightBufferOffset) := by
  have hv := Process_visible fo P st scene lights flag
  obtain ⟨lnew, h1, h2, h3, h4, -⟩ := Process_tasks_split fo P st scene lights flag
  have hlen : (Process fo P st scene lights flag).tasks.length =
      (emissiveEntries fo scene).length + (encodedLights fo P flag lights).length := by
    rw [h1, List.length_append, geometryPass_tasks_length, h3]
  have hvl : (Process fo P st scene lights flag).visibleLightIndex.length =
      (emissiveEntries fo scene).length + (encodedLights fo P flag lights).length := by
    rw [hv, List.length_map, hlen]
  have hnum : (Process fo P st scene lights flag).outFrameParameters.numEmissionThing =
      toU32 (Process fo P st scene lights flag).visibleLightIndex.length := rfl
  refine ⟨hv, hvl, by rw [hnum, hvl], ?_⟩
  intro hone hfit
  have hall : ∀ t ∈ (Process fo P st scene lights flag).tasks, t.triangleCount = 1 := by
    intro t ht
    rw [h1] at ht
    rcases List.mem_append.mp ht with hg | hl
    · have hm : t.triangleCount ∈
          (geometryPass fo P st scene).tasks.map PrepareLightsTask.triangleCount :=
        List.mem_map_of_mem _ hg
      rw [h2] at hm
      obtain ⟨e, he, hec⟩ := List.mem_map.mp hm
      rw [← hec]
      exact hone e he
    · exact h4 t hl
  obtain ⟨u1, u2⟩ := (Process_chain fo P st scene lights flag).unit_offsets hall
    (by rw [hlen]; omega)
  rw [hv, u1, u2, hnum, hvl, ← hlen, Nat.zero_add, List.range_eq_range']
  refine ⟨rfl, toU32_of_lt (by rw [hlen]; exact hfit)⟩

/-- C17, witness: the frame with one emissive geometry of 3 indices, one
triangle, and the example lights: five slots, and the visible-light list holds
the offsets 0 to 4. -/
theorem C17_visible_list_has_one_entry_per_task_witness :
    (Process intOps (refPlatform insertionSortFront) (freshState 1000)
      (oneInstanceScene [(emissiveMaterial, 3)]) exampleLights true).lightBufferOffset = 5 ∧
    (Process intOps (refPlatform insertionSortFront) (freshState 1000)
      (oneInstanceScene [(emissiveMaterial, 3)]) exampleLights true).visibleLightIndex =
      List.range (Process intOps (refPlatform insertionSortFront) (freshState 1000)
        (oneInstanceScene [(emissiveMaterial, 3)]) exampleLights true).lightBufferOffset :=
  ⟨by decide,
    ((C17_visible_list_has_one_entry_per_task intOps (refPlatform insertionSortFront)
      (freshState 1000) (oneInstanceScene [(emissiveMaterial, 3)]) exampleLights true).2.2.2
      (by decide) (by decide)).1⟩

/-! Lemmas: the colour packing -/

/-- The function `packLightColor` in terms of its locals. -/
theorem packLightColor_eq (fo : FloatOps F) (P : Platform F) (color : Float3 F)
    (lightInfo : PolymorphicLightInfo F) :
    packLightColor fo P color lightInfo =
      if fo.le (maxRadiance fo color) fo.zero then lightInfo
      else
        { lightInfo with
          colorTypeAndFlags := lightInfo.colorTypeAndFlags |||
            FLOAT3_to_R8G8B8_UNORM fo
              (fo.div color.x (unpackedRadiance fo P (packedRadiance fo P (maxRadiance fo color))))
              (fo.div color.y (unpackedRadiance fo P (packedRadiance fo P (maxRadiance fo color))))
              (fo.div color.z (unpackedRadiance fo P (packedRadiance fo P (maxRadiance fo color))))
          logRadiance := lightInfo.logRadiance ||| packedRadiance fo P (maxRadiance fo color) } :=
  rfl

/-- The call `std::max(a, b)` returns one of its arguments. -/
theorem fmax_eq_or (fo : FloatOps F) (a b : F) : fmax fo a b = a ∨ fmax fo a b = b := by
  unfold fmax
  split
  · exact Or.inr rfl
  · exact Or.inl rfl

/-- The local `maxRadiance` is one of the three channels. -/
theorem maxRadiance_eq_or (fo : FloatOps F) (color : Float3 F) :
    maxRadiance fo color = color.x ∨ maxRadiance fo color = color.y ∨
      maxRadiance fo color = color.z := by
  unfold maxRadiance
  rcases fmax_eq_or fo color.x (fmax fo color.y color.z) with h | h
  · exact Or.inl h
  · rcases fmax_eq_or fo color.y color.z with h2 | h2
    · exact Or.inr (Or.inl (h.trans h2))
    · exact Or.inr (Or.inr (h.trans h2))

/-- C18: a colour whose largest channel is `<= 0` leaves the light record
unchanged. For every implementation of the float operations, every colour and
every record: if the test `maxRadiance <= 0.f` of `packLightColor` holds for
the maximum that the code computes, or if it holds for each of the three
channels, then `packLightColor` returns the record it was given, with every
field as before; this is the case for the all-zero colour as soon as
`0.f <= 0.f` holds; and on a freshly initialised record that carries a type
tag the word `colorTypeAndFlags` is still the tag (no colour bits) and
`logRadiance` is still 0. -/
theorem C18_dark_colour_leaves_record (fo : FloatOps F) (P : Platform F) (color : Float3 F)
    (lightInfo : PolymorphicLightInfo F) (tag : Nat)
    (h : fo.le (maxRadiance fo color) fo.zero = true ∨
      (fo.le color.x fo.zero = true ∧ fo.le color.y fo.zero = true ∧
        fo.le color.z fo.zero = true)) :
    packLightColor fo P color lightInfo = lightInfo ∧
    (fo.le fo.zero fo.zero = true →
      packLightColor fo P ⟨fo.zero, fo.zero, fo.zero⟩ lightInfo = lightInfo) ∧
    (packLightColor fo P color
      { PolymorphicLightInfo.init fo with colorTypeAndFlags := tag }).colorTypeAndFlags = tag ∧
    (packLightColor fo P color
      { PolymorphicLightInfo.init fo with colorTypeAndFlags := tag }).logRadiance = 0 := by
  have hmax : fo.le (maxRadiance fo color) fo.zero = true := by
    rcases h with h | ⟨hx, hy, hz⟩
    · exact h
    · rcases maxRadiance_eq_or fo color with e | e | e <;> rw [e] <;> assumption
  have key : ∀ li : PolymorphicLightInfo F, packLightColor fo P color li = li := by
    intro li
    rw [packLightColor_eq, if_pos hmax]
  refine ⟨key _, ?_, ?_, ?_⟩
  · intro h0
    rw [packLightColor_eq, if_pos]
    rcases maxRadiance_eq_or fo ⟨fo.zero, fo.zero, fo.zero⟩ with e | e | e <;> rw [e] <;> exact h0
  · rw [key]
  · rw [key]; rfl

/-- C18, witness: with the integer stand-in for the floats the colour
`(-1, 0, -3)` leaves a record tagged 7 in the top byte as it was. -/
theorem C18_dark_colour_leaves_record_witness :
    packLightColor intOps (refPlatform insertionSortFront) ⟨-1, 0, -3⟩
        { PolymorphicLightInfo.init intOps with colorTypeAndFlags := 117440512 } =
      { PolymorphicLightInfo.init intOps with colorTypeAndFlags := 117440512 } ∧
    (intOps.le intOps.zero intOps.zero = true →
      packLightColor intOps (refPlatform insertionSortFront) ⟨intOps.zero, intOps.zero, intOps.zero⟩
          { PolymorphicLightInfo.init intOps with colorTypeAndFlags := 117440512 } =
        { PolymorphicLightInfo.init intOps with colorTypeAndFlags := 117440512 }) ∧
    (packLightColor intOps (refPlatform insertionSortFront) ⟨-1, 0, -3⟩
      { PolymorphicLightInfo.init intOps with colorTypeAndFlags := 117440512 }).colorTypeAndFlags
        = 117440512 ∧
    (packLightColor intOps (refPlatform insertionSortFront) ⟨-1, 0, -3⟩
      { PolymorphicLightInfo.init intOps with colorTypeAndFlags := 117440512 }).logRadiance = 0 :=
  C18_dark_colour_leaves_record intOps (refPlatform insertionSortFront) ⟨-1, 0, -3⟩
    { PolymorphicLightInfo.init intOps with colorTypeAndFlags := 117440512 } 117440512
    (Or.inr ⟨by decide, by decide, by decide⟩)

theorem fmax_exact {K : Type} [LinearOrderedField K] [FloorRing K] (tr : Transcendental K)
    (a b : K) : fmax (exactOps K tr) a b = max a b := by
  simp only [fmax, exactOps, decide_eq_true_eq]
  split
  · rename_i h; exact (max_eq_right h.le).symm
  · rename_i h; exact (max_eq_left (not_lt.mp h)).symm

/-- In exact arithmetic the local `maxRadiance` is the largest channel. -/
theorem maxRadiance_exact {K : Type} [LinearOrderedField K] [FloorRing K] (tr : Transcendental K)
    (color : Float3 K) :
    maxRadiance (exactOps K tr) color = max color.x (max color.y color.z) := by
  simp only [maxRadiance, fmax_exact]

/-- In exact arithmetic the local `packedRadiance` is one more than the ceiling
of 65534 times the clamped normalised logarithm, which is at most 65534. -/
theorem packedRadiance_exact {K : Type} [LinearOrderedField K] [FloorRing K]
    (tr : Transcendental K) (P : Platform K) (m : K) :
    ∃ c : Nat, c ≤ 65534 ∧ packedRadiance (exactOps K tr) P m = c + 1 ∧
      (c : Int) = ⌈max 0 (min ((tr.log2f m - P.kPolymorphicLightMinLog2Radiance) /
        (P.kPolymorphicLightMaxLog2Radiance - P.kPolymorphicLightMinLog2Radiance)) 1) *
          65534⌉ := by
  set s : K := max 0 (min ((tr.log2f m - P.kPolymorphicLightMinLog2Radiance) /
        (P.kPolymorphicLightMaxLog2Radiance - P.kPolymorphicLightMinLog2Radiance)) 1) with hs
  have s0 : 0 ≤ s := le_max_left _ _
  have s1 : s ≤ 1 := max_le zero_le_one (min_le_right _ _)
  have c0 : 0 ≤ ⌈s * 65534⌉ := Int.ceil_nonneg (by positivity)
  have c1 : ⌈s * 65534⌉ ≤ 65534 := by
    apply Int.ceil_le.mpr
    push_cast
    nlinarith
  refine ⟨Int.toNat ⌈s * 65534⌉, by omega, ?_, by omega⟩
  have e : packedRadiance (exactOps K tr) P m =
      min (toU32 (toU32 (Int.toNat ⌊((⌈s * 65534⌉ : Int) : K)⌋) + 1)) 65535 := by
    simp only [packedRadiance, exactOps, hs]
    norm_num
  rw [e, Int.floor_intCast]
  have b : Int.toNat ⌈s * 65534⌉ ≤ 65534 := by omega
  have t1 : toU32 (Int.toNat ⌈s * 65534⌉) = Int.toNat ⌈s * 65534⌉ := toU32_of_lt (by omega)
  rw [t1, toU32_of_lt (by omega)]
  omega

/-- In exact arithmetic the local `unpackedRadiance` for the quantised value
`c + 1` is `exp2f` at the point `c / 65534` of the range of logarithms. -/
theorem unpackedRadiance_exact {K : Type} [LinearOrderedField K] [FloorRing K]
    (tr : Transcendental K) (P : Platform K) (c : Nat) (hc : c ≤ 65534) :
    unpackedRadiance (exactOps K tr) P (c + 1) =
      tr.exp2f ((c : K) / 65534 * (P.kPolymorphicLightMaxLog2Radiance -
        P.kPolymorphicLightMinLog2Radiance) + P.kPolymorphicLightMinLog2Radiance) := by
  have e : toU32 (c + 1 + 4294967295) = c := by unfold toU32; omega
  simp only [unpackedRadiance, exactOps, e]
  norm_num

/-! Lemmas: the piecewise linear stand-ins for `exp2f` and `log2f` -/

theorem segmentExp2_pos (t : ℚ) : 0 < segmentExp2 t := by
  unfold segmentExp2
  have h1 : (0 : ℚ) < 2 ^ ⌊t⌋ := zpow_pos (by norm_num) _
  have h2 : 0 ≤ Int.fract t := Int.fract_nonneg t
  positivity

theorem segmentExp2_bounds (t : ℚ) :
    (2 : ℚ) ^ ⌊t⌋ ≤ segmentExp2 t ∧ segmentExp2 t < (2 : ℚ) ^ (⌊t⌋ + 1) := by
  unfold segmentExp2
  have h1 : (0 : ℚ) < 2 ^ ⌊t⌋ := zpow_pos (by norm_num) _
  have h2 : 0 ≤ Int.fract t := Int.fract_nonneg t
  have h3 : Int.fract t < 1 := Int.fract_lt_one t
  have h4 : (2 : ℚ) ^ (⌊t⌋ + 1) = 2 ^ ⌊t⌋ * 2 := by
    rw [zpow_add₀ (by norm_num : (2 : ℚ) ≠ 0), zpow_one]
  rw [h4]
  constructor
  · nlinarith
  · nlinarith

theorem log_segmentExp2 (t : ℚ) : Int.log 2 (segmentExp2 t) = ⌊t⌋ := by
  obtain ⟨b1, b2⟩ := segmentExp2_bounds t
  have hp := segmentExp2_pos t
  have l1 : ⌊t⌋ ≤ Int.log 2 (segmentExp2 t) :=
    (Int.zpow_le_iff_le_log (by norm_num) hp).mp (by simpa using b1)
  have l2 : Int.log 2 (segmentExp2 t) < ⌊t⌋ + 1 :=
    (Int.lt_zpow_iff_log_lt (by norm_num) hp).mp (by simpa using b2)
  omega

/-- The stand-in for `log2f` inverts the stand-in for `exp2f`. -/
theorem segmentLog2_segmentExp2 (t : ℚ) : segmentLog2 (segmentExp2 t) = t := by
  have hp : (0 : ℚ) < 2 ^ ⌊t⌋ := zpow_pos (by norm_num) _
  unfold segmentLog2
  rw [log_segmentExp2]
  unfold segmentExp2
  rw [mul_div_cancel_left₀ _ hp.ne.symm]
  have := Int.floor_add_fract t
  linarith

/-- The stand-in for `exp2f` inverts the stand-in for `log2f` on the positive
rationals. -/
theorem segmentExp2_segmentLog2 (m : ℚ) (hm : 0 < m) : segmentExp2 (segmentLog2 m) = m := by
  have hp : (0 : ℚ) < 2 ^ Int.log 2 m := zpow_pos (by norm_num) _
  have b1 : (2 : ℚ) ^ Int.log 2 m ≤ m := by
    simpa using Int.zpow_log_le_self (by norm_num : 1 < 2) hm
  have b2 : m < (2 : ℚ) ^ Int.log 2 m * 2 := by
    have := Int.lt_zpow_succ_log_self (by norm_num : 1 < 2) m
    rw [zpow_add₀ (by norm_num), zpow_one] at this
    simpa using this
  have g0 : 0 ≤ m / (2 : ℚ) ^ Int.log 2 m - 1 := by
    rw [sub_nonneg, le_div_iff₀ hp]; linarith
  have g1 : m / (2 : ℚ) ^ Int.log 2 m - 1 < 1 := by
    rw [sub_lt_iff_lt_add, div_lt_iff₀ hp]; linarith
  have hfl : ⌊segmentLog2 m⌋ = Int.log 2 m := by
    unfold segmentLog2
    rw [Int.floor_int_add, Int.floor_eq_zero_iff.mpr ⟨g0, g1⟩, add_zero]
  have hfr : Int.fract (segmentLog2 m) = m / (2 : ℚ) ^ Int.log 2 m - 1 := by
    unfold segmentLog2
    rw [Int.fract_int_add, Int.fract_eq_self.mpr ⟨g0, g1⟩]
  unfold segmentExp2
  rw [hfl, hfr]
  field_simp

theorem segmentExp2_mono (a b : ℚ) (h : a ≤ b) : segmentExp2 a ≤ segmentExp2 b := by
  rcases (Int.floor_mono h).lt_or_eq with hlt | heq
  · have h1 := (segmentExp2_bounds a).2
    have h2 := (segmentExp2_bounds b).1
    have h3 : (2 : ℚ) ^ (⌊a⌋ + 1) ≤ 2 ^ ⌊b⌋ :=
      zpow_le_zpow_right₀ (by norm_num) (by omega)
    linarith
  · unfold segmentExp2
    rw [heq]
    have hp : (0 : ℚ) < 2 ^ ⌊b⌋ := zpow_pos (by norm_num) _
    have : Int.fract a ≤ Int.fract b := by
      unfold Int.fract
      rw [heq]
      linarith
    nlinarith

theorem segmentLog2_mono (a b : ℚ) (ha : 0 < a) (h : a ≤ b) : segmentLog2 a ≤ segmentLog2 b := by
  by_contra hc
  have hlt : segmentLog2 b < segmentLog2 a := not_le.mp hc
  have h1 := segmentExp2_mono _ _ hlt.le
  rw [segmentExp2_segmentLog2 a ha, segmentExp2_segmentLog2 b (lt_of_lt_of_le ha h)] at h1
  have : a = b := le_antisymm h h1
  rw [this] at hlt
  exact lt_irrefl _ hlt

theorem packedRadiance_rat_65536 : packedRadiance ratOps ratPlatform 65536 = 32768 := by
  have h : Int.log 2 (65536 : ℚ) = 16 := by
    have : (65536 : ℚ) = ((2 : ℕ) : ℚ) ^ (16 : ℤ) := by norm_num
    rw [this, Int.log_zpow (by norm_num)]
  have hl : segmentLog2 65536 = 16 := by
    simp only [segmentLog2, h]
    norm_num
  obtain ⟨c, c1, c2, c3⟩ := packedRadiance_exact segmentTranscendental ratPlatform 65536
  have e : segmentTranscendental.log2f 65536 = 16 := hl
  rw [e] at c3
  have : ⌈max (0 : ℚ) (min ((16 - ratPlatform.kPolymorphicLightMinLog2Radiance) /
        (ratPlatform.kPolymorphicLightMaxLog2Radiance -
          ratPlatform.kPolymorphicLightMinLog2Radiance)) 1) * 65534⌉ = 32767 := by
    simp only [ratPlatform]
    norm_num
  rw [this] at c3
  unfold ratOps
  omega
theorem segmentLog2_zpow (n : Int) : segmentLog2 ((2 : ℚ) ^ n) = n := by
  have h : Int.log 2 ((2 : ℚ) ^ n) = n := by
    have := Int.log_zpow (R := ℚ) (b := 2) (by norm_num) n
    simpa using this
  have hp : (0 : ℚ) < 2 ^ n := zpow_pos (by norm_num) _
  simp only [segmentLog2, h]
  rw [div_self hp.ne.symm]
  ring

theorem segmentExp2_intCast (n : Int) : segmentExp2 (n : ℚ) = (2 : ℚ) ^ n := by
  simp [segmentExp2]

/-- The colour scale of the examples for a largest channel of `2^16`. -/
theorem colorScale_rat_65536 (y z : ℚ) (hy : y ≤ 65536) (hz : z ≤ 65536) :
    colorScale ratOps ratPlatform ⟨65536, y, z⟩ = 65536 := by
  have hm : maxRadiance ratOps (⟨65536, y, z⟩ : Float3 ℚ) = 65536 := by
    unfold ratOps
    rw [maxRadiance_exact]
    simp [hy, hz]
  unfold colorScale
  rw [hm, packedRadiance_rat_65536]
  have := unpackedRadiance_exact segmentTranscendental ratPlatform 32767 (by norm_num)
  unfold ratOps
  rw [this]
  have e : ((32767 : Nat) : ℚ) / 65534 * (ratPlatform.kPolymorphicLightMaxLog2Radiance -
      ratPlatform.kPolymorphicLightMinLog2Radiance) +
      ratPlatform.kPolymorphicLightMinLog2Radiance = ((16 : Int) : ℚ) := by
    simp only [ratPlatform]
    norm_num
  rw [e]
  have := segmentExp2_intCast 16
  simp only [segmentTranscendental]
  rw [this]
  norm_num

/-- The colour scale of the examples for a largest channel of `2^41`, which is
above `2^40`: the scale is `2^40`. -/
theorem colorScale_rat_above (y z : ℚ) (hy : y ≤ 2199023255552) (hz : z ≤ 2199023255552) :
    colorScale ratOps ratPlatform ⟨2199023255552, y, z⟩ = 1099511627776 := by
  have hm : maxRadiance ratOps (⟨2199023255552, y, z⟩ : Float3 ℚ) = 2199023255552 := by
    unfold ratOps
    rw [maxRadiance_exact]
    simp [hy, hz]
  have hl : segmentLog2 2199023255552 = 41 := by
    have := segmentLog2_zpow 41
    norm_num at this
    exact this
  have hp : packedRadiance ratOps ratPlatform 2199023255552 = 65535 := by
    obtain ⟨c, c1, c2, c3⟩ := packedRadiance_exact segmentTranscendental ratPlatform 2199023255552
    have e : segmentTranscendental.log2f 2199023255552 = 41 := hl
    rw [e] at c3
    have : ⌈max (0 : ℚ) (min ((41 - ratPlatform.kPolymorphicLightMinLog2Radiance) /
          (ratPlatform.kPolymorphicLightMaxLog2Radiance -
            ratPlatform.kPolymorphicLightMinLog2Radiance)) 1) * 65534⌉ = 65534 := by
      simp only [ratPlatform]
      norm_num
    rw [this] at c3
    unfold ratOps
    omega
  unfold colorScale
  rw [hm, hp]
  have := unpackedRadiance_exact segmentTranscendental ratPlatform 65534 (by norm_num)
  unfold ratOps
  rw [this]
  have e : ((65534 : Nat) : ℚ) / 65534 * (ratPlatform.kPolymorphicLightMaxLog2Radiance -
      ratPlatform.kPolymorphicLightMinLog2Radiance) +
      ratPlatform.kPolymorphicLightMinLog2Radiance = ((40 : Int) : ℚ) := by
    simp only [ratPlatform]
    norm_num
  rw [e]
  have := segmentExp2_intCast 40
  simp only [segmentTranscendental]
  rw [this]
  norm_num

/-- C20, counterexample: channel ratios outside the interval from 0 to 1. In
exact arithmetic with the header constants -8 and 40, the colour
`(65536, -65536, 0)` has largest channel `2^16 > 0`, quantised value 32768 and
scale `2^16`, so the ratio of its second channel is -1; the colour
`(2^41, 0, 0)` has quantised value 65535 and scale `2^40`, so the ratio of its
first channel is 2. (Every step of the two computations is exact in binary32
as well.) -/
theorem C20_counterexample :
    0 < maxRadiance ratOps (⟨65536, -65536, 0⟩ : Float3 ℚ) ∧
    packedRadiance ratOps ratPlatform (maxRadiance ratOps (⟨65536, -65536, 0⟩ : Float3 ℚ))
      = 32768 ∧
    ratOps.div (-65536) (colorScale ratOps ratPlatform ⟨65536, -65536, 0⟩) = -1 ∧
    0 < maxRadiance ratOps (⟨2199023255552, 0, 0⟩ : Float3 ℚ) ∧
    ratOps.div 2199023255552 (colorScale ratOps ratPlatform ⟨2199023255552, 0, 0⟩) = 2 := by
  have hm : maxRadiance ratOps (⟨65536, -65536, 0⟩ : Float3 ℚ) = 65536 := by
    unfold ratOps
    rw [maxRadiance_exact]
    norm_num
  have hm2 : maxRadiance ratOps (⟨2199023255552, 0, 0⟩ : Float3 ℚ) = 2199023255552 := by
    unfold ratOps
    rw [maxRadiance_exact]
    norm_num
  rw [colorScale_rat_65536 _ _ (by norm_num) (by norm_num),
    colorScale_rat_above _ _ (by norm_num) (by norm_num), hm, hm2, packedRadiance_rat_65536]
  refine ⟨by norm_num, rfl, ?_, by norm_num, ?_⟩
  · show (-65536 : ℚ) / 65536 = -1
    norm_num
  · show (2199023255552 : ℚ) / 1099511627776 = 2
    norm_num
/-! Lemmas: the environment light record -/

theorem fp32ToFp16_lt (fo : FloatOps F) (v : F) : fp32ToFp16 fo v < 65536 := by
  unfold fp32ToFp16
  exact lt_of_le_of_lt Nat.and_le_right (by norm_num)

/-- Setting bit 16 of a 16-bit value adds `2^16` to it. -/
theorem or_bit16 (a : Nat) (h : a < 65536) : a ||| (1 <<< 16) = 65536 + a := by
  have h2 : (1 <<< 16 : Nat) = 2 ^ 16 * 1 := by decide
  have h3 : a < 2 ^ 16 := by omega
  rw [h2, Nat.or_comm, ← Nat.mul_add_lt_is_or h3]

/-- The word `scalars` of the record of an environment light with a texture. -/
theorem ConvertLight_environment (fo : FloatOps F) (P : Platform F) (ptr : Nat)
    (textureIndex : Int) (radianceScale : Float3 F) (rotation : F)
    (polymorphic : PolymorphicLightInfo F) (flag : Bool) (ht : 0 ≤ textureIndex) :
    (ConvertLight fo P ⟨ptr, .Environment textureIndex radianceScale rotation⟩ polymorphic
      flag).1 = true ∧
    (ConvertLight fo P ⟨ptr, .Environment textureIndex radianceScale rotation⟩ polymorphic
      flag).2.scalars =
        (if flag then fp32ToFp16 fo rotation ||| (1 <<< 16) else fp32ToFp16 fo rotation) ∧
    (ConvertLight fo P ⟨ptr, .Environment textureIndex radianceScale rotation⟩ polymorphic
      flag).2.direction1 = toU32 (Int.toNat textureIndex) := by
  simp only [ConvertLight, if_neg (not_lt.mpr ht)]
  cases flag <;> simp

/-- The function `unitVectorToOctahedron` in exact arithmetic, upper
hemisphere. -/
theorem unitVectorToOctahedron_upper {K : Type} [LinearOrderedField K] [FloorRing K]
    (tr : Transcendental K) (N : Float3 K) (hz : 0 < N.z) :
    unitVectorToOctahedron (exactOps K tr) N =
      (N.x / (|N.x| + |N.y| + |N.z|), N.y / (|N.x| + |N.y| + |N.z|)) := by
  simp only [unitVectorToOctahedron, exactOps, decide_eq_true_eq, if_neg (not_le.mpr hz)]

/-- The function `unitVectorToOctahedron` in exact arithmetic, lower
hemisphere. -/
theorem unitVectorToOctahedron_lower {K : Type} [LinearOrderedField K] [FloorRing K]
    (tr : Transcendental K) (N : Float3 K) (hz : N.z ≤ 0) :
    unitVectorToOctahedron (exactOps K tr) N =
      ((1 - |N.y / (|N.x| + |N.y| + |N.z|)|) *
          (if 0 ≤ N.x / (|N.x| + |N.y| + |N.z|) then 1 else -1),
        (1 - |N.x / (|N.x| + |N.y| + |N.z|)|) *
          (if 0 ≤ N.y / (|N.x| + |N.y| + |N.z|) then 1 else -1)) := by
  simp only [unitVectorToOctahedron, exactOps, decide_eq_true_eq, if_pos hz]

theorem abs_sign_factor {K : Type} [LinearOrderedField K] (c : Prop) [Decidable c] :
    |(if c then (1 : K) else -1)| = 1 := by
  split <;> simp
/-- The range of the octahedral mapping in exact arithmetic. -/
theorem octahedron_range {K : Type} [LinearOrderedField K] [FloorRing K]
    (tr : Transcendental K) (N : Float3 K) (hN : |N.x| + |N.y| + |N.z| ≠ 0) :
    |(unitVectorToOctahedron (exactOps K tr) N).1| ≤ 1 ∧
    |(unitVectorToOctahedron (exactOps K tr) N).2| ≤ 1 ∧
    (0 < N.z → |(unitVectorToOctahedron (exactOps K tr) N).1| +
      |(unitVectorToOctahedron (exactOps K tr) N).2| < 1) ∧
    (N.z ≤ 0 → 1 ≤ |(unitVectorToOctahedron (exactOps K tr) N).1| +
      |(unitVectorToOctahedron (exactOps K tr) N).2|) := by
  have hx := abs_nonneg N.x
  have hy := abs_nonneg N.y
  have hz := abs_nonneg N.z
  have hm : 0 < |N.x| + |N.y| + |N.z| := lt_of_le_of_ne (by positivity) (Ne.symm hN)
  have ax : |N.x / (|N.x| + |N.y| + |N.z|)| = |N.x| / (|N.x| + |N.y| + |N.z|) := by
    rw [abs_div, abs_of_pos hm]
  have ay : |N.y / (|N.x| + |N.y| + |N.z|)| = |N.y| / (|N.x| + |N.y| + |N.z|) := by
    rw [abs_div, abs_of_pos hm]
  have bx : |N.x| / (|N.x| + |N.y| + |N.z|) ≤ 1 := by
    rw [div_le_one hm]; linarith
  have by1 : |N.y| / (|N.x| + |N.y| + |N.z|) ≤ 1 := by
    rw [div_le_one hm]; linarith
  have cx : 0 ≤ |N.x| / (|N.x| + |N.y| + |N.z|) := by positivity
  have cy : 0 ≤ |N.y| / (|N.x| + |N.y| + |N.z|) := by positivity
  have hsum : |N.x| / (|N.x| + |N.y| + |N.z|) + |N.y| / (|N.x| + |N.y| + |N.z|) ≤ 1 := by
    rw [← add_div, div_le_one hm]; linarith
  by_cases hzpos : 0 < N.z
  · rw [unitVectorToOctahedron_upper tr N hzpos]
    simp only [ax, ay]
    refine ⟨bx, by1, ?_, fun h => absurd hzpos (not_lt.mpr h)⟩
    intro _
    rw [← add_div, div_lt_one hm, abs_of_pos hzpos]
    linarith
  · have hzle : N.z ≤ 0 := not_lt.mp hzpos
    rw [unitVectorToOctahedron_lower tr N hzle]
    simp only [abs_mul, abs_sign_factor, mul_one, ax, ay]
    rw [abs_of_nonneg (by linarith : 0 ≤ 1 - |N.y| / (|N.x| + |N.y| + |N.z|)),
      abs_of_nonneg (by linarith : 0 ≤ 1 - |N.x| / (|N.x| + |N.y| + |N.z|))]
    refine ⟨by linarith, by linarith, fun h => absurd h hzpos, fun _ => by linarith⟩

/-- The octahedral mapping in exact arithmetic is injective on the unit
vectors of the upper hemisphere. -/
theorem octahedron_injective {K : Type} [LinearOrderedField K] [FloorRing K]
    (tr : Transcendental K) (N N2 : Float3 K)
    (hu : N.x ^ 2 + N.y ^ 2 + N.z ^ 2 = 1) (hu2 : N2.x ^ 2 + N2.y ^ 2 + N2.z ^ 2 = 1)
    (hz : 0 < N.z) (hz2 : 0 < N2.z)
    (h : unitVectorToOctahedron (exactOps K tr) N = unitVectorToOctahedron (exactOps K tr) N2) :
    N = N2 := by
  obtain ⟨x, y, z⟩ := N
  obtain ⟨x2, y2, z2⟩ := N2
  simp only at hu hu2 hz hz2
  rw [unitVectorToOctahedron_upper tr _ hz, unitVectorToOctahedron_upper tr _ hz2] at h
  simp only [Prod.mk.injEq, abs_of_pos hz, abs_of_pos hz2] at h
  obtain ⟨h1, h2⟩ := h
  have hm : 0 < |x| + |y| + z := by positivity
  have hm2 : 0 < |x2| + |y2| + z2 := by positivity
  rw [div_eq_div_iff hm.ne.symm hm2.ne.symm] at h1 h2
  have a1 : |x| * (|x2| + |y2| + z2) = |x2| * (|x| + |y| + z) := by
    have := congrArg (fun t => |t|) h1
    simpa only [abs_mul, abs_of_pos hm, abs_of_pos hm2] using this
  have a2 : |y| * (|x2| + |y2| + z2) = |y2| * (|x| + |y| + z) := by
    have := congrArg (fun t => |t|) h2
    simpa only [abs_mul, abs_of_pos hm, abs_of_pos hm2] using this
  have h3 : z * (|x2| + |y2| + z2) = z2 * (|x| + |y| + z) := by
    linear_combination (-1 : K) * a1 - a2
  have hsq : (|x2| + |y2| + z2) ^ 2 = (|x| + |y| + z) ^ 2 := by
    have e1 : (x * (|x2| + |y2| + z2)) ^ 2 = (x2 * (|x| + |y| + z)) ^ 2 := by rw [h1]
    have e2 : (y * (|x2| + |y2| + z2)) ^ 2 = (y2 * (|x| + |y| + z)) ^ 2 := by rw [h2]
    have e3 : (z * (|x2| + |y2| + z2)) ^ 2 = (z2 * (|x| + |y| + z)) ^ 2 := by rw [h3]
    linear_combination e1 + e2 + e3 - (|x2| + |y2| + z2) ^ 2 * hu + (|x| + |y| + z) ^ 2 * hu2
  have hmm : |x2| + |y2| + z2 = |x| + |y| + z := by
    have hd : (|x2| + |y2| + z2 - (|x| + |y| + z)) * (|x2| + |y2| + z2 + (|x| + |y| + z)) = 0 := by
      linear_combination hsq
    rcases mul_eq_zero.mp hd with h0 | h0
    · linarith
    · linarith
  rw [hmm] at h1 h2 h3
  have f1 := mul_right_cancel₀ hm.ne.symm h1
  have f2 := mul_right_cancel₀ hm.ne.symm h2
  have f3 := mul_right_cancel₀ hm.ne.symm h3
  rw [f1, f2, f3]
/-- C22: the octahedral mapping over exact arithmetic (any ordered field with a
floor function, in particular the real numbers). Two unit vectors of the upper
hemisphere (`z > 0`) with the same image under `unitVectorToOctahedron` are
equal. For every vector `N` with `|x| + |y| + |z|` not zero both components of
the image lie between -1 and 1; the image `(X, Y)` has `|X| + |Y| < 1` when
`z > 0` and `|X| + |Y| >= 1` when `z <= 0`; so a vector with `z > 0` and a
vector with `z <= 0` never have the same image. -/
theorem C22_octahedron_upper_hemisphere {K : Type} [LinearOrderedField K] [FloorRing K]
    (tr : Transcendental K) (N N2 : Float3 K) (hN : |N.x| + |N.y| + |N.z| ≠ 0) :
    (N.x ^ 2 + N.y ^ 2 + N.z ^ 2 = 1 → N2.x ^ 2 + N2.y ^ 2 + N2.z ^ 2 = 1 →
      0 < N.z → 0 < N2.z →
      unitVectorToOctahedron (exactOps K tr) N = unitVectorToOctahedron (exactOps K tr) N2 →
      N = N2) ∧
    -1 ≤ (unitVectorToOctahedron (exactOps K tr) N).1 ∧
    (unitVectorToOctahedron (exactOps K tr) N).1 ≤ 1 ∧
    -1 ≤ (unitVectorToOctahedron (exactOps K tr) N).2 ∧
    (unitVectorToOctahedron (exactOps K tr) N).2 ≤ 1 ∧
    (0 < N.z → |(unitVectorToOctahedron (exactOps K tr) N).1| +
      |(unitVectorToOctahedron (exactOps K tr) N).2| < 1) ∧
    (N.z ≤ 0 → 1 ≤ |(unitVectorToOctahedron (exactOps K tr) N).1| +
      |(unitVectorToOctahedron (exactOps K tr) N).2|) ∧
    (|N2.x| + |N2.y| + |N2.z| ≠ 0 → 0 < N.z → N2.z ≤ 0 →
      unitVectorToOctahedron (exactOps K tr) N ≠ unitVectorToOctahedron (exactOps K tr) N2) := by
  obtain ⟨r1, r2, r3, r4⟩ := octahedron_range tr N hN
  refine ⟨octahedron_injective tr N N2, (abs_le.mp r1).1, (abs_le.mp r1).2, (abs_le.mp r2).1,
    (abs_le.mp r2).2, r3, r4, ?_⟩
  intro hN2 hz hz2 heq
  obtain ⟨-, -, -, s4⟩ := octahedron_range tr N2 hN2
  have a := r3 hz
  have b := s4 hz2
  rw [heq] at a
  linarith

/-- C22, witness: over the rationals the unit vector `(3/5, 0, 4/5)` has an
image with components between -1 and 1 and with `|X| + |Y| < 1`, and it is the
only unit vector of the upper hemisphere with that image. -/
theorem C22_octahedron_upper_hemisphere_witness :
    (((3 / 5 : ℚ)) ^ 2 + (0 : ℚ) ^ 2 + (4 / 5 : ℚ) ^ 2 = 1 →
      ((0 : ℚ)) ^ 2 + (3 / 5 : ℚ) ^ 2 + (4 / 5 : ℚ) ^ 2 = 1 →
      (0 : ℚ) < 4 / 5 → (0 : ℚ) < 4 / 5 →
      unitVectorToOctahedron ratOps ⟨3 / 5, 0, 4 / 5⟩ =
        unitVectorToOctahedron ratOps ⟨0, 3 / 5, 4 / 5⟩ →
      (⟨3 / 5, 0, 4 / 5⟩ : Float3 ℚ) = ⟨0, 3 / 5, 4 / 5⟩) ∧
    (unitVectorToOctahedron ratOps ⟨3 / 5, 0, 4 / 5⟩).1 ≤ 1 ∧
    ((0 : ℚ) < 4 / 5 → |(unitVectorToOctahedron ratOps ⟨3 / 5, 0, 4 / 5⟩).1| +
      |(unitVectorToOctahedron ratOps ⟨3 / 5, 0, 4 / 5⟩).2| < 1) :=
  have h := C22_octahedron_upper_hemisphere segmentTranscendental
    ⟨3 / 5, 0, 4 / 5⟩ ⟨0, 3 / 5, 4 / 5⟩ (by norm_num [abs_of_pos])
  ⟨h.1, h.2.2.1, h.2.2.2.2.2.1⟩

/-- C23: the byte size of the visibility buffer. For both values of
`enableVisibilityVairanceSampling` and all values of `maxEmissiveMeshes` and
`maxPrimitiveLights`, the first argument of `std::max` in the constructor of
`RtxdiResources` is 1 when the flag is set and 0 when it is not (the grid
volume `16 * 16 * 16` and `maxEmissiveLights` are multiplied into the literal 0
of the third operand of the conditional), so it is at most 1 and is not a
positive multiple of the grid volume, and the byte size is
`sizeof(uint32_t) * 2 * 1 = 8`. -/
theorem C23_visibility_buffer_size (enableVisibilityVairanceSampling : Bool)
    (maxEmissiveMeshes maxPrimitiveLights : Nat) :
    visibilityElementCount enableVisibilityVairanceSampling
      (maxEmissiveLights maxEmissiveMeshes maxPrimitiveLights) =
        boolToNat enableVisibilityVairanceSampling ∧
    visibilityElementCount enableVisibilityVairanceSampling
      (maxEmissiveLights maxEmissiveMeshes maxPrimitiveLights) ≤ 1 ∧
    (∀ k : Nat, 0 < k →
      visibilityElementCount enableVisibilityVairanceSampling
        (maxEmissiveLights maxEmissiveMeshes maxPrimitiveLights) ≠ 16 * 16 * 16 * k) ∧
    visibilityBufferByteSize enableVisibilityVairanceSampling maxEmissiveMeshes
      maxPrimitiveLights = 8 := by
  have h : visibilityElementCount enableVisibilityVairanceSampling
      (maxEmissiveLights maxEmissiveMeshes maxPrimitiveLights) =
        boolToNat enableVisibilityVairanceSampling := by
    cases enableVisibilityVairanceSampling <;> simp [visibilityElementCount, boolToNat, toU32]
  have h1 : boolToNat enableVisibilityVairanceSampling ≤ 1 := by
    cases enableVisibilityVairanceSampling <;> simp [boolToNat]
  refine ⟨h, by omega, fun k hk => by omega, ?_⟩
  unfold visibilityBufferByteSize
  rw [h]
  omega

/-! Lemmas: the light counter -/

theorem countGeometryLoop_eq (fo : FloatOps F) (inst : MeshInstance F)
    (gs : List (MeshGeometry F)) (i : Nat) (c : Nat × Nat) :
    countGeometryLoop fo gs c = countEntriesLoop fo (geometryEntriesFrom inst i gs) c := by
  induction gs generalizing i c with
  | nil => rfl
  | cons g gs ih =>
    simp only [countGeometryLoop, geometryEntriesFrom, countEntriesLoop]
    exact ih _ _

theorem countEntriesLoop_append (fo : FloatOps F) (xs ys : List (GeomEntry F)) (c : Nat × Nat) :
    countEntriesLoop fo (xs ++ ys) c = countEntriesLoop fo ys (countEntriesLoop fo xs c) := by
  induction xs generalizing c with
  | nil => rfl
  | cons e es ih => simp only [List.cons_append, countEntriesLoop]; exact ih _

theorem countInstanceLoop_eq (fo : FloatOps F) (insts : List (MeshInstance F)) (c : Nat × Nat) :
    countInstanceLoop fo insts c = countEntriesLoop fo (sceneEntries insts) c := by
  induction insts generalizing c with
  | nil => rfl
  | cons inst rest ih =>
    simp only [countInstanceLoop, sceneEntries, countEntriesLoop_append]
    rw [countGeometryLoop_eq fo inst inst.geometries 0 c]
    exact ih _

/-- The two counters of `CountLightsInScene` in `uint32_t` arithmetic: the
number of counted iterations and their index counts divided by 3, added up. -/
theorem countEntriesLoop_eq (fo : FloatOps F) (es : List (GeomEntry F)) (a b : Nat) :
    countEntriesLoop fo es (toU32 a, toU32 b) =
      (toU32 (a + (es.filter (GeomEntry.counted fo)).length),
        toU32 (b + ((es.filter (GeomEntry.counted fo)).map
          (fun e => e.geometry.numIndices / 3)).sum)) := by
  induction es generalizing a b with
  | nil => simp [countEntriesLoop]
  | cons e es ih =>
    by_cases h : hasEmissiveColor fo e.geometry.material = true
    · have hc : e.counted fo = true := h
      simp only [countEntriesLoop, countStep, List.filter_cons, h, hc, if_true, toU32_add_left,
        List.length_cons, List.map_cons, List.sum_cons]
      rw [ih (a + 1) (b + e.geometry.numIndices / 3)]
      congr 2 <;> omega
    · have hc : ¬ (e.counted fo = true) := h
      simp only [countEntriesLoop, countStep, List.filter_cons, h, hc, if_false]
      exact ih a b

/-- The result of `CountLightsInScene`. -/
theorem CountLightsInScene_eq (fo : FloatOps F) (scene : Scene F) :
    CountLightsInScene fo scene =
      (toU32 (countedEntries fo scene).length,
        toU32 ((countedEntries fo scene).map (fun e => e.geometry.numIndices / 3)).sum) := by
  unfold CountLightsInScene countedEntries
  rw [countInstanceLoop_eq]
  have := countEntriesLoop_eq fo (sceneEntries scene.meshInstances) 0 0
  simpa [toU32] using this

/-- An iteration gets a task exactly when it is counted and its intensity does
not pass the test `emissiveIntensity <= 0.f`. -/
theorem emissive_eq_counted_and (fo : FloatOps F) (e : GeomEntry F) :
    e.emissive fo = (e.counted fo && !fo.le e.geometry.material.emissiveIntensity fo.zero) := by
  simp only [GeomEntry.emissive, notEmissive, GeomEntry.counted, hasEmissiveColor]
  cases fo.ne e.geometry.material.emissiveColor.x fo.zero <;>
    cases fo.ne e.geometry.material.emissiveColor.y fo.zero <;>
    cases fo.ne e.geometry.material.emissiveColor.z fo.zero <;>
    cases fo.le e.geometry.material.emissiveIntensity fo.zero <;> rfl

/-- The counted iterations are those with a task together with those of
non-zero colour whose intensity passes the test `emissiveIntensity <= 0.f`. -/
theorem counted_split (fo : FloatOps F) (es : List (GeomEntry F)) :
    (es.filter (GeomEntry.counted fo)).length =
      (es.filter (GeomEntry.emissive fo)).length +
      (es.filter (fun e => e.counted fo &&
        fo.le e.geometry.material.emissiveIntensity fo.zero)).length ∧
    ((es.filter (GeomEntry.counted fo)).map (fun e => e.geometry.numIndices / 3)).sum =
      ((es.filter (GeomEntry.emissive fo)).map (fun e => e.geometry.numIndices / 3)).sum +
      ((es.filter (fun e => e.counted fo &&
        fo.le e.geometry.material.emissiveIntensity fo.zero)).map
          (fun e => e.geometry.numIndices / 3)).sum := by
  induction es with
  | nil => simp
  | cons e es ih =>
    simp only [List.filter_cons, emissive_eq_counted_and]
    cases h1 : e.counted fo <;>
      cases h2 : fo.le e.geometry.material.emissiveIntensity fo.zero <;>
      simp only [h1, h2, Bool.and_true, Bool.and_false, Bool.not_true, Bool.not_false,
        Bool.false_and, Bool.true_and, Bool.false_eq_true, if_false, if_true, List.length_cons,
        List.map_cons, List.sum_cons] <;>
      simp only [emissive_eq_counted_and] at ih <;> omega

/-- The triangle counts of a list of iterations add up to at most their index
counts divided by 3, with equality when the latter add up to less than `2^32`. -/
theorem triangleCount_sum_le (es : List (GeomEntry F)) :
    (es.map GeomEntry.triangleCount).sum ≤ (es.map (fun e => e.geometry.numIndices / 3)).sum ∧
    ((es.map (fun e => e.geometry.numIndices / 3)).sum < 4294967296 →
      (es.map GeomEntry.triangleCount).sum = (es.map (fun e => e.geometry.numIndices / 3)).sum) := by
  induction es with
  | nil => simp
  | cons e es ih =>
    simp only [List.map_cons, List.sum_cons]
    have h1 : e.triangleCount ≤ e.geometry.numIndices / 3 := by
      unfold GeomEntry.triangleCount toU32
      exact Nat.mod_le _ _
    refine ⟨by omega, ?_⟩
    intro hlt
    have h2 : e.triangleCount = e.geometry.numIndices / 3 := by
      unfold GeomEntry.triangleCount
      exact toU32_of_lt (by omega)
    have := ih.2 (by omega)
    omega
/-- C24: the geometry part of `Process` stays within what `CountLightsInScene`
counts. `CountLightsInScene` counts an iteration of the geometry loops when
`any(emissiveColor != 0.f)`; `Process` builds a task for it when in addition
the test `emissiveIntensity <= 0.f` fails. When the counted geometries and
their index counts divided by 3 add up to less than `2^32` (nothing wraps):
`numEmissiveMeshes` is the number of counted iterations and
`numEmissiveTriangles` their index counts divided by 3, added up; the
iterations with a task are a sublist of the counted ones; the tasks of
`Process` are those of the geometry loops, one per iteration with a task,
followed by one per encoded light; the number of geometry tasks is at most
`numEmissiveMeshes` and the slots allocated to geometries (the cursor after the
geometry loops) are at most `numEmissiveTriangles`; the number of geometry
tasks equals `numEmissiveMeshes` exactly when no counted geometry passes the
test `emissiveIntensity <= 0.f`, in which case the slots equal
`numEmissiveTriangles` as well, so both equalities hold together exactly in
that case. -/
theorem C24_count_bounds_geometry_tasks (fo : FloatOps F) (P : Platform F) (st : PassState)
    (scene : Scene F) (lights : List (Light F)) (flag : Bool)
    (hM : (countedEntries fo scene).length < 4294967296)
    (hT : ((countedEntries fo scene).map (fun e => e.geometry.numIndices / 3)).sum
      < 4294967296) :
    (CountLightsInScene fo scene).1 = (countedEntries fo scene).length ∧
    (CountLightsInScene fo scene).2 =
      ((countedEntries fo scene).map (fun e => e.geometry.numIndices / 3)).sum ∧
    (emissiveEntries fo scene).Sublist (countedEntries fo scene) ∧
    (Process fo P st scene lights flag).tasks.length =
      (emissiveEntries fo scene).length + (encodedLights fo P flag lights).length ∧
    (geometryPass fo P st scene).tasks.length = (emissiveEntries fo scene).length ∧
    (emissiveEntries fo scene).length ≤ (CountLightsInScene fo scene).1 ∧
    (geometryPass fo P st scene).lightBufferOffset = geometrySlots fo scene ∧
    geometrySlots fo scene ≤ (CountLightsInScene fo scene).2 ∧
    ((emissiveEntries fo scene).length = (CountLightsInScene fo scene).1 ↔
      ∀ e ∈ sceneEntries scene.meshInstances, e.counted fo = true →
        fo.le e.geometry.material.emissiveIntensity fo.zero = false) ∧
    ((∀ e ∈ sceneEntries scene.meshInstances, e.counted fo = true →
        fo.le e.geometry.material.emissiveIntensity fo.zero = false) →
      geometrySlots fo scene = (CountLightsInScene fo scene).2) ∧
    (((emissiveEntries fo scene).length = (CountLightsInScene fo scene).1 ∧
        geometrySlots fo scene = (CountLightsInScene fo scene).2) ↔
      ∀ e ∈ sceneEntries scene.meshInstances, e.counted fo = true →
        fo.le e.geometry.material.emissiveIntensity fo.zero = false) := by
  have hc := CountLightsInScene_eq fo scene
  have c1 : (CountLightsInScene fo scene).1 = (countedEntries fo scene).length := by
    rw [hc]; exact toU32_of_lt hM
  have c2 : (CountLightsInScene fo scene).2 =
      ((countedEntries fo scene).map (fun e => e.geometry.numIndices / 3)).sum := by
    rw [hc]; exact toU32_of_lt hT
  obtain ⟨s1, s2⟩ := counted_split fo (sceneEntries scene.meshInstances)
  obtain ⟨t1, -⟩ := triangleCount_sum_le (emissiveEntries fo scene)
  have hsub : (emissiveEntries fo scene).Sublist (countedEntries fo scene) := by
    unfold emissiveEntries countedEntries
    apply List.monotone_filter_right
    intro e he
    rw [emissive_eq_counted_and] at he
    exact (Bool.and_eq_true_iff.mp he).1
  have hlenP : (Process fo P st scene lights flag).tasks.length =
      (emissiveEntries fo scene).length + (encodedLights fo P flag lights).length := by
    obtain ⟨lnew, p1, -, p3, -⟩ := Process_tasks_split fo P st scene lights flag
    rw [p1, List.length_append, geometryPass_tasks_length, p3]
  have hslots_le : geometrySlots fo scene ≤
      ((countedEntries fo scene).map (fun e => e.geometry.numIndices / 3)).sum := by
    unfold geometrySlots
    have : ((emissiveEntries fo scene).map (fun e => e.geometry.numIndices / 3)).sum ≤
        ((countedEntries fo scene).map (fun e => e.geometry.numIndices / 3)).sum := by
      unfold emissiveEntries countedEntries
      omega
    omega
  have hoff : (geometryPass fo P st scene).lightBufferOffset = geometrySlots fo scene := by
    rw [geometryPass_offset]
    exact toU32_of_lt (by unfold geometrySlots at hslots_le; omega)
  have hiff : (emissiveEntries fo scene).length = (countedEntries fo scene).length ↔
      ∀ e ∈ sceneEntries scene.meshInstances, e.counted fo = true →
        fo.le e.geometry.material.emissiveIntensity fo.zero = false := by
    unfold emissiveEntries countedEntries
    constructor
    · intro heq e he hce
      have h0 : ((sceneEntries scene.meshInstances).filter (fun e => e.counted fo &&
          fo.le e.geometry.material.emissiveIntensity fo.zero)).length = 0 := by omega
      have h1 := List.filter_eq_nil_iff.mp (List.length_eq_zero.mp h0) e he
      simp only [hce, Bool.true_and] at h1
      simpa using h1
    · intro hall
      have h0 : (sceneEntries scene.meshInstances).filter (fun e => e.counted fo &&
          fo.le e.geometry.material.emissiveIntensity fo.zero) = [] := by
        apply List.filter_eq_nil_iff.mpr
        intro e he
        cases hce : e.counted fo with
        | false => simp
        | true => simp [hall e he hce]
      rw [h0] at s1
      simp only [List.length_nil] at s1
      omega
  have hslots_eq : (∀ e ∈ sceneEntries scene.meshInstances, e.counted fo = true →
        fo.le e.geometry.material.emissiveIntensity fo.zero = false) →
      geometrySlots fo scene =
        ((countedEntries fo scene).map (fun e => e.geometry.numIndices / 3)).sum := by
    intro hall
    have h0 : (sceneEntries scene.meshInstances).filter (fun e => e.counted fo &&
        fo.le e.geometry.material.emissiveIntensity fo.zero) = [] := by
      apply List.filter_eq_nil_iff.mpr
      intro e he
      cases hce : e.counted fo with
      | false => simp
      | true => simp [hall e he hce]
    rw [h0] at s2
    simp only [List.map_nil, List.sum_nil, Nat.add_zero] at s2
    obtain ⟨-, t2⟩ := triangleCount_sum_le (emissiveEntries fo scene)
    unfold geometrySlots
    unfold countedEntries at hT ⊢
    unfold emissiveEntries at t2 ⊢
    rw [s2]
    exact t2 (by omega)
  rw [c1, c2]
  refine ⟨rfl, rfl, hsub, hlenP, geometryPass_tasks_length fo P st scene, hsub.length_le, hoff,
    hslots_le, hiff, hslots_eq, ?_⟩
  constructor
  · intro h
    exact hiff.mp h.1
  · intro hall
    exact ⟨hiff.mpr hall, hslots_eq hall⟩

/-- C24, witness: in the scene with an emissive geometry of 30 indices, a
geometry of colour `(1, 0, 0)` and intensity 0 of 9 indices and a dark one,
`CountLightsInScene` returns 2 meshes and 13 triangles, and the geometry loops
of `Process` build at most 2 tasks on at most 13 slots. -/
theorem C24_count_bounds_geometry_tasks_witness :
    (CountLightsInScene intOps dimmedScene).1 = (countedEntries intOps dimmedScene).length ∧
    (CountLightsInScene intOps dimmedScene).2 =
      ((countedEntries intOps dimmedScene).map (fun e => e.geometry.numIndices / 3)).sum ∧
    (geometryPass intOps (refPlatform insertionSortFront) (freshState 1000)
      dimmedScene).tasks.length = (emissiveEntries intOps dimmedScene).length ∧
    (emissiveEntries intOps dimmedScene).length ≤ (CountLightsInScene intOps dimmedScene).1 ∧
    (geometryPass intOps (refPlatform insertionSortFront) (freshState 1000)
      dimmedScene).lightBufferOffset = geometrySlots intOps dimmedScene ∧
    geometrySlots intOps dimmedScene ≤ (CountLightsInScene intOps dimmedScene).2 :=
  have h := C24_count_bounds_geometry_tasks intOps (refPlatform insertionSortFront)
    (freshState 1000) dimmedScene exampleLights true (by decide) (by decide)
  ⟨h.1, h.2.1, h.2.2.2.2.1, h.2.2.2.2.2.1, h.2.2.2.2.2.2.1, h.2.2.2.2.2.2.2.1⟩

/-- The three counts that `Process` outputs, in terms of the locals after its
two passes. -/
theorem Process_count_fields (fo : FloatOps F) (P : Platform F) (st : PassState) (scene : Scene F)
    (lights : List (Light F)) (flag : Bool) :
    (Process fo P st scene lights flag).outFrameParameters.numLocalLights =
      toU32 ((geometryPass fo P st scene).lightBufferOffset +
        (lightPass fo P st scene lights flag).numFinitePrimLights) ∧
    (Process fo P st scene lights flag).outFrameParameters.numInfiniteLights =
      (lightPass fo P st scene lights flag).numInfinitePrimLights ∧
    (Process fo P st scene lights flag).numImportanceSampledEnvironmentLights =
      (lightPass fo P st scene lights flag).numImportanceSampledEnvironmentLights ∧
    (Process fo P st scene lights flag).outFrameParameters.environmentLightIndex =
      toU32 (toU32 (toU32 ((geometryPass fo P st scene).lightBufferOffset +
        (lightPass fo P st scene lights flag).numFinitePrimLights) +
        (lightPass fo P st scene lights flag).numInfinitePrimLights) +
        toU32 (halfBufferBase st)) := by
  simp only [Process, geometryPass_eq, lightPass, halfBufferBase, and_self]

/-- Setting bit 31 of a 31-bit value adds `2^31` to it. -/
theorem or_bit31 (k : Nat) (h : k < 2147483648) : 2147483648 ||| k = 2147483648 + k := by
  have h3 : k < 2 ^ 31 := by omega
  have := Nat.mul_add_lt_is_or h3 1
  simpa using this.symm

/-- C25: the counts that `Process` outputs account for every slot. When the
slots of the emissive geometries and the encoded lights of the frame add up to
less than `2^32` (nothing wraps): `numLocalLights + numInfiniteLights +
numImportanceSampledEnvironmentLights` is the final cursor, which is the slots
of the geometries plus the number of encoded lights; the number of tasks is
the number of emissive iterations plus the number of records of the
primitive-light array; the records are the encodings of the encoded lights in
the order of the sorted list; and for every `k` below the number of records the
task at position (number of emissive iterations) `+ k` has
`instanceAndGeometryIndex = TASK_PRIMITIVE_LIGHT_BIT | k` (which is `2^31 + k`
for the bit `2^31`), count 1 and offset (slots of the geometries) `+ k`, and
the array has a record at index `k`. -/
theorem C25_counts_account_for_slots (fo : FloatOps F) (P : Platform F) (st : PassState)
    (scene : Scene F) (lights : List (Light F)) (flag : Bool)
    (hno : geometrySlots fo scene + (encodedLights fo P flag lights).length < 4294967296) :
    (Process fo P st scene lights flag).outFrameParameters.numLocalLights +
        (Process fo P st scene lights flag).outFrameParameters.numInfiniteLights +
        (Process fo P st scene lights flag).numImportanceSampledEnvironmentLights =
      (Process fo P st scene lights flag).lightBufferOffset ∧
    (Process fo P st scene lights flag).lightBufferOffset =
      geometrySlots fo scene + (encodedLights fo P flag lights).length ∧
    (Process fo P st scene lights flag).tasks.length =
      (emissiveEntries fo scene).length +
        (Process fo P st scene lights flag).primitiveLightInfos.length ∧
    (Process fo P st scene lights flag).primitiveLightInfos =
      (encodedLights fo P flag lights).map
        (fun l => (ConvertLight fo P l (PolymorphicLightInfo.init fo) flag).2) ∧
    (∀ k : Nat, k < (Process fo P st scene lights flag).primitiveLightInfos.length →
      ∃ (t : PrepareLightsTask) (record : PolymorphicLightInfo F),
        (Process fo P st scene lights flag).tasks[(emissiveEntries fo scene).length + k]?
          = some t ∧
        (Process fo P st scene lights flag).primitiveLightInfos[k]? = some record ∧
        t.instanceAndGeometryIndex = toU32 (P.TASK_PRIMITIVE_LIGHT_BIT ||| k) ∧
        (P.TASK_PRIMITIVE_LIGHT_BIT = 2147483648 → k < 2147483648 →
          t.instanceAndGeometryIndex = 2147483648 + k) ∧
        t.triangleCount = 1 ∧
        t.lightBufferOffset = geometrySlots fo scene + k) := by
  obtain ⟨f1, f2, -, -, f5, -⟩ := Process_fields fo P st scene lights flag
  obtain ⟨q1, q2, q3, -⟩ := Process_count_fields fo P st scene lights flag
  obtain ⟨c1, c2, c3⟩ := lightPass_counts fo P st scene lights flag
  obtain ⟨lnew, p1, -, p3, -, -, p6, -, p8⟩ := Process_tasks_split fo P st scene lights flag
  have hsum := encoded_counts_le fo P flag lights
  have hoff := geometryPass_offset fo P st scene
  have hgp : (geometryPass fo P st scene).lightBufferOffset = geometrySlots fo scene := by
    rw [hoff]; exact toU32_of_lt (by unfold geometrySlots at hno; omega)
  have hcur : (Process fo P st scene lights flag).lightBufferOffset =
      geometrySlots fo scene + (encodedLights fo P flag lights).length := by
    rw [p6, hgp, p3]; exact toU32_of_lt hno
  have hpli : (geometryPass fo P st scene).primitiveLightInfos = [] := by
    unfold geometryPass
    rw [(entriesLoop_untouched fo P _ _).1]
    rfl
  have hrec : (Process fo P st scene lights flag).primitiveLightInfos =
      (encodedLights fo P flag lights).map
        (fun l => (ConvertLight fo P l (PolymorphicLightInfo.init fo) flag).2) := by
    rw [f2]
    unfold lightPass encodedLights
    rw [lightLoop_records, hpli, List.nil_append]
  refine ⟨?_, hcur, ?_, hrec, ?_⟩
  · rw [hcur, q1, q2, q3, c1, c2, c3, hgp]
    generalize geometrySlots fo scene = G at *
    generalize numEncodedFinite fo P flag lights = Fn at *
    generalize numEncodedInfiniteOther fo P flag lights = In at *
    generalize (if flag then numEncodedEnvironment fo P flag lights else 0) = En at *
    generalize (encodedLights fo P flag lights).length = n at *
    unfold toU32
    omega
  · rw [p1, List.length_append, geometryPass_tasks_length, p8]
  · intro k hk
    have hk2 : k < (encodedLights fo P flag lights).length := by
      rw [p8, p3] at hk; exact hk
    obtain ⟨t, t1, t2, t3, t4⟩ := lightLoop_task_at fo P flag (P.std_sort lightOrder lights)
      (geometryPass fo P st scene) (geometryPass_tasks fo P st scene).2.2 k hk2
    rw [geometryPass_tasks_length] at t1
    have hk32 : toU32 k = k := toU32_of_lt (by omega)
    have hgk : toU32 (geometrySlots fo scene + k) = geometrySlots fo scene + k :=
      toU32_of_lt (by omega)
    rw [hpli, List.length_nil, Nat.zero_add, hk32] at t2
    rw [hgp, hgk] at t3
    obtain ⟨record, hrecord⟩ : ∃ record,
        (Process fo P st scene lights flag).primitiveLightInfos[k]? = some record :=
      ⟨_, List.getElem?_eq_getElem hk⟩
    refine ⟨t, record, ?_, hrecord, t2, ?_, t4, t3⟩
    · rw [f1]; exact t1
    · intro hbit hklt
      rw [t2, hbit, or_bit31 k hklt]
      exact toU32_of_lt (by omega)

/-- C25, witness: in the example frame the counts 14, 1 and 1 add up to the
cursor 16, and the 4 primitive tasks follow the 3 geometry tasks. -/
theorem C25_counts_account_for_slots_witness :
    (Process intOps (refPlatform insertionSortFront) (freshState 1000) exampleScene
        exampleLights true).outFrameParameters.numLocalLights +
      (Process intOps (refPlatform insertionSortFront) (freshState 1000) exampleScene
        exampleLights true).outFrameParameters.numInfiniteLights +
      (Process intOps (refPlatform insertionSortFront) (freshState 1000) exampleScene
        exampleLights true).numImportanceSampledEnvironmentLights =
      (Process intOps (refPlatform insertionSortFront) (freshState 1000) exampleScene
        exampleLights true).lightBufferOffset ∧
    (Process intOps (refPlatform insertionSortFront) (freshState 1000) exampleScene
        exampleLights true).lightBufferOffset =
      geometrySlots intOps exampleScene +
        (encodedLights intOps (refPlatform insertionSortFront) true exampleLights).length ∧
    (Process intOps (refPlatform insertionSortFront) (freshState 1000) exampleScene
        exampleLights true).tasks.length =
      (emissiveEntries intOps exampleScene).length +
        (Process intOps (refPlatform insertionSortFront) (freshState 1000) exampleScene
          exampleLights true).primitiveLightInfos.length :=
  have h := C25_counts_account_for_slots intOps (refPlatform insertionSortFront)
    (freshState 1000) exampleScene exampleLights true (by decide)
  ⟨h.1, h.2.1, h.2.2.1⟩

/-! Lemmas: the environment light in the sorted list -/

/-- The Environment lights with `textureIndex >= 0` are the Environment lights
that `ConvertLight` encodes. -/
theorem texturedEnvironment_eq (fo : FloatOps F) (P : Platform F) (flag : Bool) (l : Light F) :
    texturedEnvironment l =
      (encodes fo P flag l && decide (l.GetLightType = .LightType_Environment)) := by
  unfold encodes
  rw [ConvertLight_success]
  obtain ⟨p, d⟩ := l
  cases d <;> simp [texturedEnvironment, Light.GetLightType]

theorem isInfiniteLight_le_two (l : Light F) : isInfiniteLight l ≤ 2 := by
  obtain ⟨p, d⟩ := l
  cases d <;> simp [isInfiniteLight, Light.GetLightType]

theorem isInfiniteLight_eq_two (l : Light F) :
    isInfiniteLight l = 2 ↔ l.GetLightType = .LightType_Environment := by
  obtain ⟨p, d⟩ := l
  cases d <;> simp [isInfiniteLight, Light.GetLightType]

/-- In the sorted list, when the only Environment light with a texture is `l`,
no light behind `l` is encoded and no light in front of `l` is an Environment
light with a texture. -/
theorem sorted_environment_last (fo : FloatOps F) (P : Platform F) (flag : Bool)
    (lights pre post : List (Light F)) (l : Light F) (hsort : StdSortContract P)
    (hsplit : P.std_sort lightOrder lights = pre ++ l :: post)
    (hl : texturedEnvironment l = true)
    (hone : (lights.filter texturedEnvironment).length = 1) :
    post.filter (encodes fo P flag) = [] ∧ pre.filter texturedEnvironment = [] ∧
    post.filter texturedEnvironment = [] := by
  obtain ⟨hperm, hpw⟩ := hsort lights
  have h1 : ((P.std_sort lightOrder lights).filter texturedEnvironment).length = 1 := by
    rw [(hperm.filter _).length_eq]; exact hone
  rw [hsplit, List.filter_append, List.filter_cons, hl] at h1
  simp only [if_true, List.length_append, List.length_cons] at h1
  have hpre : pre.filter texturedEnvironment = [] := List.length_eq_zero.mp (by omega)
  have hpost : post.filter texturedEnvironment = [] := List.length_eq_zero.mp (by omega)
  refine ⟨?_, hpre, hpost⟩
  apply List.filter_eq_nil_iff.mpr
  intro x hx henc
  rw [hsplit] at hpw
  have hlx : lightOrder x l = false :=
    List.rel_of_pairwise_cons (List.pairwise_append.mp hpw).2.1 hx
  have hle := (lightOrder_eq_false_iff l x).mp hlx
  have hl2 : isInfiniteLight l = 2 := by
    rw [isInfiniteLight_eq_two]
    have := texturedEnvironment_eq fo P flag l
    rw [hl] at this
    simpa using (Bool.and_eq_true_iff.mp this.symm).2
  have hx2 : isInfiniteLight x = 2 := le_antisymm (isInfiniteLight_le_two x) (by omega)
  have hxe : x.GetLightType = .LightType_Environment := (isInfiniteLight_eq_two x).mp hx2
  have hxt : texturedEnvironment x = true := by
    rw [texturedEnvironment_eq fo P flag x, henc]
    simp [hxe]
  have := List.filter_eq_nil_iff.mp hpost x hx
  exact this hxt

/-- C26: the environment light index. The flag is set, the sort meets the
contract of `std::sort`, exactly one light of the list is an Environment light
with `textureIndex >= 0` (the list may hold any other lights, in any order),
and it is the element `l` of the sorted list; the slots of the frame add up to
less than `2^32`. Then the task of `l` is the last task of the frame; it
refers to the record that holds the encoding of `l`; its `lightBufferOffset` is
`numLocalLights + numInfiniteLights`, the frame-relative environment light
index (in the frame the first infinite light is at `numLocalLights`); it is the
last slot, the final cursor minus 1; the `environmentLightIndex` output is that
offset plus `currentFrameLightOffset` in `uint32_t` arithmetic; and the counter
of importance-sampled environment lights is 1. -/
theorem C26_environment_light_index (fo : FloatOps F) (P : Platform F) (st : PassState)
    (scene : Scene F) (lights pre post : List (Light F)) (l : Light F)
    (hsort : StdSortContract P)
    (hsplit : P.std_sort lightOrder lights = pre ++ l :: post)
    (hl : texturedEnvironment l = true)
    (hone : (lights.filter texturedEnvironment).length = 1)
    (hno : geometrySlots fo scene + (encodedLights fo P true lights).length < 4294967296) :
    ∃ t : PrepareLightsTask,
      (Process fo P st scene lights true).tasks[
        (emissiveEntries fo scene).length + (pre.filter (encodes fo P true)).length]? = some t ∧
      (Process fo P st scene lights true).tasks.getLast? = some t ∧
      t.instanceAndGeometryIndex =
        toU32 (P.TASK_PRIMITIVE_LIGHT_BIT ||| toU32 (pre.filter (encodes fo P true)).length) ∧
      (Process fo P st scene lights true).primitiveLightInfos[
        (pre.filter (encodes fo P true)).length]? =
          some (ConvertLight fo P l (PolymorphicLightInfo.init fo) true).2 ∧
      (Process fo P st scene lights true).outFrameParameters.numLocalLights +
        (Process fo P st scene lights true).outFrameParameters.numInfiniteLights =
          t.lightBufferOffset ∧
      t.lightBufferOffset + 1 = (Process fo P st scene lights true).lightBufferOffset ∧
      (Process fo P st scene lights true).outFrameParameters.environmentLightIndex =
        toU32 (t.lightBufferOffset +
          (Process fo P st scene lights true).outFrameParameters.currentFrameLightOffset) ∧
      (Process fo P st scene lights true).numImportanceSampledEnvironmentLights = 1 := by
  obtain ⟨hpost, hpre, hpostT⟩ :=
    sorted_environment_last fo P true lights pre post l hsort hsplit hl hone
  have hlenc : encodes fo P true l = true := by
    have := texturedEnvironment_eq fo P true l
    rw [hl] at this
    exact (Bool.and_eq_true_iff.mp this.symm).1
  -- the encoded lights of the frame
  have henc : (encodedLights fo P true lights).length =
      (pre.filter (encodes fo P true)).length + 1 := by
    unfold encodedLights
    rw [hsplit, List.filter_append, List.filter_cons, hlenc, if_pos rfl, hpost]
    simp
  -- the encoded environment lights of the frame
  have henv : numEncodedEnvironment fo P true lights = 1 := by
    unfold numEncodedEnvironment encodedLights
    rw [List.filter_filter]
    have hfun : (fun a : Light F => decide (a.GetLightType = LightType.LightType_Environment) &&
        encodes fo P true a) = texturedEnvironment := by
      funext a
      rw [texturedEnvironment_eq fo P true a, Bool.and_comm]
    rw [hfun, ((hsort lights).1.filter _).length_eq]
    exact hone
  obtain ⟨a1, -⟩ := Process_light_task fo P st scene lights true pre post l hsplit hlenc
  obtain ⟨r1, r2⟩ := Process_light_record fo P st scene lights true pre post l hsplit hlenc
  obtain ⟨q1, q2, q3, q4⟩ := Process_count_fields fo P st scene lights true
  obtain ⟨c1, c2, c3⟩ := lightPass_counts fo P st scene lights true
  obtain ⟨lnew, p1, -, p3, -, -, p6, -, p8⟩ := Process_tasks_split fo P st scene lights true
  have hsum := encoded_counts_le fo P true lights
  have hoff := geometryPass_offset fo P st scene
  have hgp : (geometryPass fo P st scene).lightBufferOffset = geometrySlots fo scene := by
    rw [hoff]; exact toU32_of_lt (by unfold geometrySlots at hno; omega)
  obtain ⟨new, -, n2, -, -, -, n6, -⟩ := lightLoop_tasks fo P true pre
    (geometryPass fo P st scene) (geometryPass_tasks fo P st scene).2.2
  have htoff : (lightTask P l (lightLoop fo P true pre
      (geometryPass fo P st scene))).lightBufferOffset =
      geometrySlots fo scene + (pre.filter (encodes fo P true)).length := by
    simp only [lightTask]
    rw [n6, n2, hgp]
    exact toU32_of_lt (by omega)
  have hcur : (Process fo P st scene lights true).lightBufferOffset =
      geometrySlots fo scene + (encodedLights fo P true lights).length := by
    rw [p6, hgp, p3]; exact toU32_of_lt hno
  have hlen : (Process fo P st scene lights true).tasks.length =
      (emissiveEntries fo scene).length + (pre.filter (encodes fo P true)).length + 1 := by
    rw [p1, List.length_append, geometryPass_tasks_length, p3, henc]
    omega
  simp only [if_true] at c3 hsum
  rw [henv] at c3 hsum
  refine ⟨_, a1, ?_, r1, r2, ?_, ?_, ?_, ?_⟩
  · rw [List.getLast?_eq_getElem?, hlen, Nat.add_sub_cancel]
    exact a1
  · rw [htoff, q1, q2, c1, c2, hgp]
    generalize geometrySlots fo scene = G at *
    generalize numEncodedFinite fo P true lights = Fn at *
    generalize numEncodedInfiniteOther fo P true lights = In at *
    generalize (encodedLights fo P true lights).length = n at *
    generalize (pre.filter (encodes fo P true)).length = m at *
    unfold toU32
    omega
  · rw [htoff, hcur, henc]
    omega
  · rw [htoff, q4, c1, c2, hgp]
    have hc : (Process fo P st scene lights true).outFrameParameters.currentFrameLightOffset =
        toU32 (halfBufferBase st) := rfl
    rw [hc]
    generalize halfBufferBase st = B at *
    generalize geometrySlots fo scene = G at *
    generalize numEncodedFinite fo P true lights = Fn at *
    generalize numEncodedInfiniteOther fo P true lights = In at *
    generalize (encodedLights fo P true lights).length = n at *
    generalize (pre.filter (encodes fo P true)).length = m at *
    unfold toU32
    omega
  · rw [q3, c3]
    rfl

/-- C26, witness: with a second environment light without a texture in the
list, the sorted list is the two point lights, the directional light, the
environment light with a texture and the one without; the task of the former
is the last one and its offset 15 is `numLocalLights + numInfiniteLights`. -/
theorem C26_environment_light_index_witness :
    ∃ t : PrepareLightsTask,
      (Process intOps (refPlatform insertionSortFront) (freshState 1000) exampleScene
        mixedLights true).tasks[6]? = some t ∧
      (Process intOps (refPlatform insertionSortFront) (freshState 1000) exampleScene
        mixedLights true).tasks.getLast? = some t ∧
      (Process intOps (refPlatform insertionSortFront) (freshState 1000) exampleScene
        mixedLights true).outFrameParameters.numLocalLights +
        (Process intOps (refPlatform insertionSortFront) (freshState 1000) exampleScene
          mixedLights true).outFrameParameters.numInfiniteLights = t.lightBufferOffset ∧
      t.lightBufferOffset + 1 =
        (Process intOps (refPlatform insertionSortFront) (freshState 1000) exampleScene
          mixedLights true).lightBufferOffset :=
  have h := C26_environment_light_index intOps (refPlatform insertionSortFront)
    (freshState 1000) exampleScene mixedLights
    [pointLight 2, pointLight 4, directionalLight 1] [environmentLight 5 (-1)]
    (environmentLight 3 0) refPlatform_front_contract rfl rfl (by decide) (by decide)
  h.elim fun t ht => ⟨t, ht.1, ht.2.1, ht.2.2.2.2.1, ht.2.2.2.2.2.1⟩

/-! Lemmas: the light tracker over several frames -/

/-- A call of `Process` in which no encoded light has the address `p` leaves
the entry of the light tracker for `p` as it was. -/
theorem Process_light_key_kept (fo : FloatOps F) (P : Platform F) (st : PassState)
    (f : Frame F) (p : Nat) (hsort : StdSortContract P)
    (hno : ∀ x ∈ f.sceneLights, x.ptr = p →
      encodes fo P f.enableImportanceSampledEnvironmentLight x = false) :
    (Process fo P st f.scene f.sceneLights
      f.enableImportanceSampledEnvironmentLight).state.m_PrimitiveLightBufferOffsets p =
      st.m_PrimitiveLightBufferOffsets p := by
  obtain ⟨-, -, -, -, -, -, f7, -⟩ := Process_fields fo P st f.scene f.sceneLights
    f.enableImportanceSampledEnvironmentLight
  rw [f7]
  unfold lightPass
  apply light_lookup_of_not_mem
  intro hmem
  obtain ⟨x, hx, hxp⟩ := List.mem_map.mp hmem
  obtain ⟨hx1, hx2⟩ := List.mem_filter.mp hx
  have hx3 : x ∈ f.sceneLights := (hsort f.sceneLights).1.mem_iff.mp hx1
  rw [hno x hx3 hxp] at hx2
  exact Bool.false_ne_true hx2

/-- Calls of `Process` in which no encoded light has the address `p` leave the
entry of the light tracker for `p` as it was. -/
theorem runFrames_light_key_kept (fo : FloatOps F) (P : Platform F) (fs : List (Frame F))
    (st : PassState) (p : Nat) (hsort : StdSortContract P)
    (hno : ∀ f ∈ fs, ∀ x ∈ f.sceneLights, x.ptr = p →
      encodes fo P f.enableImportanceSampledEnvironmentLight x = false) :
    (runFrames fo P st fs).m_PrimitiveLightBufferOffsets p =
      st.m_PrimitiveLightBufferOffsets p := by
  induction fs generalizing st with
  | nil => rfl
  | cons f fs ih =>
    simp only [runFrames]
    rw [ih _ (fun g hg => hno g (List.mem_cons_of_mem _ hg))]
    exact Process_light_key_kept fo P st f p hsort (hno f (List.mem_cons_self _ _))

/-- C27: the entry of the light tracker survives the frames in which the light
is skipped. The sort meets the contract of `std::sort`. In frame N the light is
the encoded element `l1` of the sorted list and no later encoded light of the
frame is the same object; in the frames `mid` between N and M every light of
the list that is the same object is not encoded (the light is absent, or it is
an Environment light without a texture); in frame M the light is the encoded
element `l2` of the sorted list, the same object, and no earlier encoded light
of frame M is the same object. Then after the frames `mid` the light tracker
still maps the object to the offset `X` of its task of frame N, and its task
of frame M has `previousLightBufferOffset = int(X)`, which is `X` itself when
`X < 2^31` (and is then not -1). In contrast, a call of `Process` in which the
iterations with the key of a geometry are enumerated and all fail the emissive
test leaves the geometry tracker without an entry for that key. -/
theorem C27_light_tracker_survives_skipped_frames (fo : FloatOps F) (P : Platform F)
    (st : PassState) (frameN frameM : Frame F) (mid : List (Frame F))
    (pre1 post1 pre2 post2 : List (Light F)) (l1 l2 : Light F)
    (hsort : StdSortContract P)
    (h1 : P.std_sort lightOrder frameN.sceneLights = pre1 ++ l1 :: post1)
    (h2 : P.std_sort lightOrder frameM.sceneLights = pre2 ++ l2 :: post2)
    (hptr : l2.ptr = l1.ptr)
    (henc1 : encodes fo P frameN.enableImportanceSampledEnvironmentLight l1 = true)
    (henc2 : encodes fo P frameM.enableImportanceSampledEnvironmentLight l2 = true)
    (hu1 : l1.ptr ∉ (post1.filter
      (encodes fo P frameN.enableImportanceSampledEnvironmentLight)).map Light.ptr)
    (hmid : ∀ f ∈ mid, ∀ x ∈ f.sceneLights, x.ptr = l1.ptr →
      encodes fo P f.enableImportanceSampledEnvironmentLight x = false)
    (hu2 : l2.ptr ∉ (pre2.filter
      (encodes fo P frameM.enableImportanceSampledEnvironmentLight)).map Light.ptr) :
    ∃ t1 t2 : PrepareLightsTask,
      (Process fo P st frameN.scene frameN.sceneLights
        frameN.enableImportanceSampledEnvironmentLight).tasks[
          (emissiveEntries fo frameN.scene).length + (pre1.filter
            (encodes fo P frameN.enableImportanceSampledEnvironmentLight)).length]? = some t1 ∧
      (Process fo P (runFrames fo P st (frameN :: mid)) frameM.scene frameM.sceneLights
        frameM.enableImportanceSampledEnvironmentLight).tasks[
          (emissiveEntries fo frameM.scene).length + (pre2.filter
            (encodes fo P frameM.enableImportanceSampledEnvironmentLight)).length]? = some t2 ∧
      (runFrames fo P st (frameN :: mid)).m_PrimitiveLightBufferOffsets l1.ptr =
        some t1.lightBufferOffset ∧
      t2.previousLightBufferOffset = toInt32 t1.lightBufferOffset ∧
      (t1.lightBufferOffset < 2147483648 →
        t2.previousLightBufferOffset = (t1.lightBufferOffset : Int) ∧
        t2.previousLightBufferOffset ≠ -1) ∧
      (∀ (s : PassState) (f : Frame F) (e : GeomEntry F),
        e ∈ sceneEntries f.scene.meshInstances →
        (∀ e2 ∈ sceneEntries f.scene.meshInstances, e2.key P = e.key P →
          e2.emissive fo = false) →
        (Process fo P s f.scene f.sceneLights
          f.enableImportanceSampledEnvironmentLight).state.m_InstanceLightBufferOffsets
            (e.key P) = none) := by
  obtain ⟨a1, a2⟩ := Process_light_task fo P st frameN.scene frameN.sceneLights
    frameN.enableImportanceSampledEnvironmentLight pre1 post1 l1 h1 henc1
  obtain ⟨b1, -⟩ := Process_light_task fo P (runFrames fo P st (frameN :: mid)) frameM.scene
    frameM.sceneLights frameM.enableImportanceSampledEnvironmentLight pre2 post2 l2 h2 henc2
  have hkept : (runFrames fo P st (frameN :: mid)).m_PrimitiveLightBufferOffsets l1.ptr =
      some (lightLoop fo P frameN.enableImportanceSampledEnvironmentLight pre1
        (geometryPass fo P st frameN.scene)).lightBufferOffset := by
    simp only [runFrames]
    rw [runFrames_light_key_kept fo P mid _ l1.ptr hsort hmid]
    exact a2 hu1
  have hlook := light_lookup_of_not_mem fo P (runFrames fo P st (frameN :: mid))
    frameM.scene frameM.enableImportanceSampledEnvironmentLight pre2 l2.ptr hu2
  rw [hptr, hkept] at hlook
  have hprev : (lightTask P l2 (lightLoop fo P frameM.enableImportanceSampledEnvironmentLight
      pre2 (geometryPass fo P (runFrames fo P st (frameN :: mid))
        frameM.scene))).previousLightBufferOffset =
      toInt32 (lightLoop fo P frameN.enableImportanceSampledEnvironmentLight pre1
        (geometryPass fo P st frameN.scene)).lightBufferOffset := by
    simp only [lightTask, hptr, hlook]
  refine ⟨_, _, a1, b1, hkept, hprev, ?_, ?_⟩
  · intro hlt
    have hlt2 : (lightLoop fo P frameN.enableImportanceSampledEnvironmentLight pre1
        (geometryPass fo P st frameN.scene)).lightBufferOffset < 2147483648 := hlt
    rw [hprev, toInt32_of_lt hlt2]
    exact ⟨rfl, by omega⟩
  · intro s f e he hdark
    exact Process_geometry_key_none fo P s f (e.key P) hdark
      (Or.inr (List.mem_map_of_mem _ he))

/-- C27, witness: the environment light at address 3 has offset 15 in the
example frame; in the next frame the light at that address has no texture and
is not encoded; in the frame after that it has a texture again and its task
reports 15. -/
theorem C27_light_tracker_survives_skipped_frames_witness :
    ∃ t1 t2 : PrepareLightsTask,
      (Process intOps (refPlatform insertionSortFront) (freshState 1000) exampleScene
        exampleLights true).tasks[6]? = some t1 ∧
      (Process intOps (refPlatform insertionSortFront)
        (runFrames intOps (refPlatform insertionSortFront) (freshState 1000)
          [⟨exampleScene, exampleLights, true⟩,
            ⟨exampleScene, [environmentLight 3 (-1), pointLight 2], true⟩])
        (oneInstanceScene []) [environmentLight 3 0] true).tasks[0]? = some t2 ∧
      t2.previousLightBufferOffset = toInt32 t1.lightBufferOffset ∧
      (t1.lightBufferOffset < 2147483648 →
        t2.previousLightBufferOffset = (t1.lightBufferOffset : Int) ∧
        t2.previousLightBufferOffset ≠ -1) :=
  have h := C27_light_tracker_survives_skipped_frames intOps (refPlatform insertionSortFront)
    (freshState 1000) ⟨exampleScene, exampleLights, true⟩
    ⟨oneInstanceScene [], [environmentLight 3 0], true⟩
    [⟨exampleScene, [environmentLight 3 (-1), pointLight 2], true⟩]
    [pointLight 2, pointLight 4, directionalLight 1] [] [] []
    (environmentLight 3 0) (environmentLight 3 0)
    refPlatform_front_contract rfl rfl rfl (by decide) (by decide) (by decide)
    (by decide) (by decide)
  h.elim fun t1 h' => h'.elim fun t2 ht =>
    ⟨t1, t2, ht.1, ht.2.1, ht.2.2.2.1, ht.2.2.2.2.1⟩

/-! The tally of importance-sampled environment lights -/

/-- The encoded Environment lights of the sorted list are as many as the
Environment lights with a texture of the light list. -/
theorem numEncodedEnvironment_eq (fo : FloatOps F) (P : Platform F) (flag : Bool)
    (lights : List (Light F)) (hsort : StdSortContract P) :
    numEncodedEnvironment fo P flag lights = (lights.filter texturedEnvironment).length := by
  unfold numEncodedEnvironment encodedLights
  rw [List.filter_filter]
  have hfun : (fun a : Light F => decide (a.GetLightType = LightType.LightType_Environment) &&
      encodes fo P flag a) = texturedEnvironment := by
    funext a
    rw [texturedEnvironment_eq fo P flag a, Bool.and_comm]
  rw [hfun, ((hsort lights).1.filter _).length_eq]

/-- C11, counterexample: a light list with two environment lights that both
have a texture, with the importance-sampling flag set. Both lights are
encoded, both records carry bit 16 of the word `scalars`, and the tally
`numImportanceSampledEnvironmentLights` ends at 2, so that the assertion
`numImportanceSampledEnvironmentLights <= 1` does not hold. -/
theorem C11_counterexample :
    (Process intOps (refPlatform insertionSortFront) (freshState 1000) (oneInstanceScene [])
      [environmentLight 3 0, environmentLight 5 1] true).primitiveLightInfos.map
        (fun r => (r.scalars >>> 16) &&& 1) = [1, 1] ∧
    (Process intOps (refPlatform insertionSortFront) (freshState 1000) (oneInstanceScene [])
      [environmentLight 3 0, environmentLight 5 1] true).numImportanceSampledEnvironmentLights
        = 2 ∧
    ¬ ((Process intOps (refPlatform insertionSortFront) (freshState 1000) (oneInstanceScene [])
      [environmentLight 3 0, environmentLight 5 1] true).numImportanceSampledEnvironmentLights
        ≤ 1) := by
  decide

/-- C11: the importance-sampled environment lights of a frame, for a sort that
meets the contract of `std::sort`. For every scene, light list, state and flag
the records of the primitive-light array are the encodings of the encoded
lights of the sorted list, the record of an encoded Environment light has bit
16 of the word `scalars` set exactly when the flag is set, and the tally
`numImportanceSampledEnvironmentLights` is, in `uint32_t` arithmetic, the
number of Environment lights with `textureIndex >= 0` of the list when the flag
is set and 0 when it is clear. When the list holds at most one Environment
light with `textureIndex >= 0` (the precondition that the caller has to
establish), at most one encoded light is an Environment light, at most one
encoded light is an Environment light whose record carries the bit, and the
tally is 0 or 1: the assertion `numImportanceSampledEnvironmentLights <= 1`
holds. -/
theorem C11_importance_sampled_tally (fo : FloatOps F) (P : Platform F) (st : PassState)
    (scene : Scene F) (lights : List (Light F)) (flag : Bool) (hsort : StdSortContract P) :
    (Process fo P st scene lights flag).primitiveLightInfos =
      (encodedLights fo P flag lights).map
        (fun l => (ConvertLight fo P l (PolymorphicLightInfo.init fo) flag).2) ∧
    (∀ l ∈ encodedLights fo P flag lights, l.GetLightType = .LightType_Environment →
      (ConvertLight fo P l (PolymorphicLightInfo.init fo) flag).2.scalars.testBit 16 = flag) ∧
    (Process fo P st scene lights flag).numImportanceSampledEnvironmentLights =
      toU32 (if flag then (lights.filter texturedEnvironment).length else 0) ∧
    ((lights.filter texturedEnvironment).length ≤ 1 →
      ((encodedLights fo P flag lights).filter
        (fun l => decide (l.GetLightType = .LightType_Environment))).length ≤ 1 ∧
      (Process fo P st scene lights flag).numImportanceSampledEnvironmentLights ≤ 1 ∧
      ((Process fo P st scene lights flag).numImportanceSampledEnvironmentLights = 0 ∨
        (Process fo P st scene lights flag).numImportanceSampledEnvironmentLights = 1) ∧
      ((Process fo P st scene lights flag).numImportanceSampledEnvironmentLights = 1 ↔
        (flag = true ∧ (lights.filter texturedEnvironment).length = 1)) ∧
      ((encodedLights fo P flag lights).filter
        (fun l => decide (l.GetLightType = .LightType_Environment) &&
          (ConvertLight fo P l (PolymorphicLightInfo.init fo) flag).2.scalars.testBit 16)).length
        ≤ 1) := by
  obtain ⟨-, f2, -⟩ := Process_fields fo P st scene lights flag
  obtain ⟨-, -, q3, -⟩ := Process_count_fields fo P st scene lights flag
  obtain ⟨-, -, c3⟩ := lightPass_counts fo P st scene lights flag
  have henv := numEncodedEnvironment_eq fo P flag lights hsort
  have hpli : (geometryPass fo P st scene).primitiveLightInfos = [] := by
    unfold geometryPass
    rw [(entriesLoop_untouched fo P _ _).1]
    rfl
  have htally : (Process fo P st scene lights flag).numImportanceSampledEnvironmentLights =
      toU32 (if flag then (lights.filter texturedEnvironment).length else 0) := by
    rw [q3, c3, henv]
  refine ⟨?_, ?_, htally, ?_⟩
  · rw [f2]
    unfold lightPass encodedLights
    rw [lightLoop_records, hpli, List.nil_append]
  · intro l hl henvl
    obtain ⟨p, d⟩ := l
    cases d with
    | Environment t rs rot =>
      have henc : encodes fo P flag ⟨p, .Environment t rs rot⟩ = true :=
        (List.mem_filter.mp hl).2
      have ht : 0 ≤ t := by
        unfold encodes at henc
        rw [ConvertLight_success] at henc
        simpa using henc
      obtain ⟨-, h2, -⟩ := ConvertLight_environment fo P p t rs rot
        (PolymorphicLightInfo.init fo) flag ht
      have hlt := fp32ToFp16_lt fo rot
      have hlt2 : fp32ToFp16 fo rot < 2 ^ 16 := by omega
      rw [h2]
      cases flag with
      | false => exact Nat.testBit_lt_two_pow hlt2
      | true =>
        rw [if_pos rfl, or_bit16 _ hlt]
        have := Nat.testBit_two_pow_add_eq (fp32ToFp16 fo rot) 16
        rw [Nat.testBit_lt_two_pow hlt2] at this
        exact this
    | _ => simp [Light.GetLightType] at henvl
  · intro hpre
    have h1 : ((encodedLights fo P flag lights).filter
        (fun l => decide (l.GetLightType = .LightType_Environment))).length ≤ 1 := by
      have := henv
      unfold numEncodedEnvironment at this
      rw [this]
      exact hpre
    have h2 : ((encodedLights fo P flag lights).filter
        (fun l => decide (l.GetLightType = .LightType_Environment) &&
          (ConvertLight fo P l (PolymorphicLightInfo.init fo) flag).2.scalars.testBit 16)).length
        ≤ 1 := by
      refine le_trans (List.Sublist.length_le (List.monotone_filter_right _ ?_)) h1
      intro l hl
      exact (Bool.and_eq_true_iff.mp hl).1
    rw [htally]
    cases flag with
    | false => simp [toU32, h1] at h2 ⊢; exact h2
    | true =>
      simp only [if_true]
      rw [toU32_of_lt (by omega)]
      refine ⟨h1, hpre, by omega, ?_, h2⟩
      simp

/-- C11, witness: the list with an environment light with a texture and one
without, with the flag set: the tally is 1. -/
theorem C11_importance_sampled_tally_witness :
    (Process intOps (refPlatform insertionSortFront) (freshState 1000) exampleScene
      mixedLights true).numImportanceSampledEnvironmentLights =
        toU32 (if true then (mixedLights.filter texturedEnvironment).length else 0) ∧
    ((mixedLights.filter texturedEnvironment).length ≤ 1 →
      (Process intOps (refPlatform insertionSortFront) (freshState 1000) exampleScene
        mixedLights true).numImportanceSampledEnvironmentLights ≤ 1) :=
  have h := C11_importance_sampled_tally intOps (refPlatform insertionSortFront)
    (freshState 1000) exampleScene mixedLights true refPlatform_front_contract
  ⟨h.2.2.1, fun hp => (h.2.2.2 hp).2.1⟩

/-! Lemmas: the quantised log-radiance under the laws of the float operations -/

/-- The local `packedRadiance` in terms of the quantised clamped logarithm. -/
theorem packedRadiance_eq (fo : FloatOps F) (P : Platform F) (m : F) :
    packedRadiance fo P m =
      min (toU32 (toU32 (fo.toUInt (fo.ceilf (fo.mul (fo.saturate
        (fo.div (fo.sub (fo.log2f m) P.kPolymorphicLightMinLog2Radiance)
          (fo.sub P.kPolymorphicLightMaxLog2Radiance P.kPolymorphicLightMinLog2Radiance)))
        (fo.ofUInt 65534)))) + 1)) 65535 := rfl

/-- Under the laws, when 0 is a number: `0 <= 1`, `0 <= c` and `c <= c`. -/
theorem PackingLaws.constants {fo : FloatOps F} {P : Platform F} (laws : PackingLaws fo P)
    (h00 : fo.le fo.zero fo.zero = true) :
    fo.le fo.zero fo.one = true ∧ fo.le fo.zero (fo.ofUInt 65534) = true ∧
    fo.le (fo.ofUInt 65534) (fo.ofUInt 65534) = true := by
  have h01 : fo.le fo.zero fo.one = true := by
    have := (laws.saturate_range fo.zero h00).2
    rwa [laws.saturate_zero] at this
  have h0c : fo.le fo.zero (fo.ofUInt 65534) = true := by
    have := laws.mul_mono _ _ h01
    rwa [laws.zero_mul, laws.one_mul] at this
  exact ⟨h01, h0c, laws.le_refl_right _ _ h0c⟩

/-- Under the laws the quantised clamped value of a number `t` lies between 0
and `c`, and its conversion to `uint` is at most 65534. -/
theorem PackingLaws.quantum_range {fo : FloatOps F} {P : Platform F} (laws : PackingLaws fo P)
    (h00 : fo.le fo.zero fo.zero = true) (t : F) (ht : fo.le t t = true) :
    fo.le fo.zero (fo.ceilf (fo.mul (fo.saturate t) (fo.ofUInt 65534))) = true ∧
    fo.le (fo.ceilf (fo.mul (fo.saturate t) (fo.ofUInt 65534))) (fo.ofUInt 65534) = true ∧
    fo.toUInt (fo.ceilf (fo.mul (fo.saturate t) (fo.ofUInt 65534))) ≤ 65534 := by
  obtain ⟨-, -, hcc⟩ := laws.constants h00
  obtain ⟨s0, s1⟩ := laws.saturate_range t ht
  have m0 := laws.mul_mono _ _ s0
  have m1 := laws.mul_mono _ _ s1
  rw [laws.zero_mul] at m0
  rw [laws.one_mul] at m1
  have c0 := laws.ceilf_mono _ _ m0
  have c1 := laws.ceilf_mono _ _ m1
  rw [laws.ceilf_zero] at c0
  rw [laws.ceilf_c] at c1
  refine ⟨c0, c1, ?_⟩
  have := laws.toUInt_mono _ _ c0 c1 hcc
  rwa [laws.toUInt_c] at this

/-- Under the laws the quantised clamped value is non-decreasing. -/
theorem PackingLaws.quantum_mono {fo : FloatOps F} {P : Platform F} (laws : PackingLaws fo P)
    (h00 : fo.le fo.zero fo.zero = true) (t t2 : F) (h : fo.le t t2 = true) :
    fo.le (fo.ceilf (fo.mul (fo.saturate t) (fo.ofUInt 65534)))
      (fo.ceilf (fo.mul (fo.saturate t2) (fo.ofUInt 65534))) = true ∧
    fo.toUInt (fo.ceilf (fo.mul (fo.saturate t) (fo.ofUInt 65534))) ≤
      fo.toUInt (fo.ceilf (fo.mul (fo.saturate t2) (fo.ofUInt 65534))) := by
  have hc := laws.ceilf_mono _ _ (laws.mul_mono _ _ (laws.saturate_mono _ _ h))
  obtain ⟨a0, -, -⟩ := laws.quantum_range h00 t (laws.le_refl_left _ _ h)
  obtain ⟨-, b1, -⟩ := laws.quantum_range h00 t2 (laws.le_refl_right _ _ h)
  exact ⟨hc, laws.toUInt_mono _ _ a0 hc b1⟩

/-- Under the laws the normalised logarithm is non-decreasing on the positive
numbers. -/
theorem PackingLaws.normalised_mono {fo : FloatOps F} {P : Platform F} (laws : PackingLaws fo P)
    (m m2 : F) (hpos : fo.lt fo.zero m = true) (h : fo.le m m2 = true) :
    fo.le
      (fo.div (fo.sub (fo.log2f m) P.kPolymorphicLightMinLog2Radiance)
        (fo.sub P.kPolymorphicLightMaxLog2Radiance P.kPolymorphicLightMinLog2Radiance))
      (fo.div (fo.sub (fo.log2f m2) P.kPolymorphicLightMinLog2Radiance)
        (fo.sub P.kPolymorphicLightMaxLog2Radiance P.kPolymorphicLightMinLog2Radiance))
      = true :=
  laws.div_mono _ _ (laws.sub_mono _ _ (laws.log2f_mono _ _ hpos h))

/-- Under the laws the local `packedRadiance` is one more than a value that is
at most 65534, when the normalised logarithm is a number. -/
theorem PackingLaws.packedRadiance_eq_succ {fo : FloatOps F} {P : Platform F}
    (laws : PackingLaws fo P) (h00 : fo.le fo.zero fo.zero = true) (m : F)
    (ht : fo.le
      (fo.div (fo.sub (fo.log2f m) P.kPolymorphicLightMinLog2Radiance)
        (fo.sub P.kPolymorphicLightMaxLog2Radiance P.kPolymorphicLightMinLog2Radiance))
      (fo.div (fo.sub (fo.log2f m) P.kPolymorphicLightMinLog2Radiance)
        (fo.sub P.kPolymorphicLightMaxLog2Radiance P.kPolymorphicLightMinLog2Radiance))
      = true) :
    fo.toUInt (fo.ceilf (fo.mul (fo.saturate
      (fo.div (fo.sub (fo.log2f m) P.kPolymorphicLightMinLog2Radiance)
        (fo.sub P.kPolymorphicLightMaxLog2Radiance P.kPolymorphicLightMinLog2Radiance)))
      (fo.ofUInt 65534))) ≤ 65534 ∧
    packedRadiance fo P m =
      fo.toUInt (fo.ceilf (fo.mul (fo.saturate
        (fo.div (fo.sub (fo.log2f m) P.kPolymorphicLightMinLog2Radiance)
          (fo.sub P.kPolymorphicLightMaxLog2Radiance P.kPolymorphicLightMinLog2Radiance)))
        (fo.ofUInt 65534))) + 1 := by
  obtain ⟨-, -, hn⟩ := laws.quantum_range h00 _ ht
  refine ⟨hn, ?_⟩
  rw [packedRadiance_eq]
  generalize fo.toUInt (fo.ceilf (fo.mul (fo.saturate
      (fo.div (fo.sub (fo.log2f m) P.kPolymorphicLightMinLog2Radiance)
        (fo.sub P.kPolymorphicLightMaxLog2Radiance P.kPolymorphicLightMinLog2Radiance)))
      (fo.ofUInt 65534))) = n at hn
  have t1 : toU32 n = n := toU32_of_lt (by omega)
  rw [t1, toU32_of_lt (by omega)]
  omega

/-- C19: the quantised log-radiance of a colour whose largest channel is
`> 0`, for every implementation of the float operations that has the laws
`PackingLaws` (rounding is allowed; IEEE 754 arithmetic has the laws). For
every colour whose `maxRadiance`, the largest channel as computed by
`packLightColor`, is `> 0`: `packLightColor` ors `packedRadiance` into the
field `logRadiance`, so a record whose field was 0 holds exactly
`packedRadiance`; `packedRadiance` lies between 1 and 65535, is not 0 and fits
in 16 bits; it is 1 when the largest channel is at or below a number `lo` with
`log2f(lo) <= kPolymorphicLightMinLog2Radiance` (such as 2 to that power); it
is 65535 when the largest channel is at or above a positive number `hi` with
`log2f(hi) >= kPolymorphicLightMaxLog2Radiance` (such as 2 to that power); and
a colour with a largest channel at least as large has a `packedRadiance` at
least as large. -/
theorem C19_quantised_log_radiance (fo : FloatOps F) (P : Platform F)
    (color color2 : Float3 F) (lightInfo : PolymorphicLightInfo F)
    (laws : PackingLaws fo P)
    (hpos : fo.lt fo.zero (maxRadiance fo color) = true) :
    (packLightColor fo P color lightInfo).logRadiance =
      lightInfo.logRadiance ||| packedRadiance fo P (maxRadiance fo color) ∧
    (lightInfo.logRadiance = 0 →
      (packLightColor fo P color lightInfo).logRadiance =
        packedRadiance fo P (maxRadiance fo color)) ∧
    1 ≤ packedRadiance fo P (maxRadiance fo color) ∧
    packedRadiance fo P (maxRadiance fo color) ≤ 65535 ∧
    packedRadiance fo P (maxRadiance fo color) ≠ 0 ∧
    packedRadiance fo P (maxRadiance fo color) < 2 ^ 16 ∧
    (∀ lo : F, fo.le (fo.log2f lo) P.kPolymorphicLightMinLog2Radiance = true →
      fo.le (maxRadiance fo color) lo = true →
      packedRadiance fo P (maxRadiance fo color) = 1) ∧
    (∀ hi : F, fo.lt fo.zero hi = true →
      fo.le P.kPolymorphicLightMaxLog2Radiance (fo.log2f hi) = true →
      fo.le hi (maxRadiance fo color) = true →
      packedRadiance fo P (maxRadiance fo color) = 65535) ∧
    (fo.le (maxRadiance fo color) (maxRadiance fo color2) = true →
      packedRadiance fo P (maxRadiance fo color) ≤
        packedRadiance fo P (maxRadiance fo color2)) := by
  have h0m := laws.le_of_lt _ _ hpos
  have h00 := laws.le_refl_left _ _ h0m
  obtain ⟨h01, h0c, hcc⟩ := laws.constants h00
  have hmm := laws.le_refl_right _ _ h0m
  obtain ⟨hn, hp⟩ := laws.packedRadiance_eq_succ h00 (maxRadiance fo color)
    (laws.normalised_mono _ _ hpos hmm)
  have hfield : (packLightColor fo P color lightInfo).logRadiance =
      lightInfo.logRadiance ||| packedRadiance fo P (maxRadiance fo color) := by
    rw [packLightColor_eq, if_neg]
    rw [laws.not_le_of_lt _ _ hpos]
    exact Bool.false_ne_true
  refine ⟨hfield, ?_, by omega, by omega, by omega, by omega, ?_, ?_, ?_⟩
  · intro h0
    rw [hfield, h0, Nat.zero_or]
  · intro lo hlo hle
    have l1 := laws.le_trans _ _ _ (laws.log2f_mono _ _ hpos hle) hlo
    have l2 := laws.div_mono _ _ (laws.sub_mono _ _ l1)
    rw [laws.sub_self, laws.zero_div] at l2
    obtain ⟨-, q2⟩ := laws.quantum_mono h00 _ _ l2
    rw [laws.saturate_zero, laws.zero_mul, laws.ceilf_zero, laws.toUInt_zero] at q2
    omega
  · intro hi hhipos hhi hle
    have l1 := laws.le_trans _ _ _ hhi (laws.log2f_mono _ _ hhipos hle)
    have l2 := laws.div_mono _ _ (laws.sub_mono _ _ l1)
    rw [laws.div_self] at l2
    obtain ⟨-, q2⟩ := laws.quantum_mono h00 _ _ l2
    rw [laws.saturate_one, laws.one_mul, laws.ceilf_c, laws.toUInt_c] at q2
    omega
  · intro hle
    have ht := laws.normalised_mono _ _ hpos hle
    obtain ⟨hn2, hp2⟩ := laws.packedRadiance_eq_succ h00 (maxRadiance fo color2)
      (laws.le_refl_right _ _ ht)
    obtain ⟨-, q2⟩ := laws.quantum_mono h00 _ _ ht
    omega

/-! Lemmas: the laws hold for the integer stand-in -/

/-- The integer stand-in for the float operations, which rounds quotients and
logarithms down to integers, has the laws of the quantisation for the header
constants -8 and 40. -/
theorem intOps_packingLaws : PackingLaws intOps (refPlatform insertionSortFront) where
  le_trans := by
    intro a b c h1 h2
    simp only [intOps, decide_eq_true_eq] at *
    omega
  le_refl_left := by
    intro a b _
    simp [intOps]
  le_refl_right := by
    intro a b _
    simp [intOps]
  le_of_lt := by
    intro a b h
    simp only [intOps, decide_eq_true_eq] at *
    omega
  not_le_of_lt := by
    intro a b h
    simp only [intOps, decide_eq_true_eq, decide_eq_false_iff_not] at *
    omega
  log2f_mono := by
    intro a b _ h
    simp only [intOps, decide_eq_true_eq] at *
    rw [Nat.log2_eq_log_two, Nat.log2_eq_log_two]
    exact_mod_cast Nat.log_mono_right (Int.toNat_le_toNat h)
  sub_mono := by
    intro a b h
    simp only [intOps, refPlatform, decide_eq_true_eq] at *
    omega
  div_mono := by
    intro a b h
    simp only [intOps, refPlatform, decide_eq_true_eq] at *
    exact Int.ediv_le_ediv (by norm_num) h
  saturate_mono := by
    intro a b h
    simp only [intOps, decide_eq_true_eq] at *
    split_ifs <;> omega
  saturate_range := by
    intro a _
    simp only [intOps, decide_eq_true_eq]
    split_ifs <;> constructor <;> omega
  mul_mono := by
    intro a b h
    simp only [intOps, decide_eq_true_eq] at *
    omega
  ceilf_mono := by
    intro a b h
    simpa [intOps] using h
  toUInt_mono := by
    intro a b _ h _
    simp only [intOps, decide_eq_true_eq] at *
    exact Int.toNat_le_toNat h
  sub_self := by decide
  zero_div := by decide
  div_self := by decide
  saturate_zero := by decide
  saturate_one := by decide
  zero_mul := by decide
  one_mul := by decide
  ceilf_zero := by decide
  ceilf_c := by decide
  toUInt_zero := by decide
  toUInt_c := by decide

/-- The integer stand-in has the laws of the reconstruction of the scale for
the header constants -8 and 40. -/
theorem intOps_decodeLaws : DecodeLaws intOps (refPlatform insertionSortFront) where
  ofUInt_range := by
    intro n hn
    simp only [intOps, decide_eq_true_eq]
    omega
  div_c_mono := by
    intro a b h
    simp only [intOps, decide_eq_true_eq] at *
    exact Int.ediv_le_ediv (by norm_num) h
  zero_div_c := by decide
  c_div_c := by decide
  mul_range_mono := by
    intro a b h
    simp only [intOps, refPlatform, decide_eq_true_eq] at *
    omega
  zero_mul_range := by decide
  one_mul_range := by decide
  add_mono := by
    intro a b h
    simp only [intOps, refPlatform, decide_eq_true_eq] at *
    omega
  zero_add := by decide
  range_add := by decide
  exp2f_pos := by
    intro t _ _
    simp only [intOps, decide_eq_true_eq]
    positivity
  div_nonneg := by
    intro x t _ _ h
    simp only [intOps, decide_eq_true_eq] at *
    exact Int.ediv_nonneg h (by positivity)

/-- C19, witness: with the integer stand-in for the floats, which has the
laws, the colour `(0, 0, 2^41)` has a largest channel above `2^40`, whose
`log2f` is 40: its quantised log-radiance is 65535, and it is at least that of
every colour with a larger largest channel. -/
theorem C19_quantised_log_radiance_witness :
    1 ≤ packedRadiance intOps (refPlatform insertionSortFront)
      (maxRadiance intOps ⟨0, 0, 2199023255552⟩) ∧
    packedRadiance intOps (refPlatform insertionSortFront)
      (maxRadiance intOps ⟨0, 0, 2199023255552⟩) ≤ 65535 ∧
    packedRadiance intOps (refPlatform insertionSortFront)
      (maxRadiance intOps ⟨0, 0, 2199023255552⟩) = 65535 ∧
    (intOps.le (maxRadiance intOps ⟨0, 0, 2199023255552⟩)
        (maxRadiance intOps ⟨4398046511104, 1, 0⟩) = true →
      packedRadiance intOps (refPlatform insertionSortFront)
          (maxRadiance intOps ⟨0, 0, 2199023255552⟩) ≤
        packedRadiance intOps (refPlatform insertionSortFront)
          (maxRadiance intOps ⟨4398046511104, 1, 0⟩)) :=
  have h := C19_quantised_log_radiance intOps (refPlatform insertionSortFront)
    ⟨0, 0, 2199023255552⟩ ⟨4398046511104, 1, 0⟩ (PolymorphicLightInfo.init intOps)
    intOps_packingLaws (by decide)
  ⟨h.2.2.1, h.2.2.2.1,
    h.2.2.2.2.2.2.2.1 1099511627776 (by decide)
      (by
        have hlog : Nat.log2 1099511627776 = 40 := by
          rw [Nat.log2_eq_log_two, show (1099511627776 : Nat) = 2 ^ 40 by norm_num,
            Nat.log_pow (by norm_num)]
        simp [intOps, refPlatform, hlog])
      (by decide),
    h.2.2.2.2.2.2.2.2⟩

/-! Lemmas: the colour bits and the scale -/

/-- The colour bits built by `FLOAT3_to_R8G8B8_UNORM` fit in 24 bits. -/
theorem FLOAT3_to_R8G8B8_UNORM_lt (fo : FloatOps F) (x y z : F) :
    FLOAT3_to_R8G8B8_UNORM fo x y z < 2 ^ 24 := by
  unfold FLOAT3_to_R8G8B8_UNORM
  have h1 : floatToUInt fo (fo.saturate x) (fo.ofUInt 255) &&& 255 < 2 ^ 24 :=
    lt_of_le_of_lt Nat.and_le_right (by norm_num)
  have h2 : (floatToUInt fo (fo.saturate y) (fo.ofUInt 255) &&& 255) <<< 8 < 2 ^ 24 := by
    rw [Nat.shiftLeft_eq]
    have : floatToUInt fo (fo.saturate y) (fo.ofUInt 255) &&& 255 ≤ 255 := Nat.and_le_right
    omega
  have h3 : (floatToUInt fo (fo.saturate z) (fo.ofUInt 255) &&& 255) <<< 16 < 2 ^ 24 := by
    rw [Nat.shiftLeft_eq]
    have : floatToUInt fo (fo.saturate z) (fo.ofUInt 255) &&& 255 ≤ 255 := Nat.and_le_right
    omega
  have h4 := Nat.or_lt_two_pow (Nat.or_lt_two_pow h1 h2) h3
  unfold toU32
  exact lt_of_le_of_lt (Nat.mod_le _ _) h4

/-- Under the laws the exponent from which the scale is reconstructed lies
between `min` and `max`, for a quantised value between 1 and 65535. -/
theorem DecodeLaws.exponent_range {fo : FloatOps F} {P : Platform F} (dlaws : DecodeLaws fo P)
    (n : Nat) (hn : n ≤ 65534) :
    fo.le P.kPolymorphicLightMinLog2Radiance
      (fo.add (fo.mul (fo.div (fo.ofUInt n) (fo.ofUInt 65534))
        (fo.sub P.kPolymorphicLightMaxLog2Radiance P.kPolymorphicLightMinLog2Radiance))
        P.kPolymorphicLightMinLog2Radiance) = true ∧
    fo.le
      (fo.add (fo.mul (fo.div (fo.ofUInt n) (fo.ofUInt 65534))
        (fo.sub P.kPolymorphicLightMaxLog2Radiance P.kPolymorphicLightMinLog2Radiance))
        P.kPolymorphicLightMinLog2Radiance)
      P.kPolymorphicLightMaxLog2Radiance = true := by
  obtain ⟨a0, a1⟩ := dlaws.ofUInt_range n hn
  have b0 := dlaws.div_c_mono _ _ a0
  have b1 := dlaws.div_c_mono _ _ a1
  rw [dlaws.zero_div_c] at b0
  rw [dlaws.c_div_c] at b1
  have c0 := dlaws.mul_range_mono _ _ b0
  have c1 := dlaws.mul_range_mono _ _ b1
  rw [dlaws.zero_mul_range] at c0
  rw [dlaws.one_mul_range] at c1
  have d0 := dlaws.add_mono _ _ c0
  have d1 := dlaws.add_mono _ _ c1
  rw [dlaws.zero_add] at d0
  rw [dlaws.range_add] at d1
  exact ⟨d0, d1⟩

/-- The local `unpackedRadiance` for the quantised value `n + 1`. -/
theorem unpackedRadiance_succ (fo : FloatOps F) (P : Platform F) (n : Nat) (hn : n ≤ 65534) :
    unpackedRadiance fo P (n + 1) =
      fo.exp2f (fo.add (fo.mul (fo.div (fo.ofUInt n) (fo.ofUInt 65534))
        (fo.sub P.kPolymorphicLightMaxLog2Radiance P.kPolymorphicLightMinLog2Radiance))
        P.kPolymorphicLightMinLog2Radiance) := by
  have e : toU32 (n + 1 + 4294967295) = n := by unfold toU32; omega
  simp only [unpackedRadiance, e]

/-- C20: the scale of `packLightColor` and the channel ratios, for every
implementation of the float operations that has the laws `PackingLaws` and
`DecodeLaws` (rounding is allowed; IEEE 754 arithmetic has the laws). For every
colour whose `maxRadiance` is `> 0`: `packLightColor` ors `packedRadiance` into
`logRadiance` and ors into `colorTypeAndFlags` the colour bits that
`FLOAT3_to_R8G8B8_UNORM` builds from the three channels divided by the scale;
the scale is `unpackedRadiance`, computed from the stored `packedRadiance`
alone, namely `exp2f((packedRadiance - 1) / 65534 * (max - min) + min)` in the
float operations, where `packedRadiance - 1` does not wrap; the colour bits fit
in 24 bits; the scale is positive; and the ratio of a channel that is `>= 0` is
`>= 0`. No upper bound of 1 is stated: the ratios reach
`FLOAT3_to_R8G8B8_UNORM`, which clamps them with `saturate`. -/
theorem C20_scale_and_channel_ratios (fo : FloatOps F) (P : Platform F) (color : Float3 F)
    (lightInfo : PolymorphicLightInfo F) (laws : PackingLaws fo P) (dlaws : DecodeLaws fo P)
    (hpos : fo.lt fo.zero (maxRadiance fo color) = true) :
    (packLightColor fo P color lightInfo).logRadiance =
      lightInfo.logRadiance ||| packedRadiance fo P (maxRadiance fo color) ∧
    (packLightColor fo P color lightInfo).colorTypeAndFlags =
      lightInfo.colorTypeAndFlags |||
        FLOAT3_to_R8G8B8_UNORM fo (fo.div color.x (colorScale fo P color))
          (fo.div color.y (colorScale fo P color)) (fo.div color.z (colorScale fo P color)) ∧
    colorScale fo P color =
      unpackedRadiance fo P (packedRadiance fo P (maxRadiance fo color)) ∧
    FLOAT3_to_R8G8B8_UNORM fo (fo.div color.x (colorScale fo P color))
      (fo.div color.y (colorScale fo P color)) (fo.div color.z (colorScale fo P color))
      < 2 ^ 24 ∧
    fo.lt fo.zero (colorScale fo P color) = true ∧
    (fo.le fo.zero color.x = true →
      fo.le fo.zero (fo.div color.x (colorScale fo P color)) = true) ∧
    (fo.le fo.zero color.y = true →
      fo.le fo.zero (fo.div color.y (colorScale fo P color)) = true) ∧
    (fo.le fo.zero color.z = true →
      fo.le fo.zero (fo.div color.z (colorScale fo P color)) = true) ∧
    fo.le fo.zero (fo.div (maxRadiance fo color) (colorScale fo P color)) = true ∧
    colorScale fo P color =
      fo.exp2f (fo.add (fo.mul
        (fo.div (fo.ofUInt (packedRadiance fo P (maxRadiance fo color) - 1)) (fo.ofUInt 65534))
        (fo.sub P.kPolymorphicLightMaxLog2Radiance P.kPolymorphicLightMinLog2Radiance))
        P.kPolymorphicLightMinLog2Radiance) := by
  have h0m := laws.le_of_lt _ _ hpos
  have h00 := laws.le_refl_left _ _ h0m
  have hmm := laws.le_refl_right _ _ h0m
  obtain ⟨hn, hp⟩ := laws.packedRadiance_eq_succ h00 (maxRadiance fo color)
    (laws.normalised_mono _ _ hpos hmm)
  have hnot : ¬ (fo.le (maxRadiance fo color) fo.zero = true) := by
    rw [laws.not_le_of_lt _ _ hpos]
    exact Bool.false_ne_true
  have hscale : colorScale fo P color =
      fo.exp2f (fo.add (fo.mul (fo.div (fo.ofUInt (fo.toUInt (fo.ceilf (fo.mul (fo.saturate
        (fo.div (fo.sub (fo.log2f (maxRadiance fo color)) P.kPolymorphicLightMinLog2Radiance)
          (fo.sub P.kPolymorphicLightMaxLog2Radiance P.kPolymorphicLightMinLog2Radiance)))
        (fo.ofUInt 65534))))) (fo.ofUInt 65534))
        (fo.sub P.kPolymorphicLightMaxLog2Radiance P.kPolymorphicLightMinLog2Radiance))
        P.kPolymorphicLightMinLog2Radiance) := by
    unfold colorScale
    rw [hp, unpackedRadiance_succ fo P _ hn]
  obtain ⟨e0, e1⟩ := dlaws.exponent_range _ hn
  refine ⟨?_, ?_, rfl, FLOAT3_to_R8G8B8_UNORM_lt fo _ _ _, ?_, ?_, ?_, ?_, ?_, ?_⟩
  · rw [packLightColor_eq, if_neg hnot]
  · rw [packLightColor_eq, if_neg hnot]
    rfl
  · rw [hscale]
    exact dlaws.exp2f_pos _ e0 e1
  · intro hx
    rw [hscale]
    exact dlaws.div_nonneg _ _ e0 e1 hx
  · intro hy
    rw [hscale]
    exact dlaws.div_nonneg _ _ e0 e1 hy
  · intro hz
    rw [hscale]
    exact dlaws.div_nonneg _ _ e0 e1 hz
  · rw [hscale]
    exact dlaws.div_nonneg _ _ e0 e1 h0m
  · rw [hscale, hp, Nat.add_sub_cancel]

/-- C20, witness: with the integer stand-in for the floats, for the colour
`(0, 5, 2^41)` the scale is positive, the colour bits fit in 24 bits and the
ratios of the channels are `>= 0`. -/
theorem C20_scale_and_channel_ratios_witness :
    colorScale intOps (refPlatform insertionSortFront) ⟨0, 5, 2199023255552⟩ =
      unpackedRadiance intOps (refPlatform insertionSortFront)
        (packedRadiance intOps (refPlatform insertionSortFront)
          (maxRadiance intOps ⟨0, 5, 2199023255552⟩)) ∧
    intOps.lt intOps.zero
      (colorScale intOps (refPlatform insertionSortFront) ⟨0, 5, 2199023255552⟩) = true ∧
    (intOps.le intOps.zero 5 = true →
      intOps.le intOps.zero
        (intOps.div 5 (colorScale intOps (refPlatform insertionSortFront)
          ⟨0, 5, 2199023255552⟩)) = true) ∧
    intOps.le intOps.zero
      (intOps.div (maxRadiance intOps ⟨0, 5, 2199023255552⟩)
        (colorScale intOps (refPlatform insertionSortFront) ⟨0, 5, 2199023255552⟩)) = true :=
  have h := C20_scale_and_channel_ratios intOps (refPlatform insertionSortFront)
    ⟨0, 5, 2199023255552⟩ (PolymorphicLightInfo.init intOps)
    intOps_packingLaws intOps_decodeLaws (by decide)
  ⟨h.2.2.1, h.2.2.2.2.1, h.2.2.2.2.2.2.1, h.2.2.2.2.2.2.2.2.1⟩

end RTXDI
